import Mathlib

/-!
Space Shooter Ultimate: simulation core

A shallow embedding of the simulation core of `src/Source.cpp` (entity model,
combat rules, boss state machine, wave director, session tick) together with
theorems about it.

Conventions of the embedding

* `float` fields and `float` arithmetic are carried by exact rationals `ℚ`;
  `int` fields are carried by `Int` (no overflow is modelled: signed overflow
  is undefined behaviour in the source language).
* The C library functions `sqrt`, `sin`, `cos` and the process-wide random
  generator are not part of the repository; they are fields of `Env`.  A draw
  of the generator is a function of the number of draws made so far (`rng`).
* Sprites, textures, sounds, the particle system and the star field only feed
  the renderer and the audio device and are left out.  The one simulation
  value that depends on a texture, the bounding radius set by `setupSprite`,
  reads the texture width from `Env`.
* `vector<unique_ptr<T>>` containers are lists; `unique_ptr<FinalBoss>` is an
  `Option`.
-/

namespace SpaceShooter

/-! ## Constants -/

def SCREEN_WIDTH : ℚ := 1200
def SCREEN_HEIGHT : ℚ := 800
def MAX_HIGH_SCORES : Nat := 10
def PI : ℚ := 314159265359 / 100000000000
def MAX_LEVELS : Int := 2
def PHASES_PER_LEVEL : Int := 2
def PLAYER_MAX_HEALTH : ℚ := 100
def PLAYER_MAX_SHIELD : ℚ := 50
def BASE_FIRE_RATE : ℚ := 25 / 100
def MIN_FIRE_RATE : ℚ := 10 / 100
def MAX_PLAYER_SPEED : ℚ := 350

/-- The functions the program takes from outside the repository. -/
structure Env where
  /-- `sqrt` of the C library -/
  sqrt : ℚ → ℚ
  /-- `sin` of the C library -/
  sin : ℚ → ℚ
  /-- `cos` of the C library -/
  cos : ℚ → ℚ
  /-- `RandomGenerator::range(int, int)` at the given draw number -/
  randInt : Nat → Int → Int → Int
  /-- `RandomGenerator::range(float, float)` at the given draw number -/
  randFloat : Nat → ℚ → ℚ → ℚ
  /-- width in pixels of the texture registered under a name, if any -/
  textureWidth : String → Option ℚ
  /-- `std::sort` of the high-score list with the comparator `a.second > b.second` -/
  sortByScore : List (String × Int) → List (String × Int)

/-- Conversion `static_cast<int>(float)`: truncation towards zero. -/
def truncToInt (q : ℚ) : Int := if 0 ≤ q then ⌊q⌋ else ⌈q⌉

/-! ## Binary32 rounding -/

/-- Rounding of a rational to the nearest integer, ties to the even one. -/
def roundHalfEven (x : ℚ) : Int :=
  if x - ⌊x⌋ < 1 / 2 then ⌊x⌋
  else if 1 / 2 < x - ⌊x⌋ then ⌊x⌋ + 1
  else if ⌊x⌋ % 2 = 0 then ⌊x⌋ else ⌊x⌋ + 1

/-- Rounding to binary32, the arithmetic of `float`: the nearest number with a significand of
    24 bits, ties to even. The exponent range is not bounded: overflow is not modelled, and a
    sum or difference of binary32 numbers is rounded as with gradual underflow. -/
def fl32 (q : ℚ) : ℚ :=
  if q = 0 then 0
  else (roundHalfEven (q / (2 : ℚ) ^ (Int.log 2 |q| - 23)) : ℚ) * (2 : ℚ) ^ (Int.log 2 |q| - 23)

/-- The binary32 literal `0.05f`, the frame time of a tick at the clamp of `GameState::update`. -/
def float005 : ℚ := fl32 (5 / 100)

/-- The binary32 literal `0.4f`, the slow-time multiplier while the effect lasts. -/
def float04 : ℚ := fl32 (4 / 10)

/-- The frame time of a display at 30 frames a second, one thirtieth of a second as a binary32
    number. -/
def frame30 : ℚ := fl32 (1 / 30)

/-! ## Vector2 -/

structure Vector2 where
  x : ℚ
  y : ℚ
deriving DecidableEq, Repr

namespace Vector2

def zero : Vector2 := ⟨0, 0⟩

def add (a b : Vector2) : Vector2 := ⟨a.x + b.x, a.y + b.y⟩

def sub (a b : Vector2) : Vector2 := ⟨a.x - b.x, a.y - b.y⟩

def scale (a : Vector2) (scalar : ℚ) : Vector2 := ⟨a.x * scalar, a.y * scalar⟩

def length (env : Env) (a : Vector2) : ℚ := env.sqrt (a.x * a.x + a.y * a.y)

def distanceTo (env : Env) (a other : Vector2) : ℚ := (a.sub other).length env

def normalized (env : Env) (a : Vector2) : Vector2 :=
  let len := a.length env
  if len > 1 / 10000 then ⟨a.x / len, a.y / len⟩ else ⟨0, 0⟩

end Vector2

/-! ## Enumerations -/

inductive GameScreen
  | Intro | Menu | Instructions | Gameplay | Pause | HighScore | GameOver | Victory | BossWarning
deriving DecidableEq, Repr

inductive EnemyType
  | Alpha | Beta | Gamma | Monster | Phantom | Dragon
deriving DecidableEq, Repr

inductive PowerUpType
  | Power | Fire | Shield | Lives | Nuke | MultiShot | Slow | Danger
deriving DecidableEq, Repr

/-- Conversion `static_cast<PowerUpType>(int)` for the values 0..7 of the
enumeration; any other integer is outside the enumerators and is mapped to
the last one. -/
def PowerUpType.ofInt (n : Int) : PowerUpType :=
  if n = 0 then .Power else if n = 1 then .Fire else if n = 2 then .Shield
  else if n = 3 then .Lives else if n = 4 then .Nuke else if n = 5 then .MultiShot
  else if n = 6 then .Slow else .Danger

/-! ## GameObject -/

structure GameObject where
  position : Vector2
  velocity : Vector2
  rotation : ℚ
  active : Bool
  boundingRadius : ℚ
  health : ℚ
  maxHealth : ℚ
deriving DecidableEq, Repr

namespace GameObject

/-- The default constructor `GameObject()`. -/
def new : GameObject :=
  { position := ⟨0, 0⟩, velocity := ⟨0, 0⟩, rotation := 0, active := true,
    boundingRadius := 20, health := 100, maxHealth := 100 }

/-- The base `GameObject::update`: integrate the velocity. -/
def update (o : GameObject) (dt : ℚ) : GameObject :=
  { o with position := o.position.add (o.velocity.scale dt) }

def checkCollision (env : Env) (o other : GameObject) : Bool :=
  if !o.active || !other.active then false
  else decide (o.position.distanceTo env other.position < o.boundingRadius + other.boundingRadius)

/-- The effect of `setupSprite` on the simulation state: the bounding radius
follows the texture when the texture exists. -/
def setupSprite (env : Env) (o : GameObject) (textureName : String) (scale : ℚ) : GameObject :=
  match env.textureWidth textureName with
  | some w => { o with boundingRadius := (w * scale) / (25 / 10) }
  | none => o

end GameObject

/-! ## Bullet -/

structure Bullet extends GameObject where
  fromPlayer : Bool
  damage : Int
  isBossBullet : Bool
deriving DecidableEq, Repr

namespace Bullet

/-- The constructor `Bullet(playerBullet, dmg, bossBullet)`. -/
def new (env : Env) (playerBullet : Bool) (dmg : Int) (bossBullet : Bool) : Bullet :=
  let o := GameObject.new
  let o := if bossBullet then o.setupSprite env "boss_bullet" (12 / 10)
    else if playerBullet then o.setupSprite env "player_bullet" (9 / 10)
    else o.setupSprite env "enemy_bullet" (7 / 10)
  { o with boundingRadius := 8, fromPlayer := playerBullet, damage := dmg,
           isBossBullet := bossBullet }

def update (b : Bullet) (dt : ℚ) : Bullet :=
  let o := b.toGameObject.update dt
  if o.position.x < -50 ∨ o.position.x > SCREEN_WIDTH + 50 ∨
      o.position.y < -50 ∨ o.position.y > SCREEN_HEIGHT + 50 then
    { b with toGameObject := { o with active := false } }
  else { b with toGameObject := o }

end Bullet

/-! ## Spaceship (the player) -/

structure Spaceship extends GameObject where
  shield : ℚ
  maxShield : ℚ
  fireRate : ℚ
  fireTimer : ℚ
  invincibilityTimer : ℚ
  isInvincible : Bool
  lives : Int
  score : Int
  combo : Int
  comboTimer : ℚ
  powerLevel : Int
  multiShotLevel : Int
  hasShield : Bool
deriving DecidableEq, Repr

namespace Spaceship

/-- The constructor `Spaceship()`. -/
def new (env : Env) : Spaceship :=
  let o := GameObject.new.setupSprite env "spaceship" (12 / 10)
  { o with
    health := PLAYER_MAX_HEALTH, maxHealth := PLAYER_MAX_HEALTH,
    shield := 0, maxShield := PLAYER_MAX_SHIELD, fireRate := BASE_FIRE_RATE, fireTimer := 0,
    invincibilityTimer := 0, isInvincible := false, lives := 3, score := 0, combo := 0,
    comboTimer := 0, powerLevel := 1, multiShotLevel := 1, hasShield := false }

/-- `Spaceship::update`. The three timers are lowered by `timer -= dt` in binary32: the
stored value is the rounded difference, and the tests `timer <= 0` read the stored value. -/
def update (p : Spaceship) (dt : ℚ) : Spaceship :=
  let o := p.toGameObject.update dt
  let pos : Vector2 :=
    ⟨max 30 (min (SCREEN_WIDTH - 30) o.position.x), max 30 (min (SCREEN_HEIGHT - 30) o.position.y)⟩
  let p1 : Spaceship :=
    { p with toGameObject := { o with position := pos }, fireTimer := fl32 (p.fireTimer - dt) }
  let p2 : Spaceship :=
    if p1.isInvincible then
      let t := fl32 (p1.invincibilityTimer - dt)
      { p1 with invincibilityTimer := t, isInvincible := if t ≤ 0 then false else p1.isInvincible }
    else p1
  if p2.combo > 0 then
    let t := fl32 (p2.comboTimer - dt)
    { p2 with comboTimer := t, combo := if t ≤ 0 then 0 else p2.combo }
  else p2

def canFire (p : Spaceship) : Bool := decide (p.fireTimer ≤ 0)

def resetFireTimer (p : Spaceship) : Spaceship := { p with fireTimer := p.fireRate }

def takeDamage (p : Spaceship) (dmg : ℚ) : Spaceship :=
  if p.isInvincible then p
  else if p.hasShield ∧ p.shield > 0 then
    let sh := p.shield - dmg
    if sh ≤ 0 then { p with shield := 0, hasShield := false }
    else { p with shield := sh }
  else
    let h := p.health - dmg
    if h ≤ 0 then
      let l := p.lives - 1
      if l > 0 then
        { p with health := p.maxHealth, lives := l, isInvincible := true, invincibilityTimer := 3 }
      else { p with health := h, lives := l }
    else { p with health := h }

def addScore (p : Spaceship) (points : Int) : Spaceship :=
  let c := p.combo + 1
  let comboMultiplier := min c 10
  { p with combo := c, comboTimer := 2, score := p.score + points * comboMultiplier }

def applyPowerUp (p : Spaceship) (type : PowerUpType) : Spaceship :=
  match type with
  | .Power =>
    { p with powerLevel := min (p.powerLevel + 1) 5,
             fireRate := max (p.fireRate - 15 / 1000) MIN_FIRE_RATE }
  | .Fire => { p with fireRate := max (p.fireRate - 25 / 1000) MIN_FIRE_RATE }
  | .Shield => { p with hasShield := true, shield := p.maxShield }
  | .Lives => { p with lives := p.lives + 1, health := min (p.health + 30) p.maxHealth }
  | .MultiShot => { p with multiShotLevel := min (p.multiShotLevel + 1) 5 }
  | .Danger => { p with isInvincible := true, invincibilityTimer := 5 }
  | _ => p

def reset (p : Spaceship) : Spaceship :=
  { p with
    health := p.maxHealth, shield := 0, hasShield := false, fireRate := BASE_FIRE_RATE,
    lives := 3, score := 0, combo := 0, powerLevel := 1, multiShotLevel := 1,
    isInvincible := false, position := ⟨SCREEN_WIDTH / 2, SCREEN_HEIGHT - 100⟩,
    velocity := ⟨0, 0⟩, active := true }

end Spaceship

/-! ## Enemies -/

/-- The state a derived enemy class adds to `Enemy`; the constructor used is
the dynamic class of the object, which selects the `update` override. -/
inductive EnemyExt
  | alpha
  | beta (waveTimer waveAmplitude : ℚ)
  | gamma (seekSpeed : ℚ)
  | monster (chargeTimer : ℚ) (isCharging : Bool)
  | phantom (fadeTimer : ℚ) (isVisible : Bool)
  | dragon (stateTimer : ℚ) (state : Int) (angleOffset : ℚ)
deriving DecidableEq, Repr

structure Enemy extends GameObject where
  type : EnemyType
  scoreValue : Int
  fireRate : ℚ
  fireTimer : ℚ
  level : Int
  phase : Int
  playerPos : Vector2
  ext : EnemyExt
deriving DecidableEq, Repr

namespace Enemy

/-- The base constructor `Enemy(t, lvl, ph)`; it makes one draw. -/
def base (env : Env) (g : Nat) (t : EnemyType) (lvl ph : Int) (x : EnemyExt) : Enemy × Nat :=
  ({ GameObject.new with
      type := t, scoreValue := 100, fireRate := 2, fireTimer := env.randFloat g 1 3,
      level := lvl, phase := ph, playerPos := ⟨0, 0⟩, ext := x }, g + 1)

/-- The base `Enemy::update`. -/
def updateBase (e : Enemy) (dt : ℚ) : Enemy :=
  let o := e.toGameObject.update dt
  { e with
    toGameObject := { o with active := if o.position.y > SCREEN_HEIGHT + 100 then false else o.active },
    fireTimer := e.fireTimer - dt }

def takeDamage (e : Enemy) (dmg : ℚ) : Enemy :=
  let h := e.health - dmg
  { e with health := h, active := if h ≤ 0 then false else e.active }

def canFire (e : Enemy) : Bool :=
  decide (e.fireTimer ≤ 0 ∧ e.position.y > 50 ∧ e.position.y < SCREEN_HEIGHT - 100)

def resetFireTimer (env : Env) (g : Nat) (e : Enemy) : Enemy × Nat :=
  ({ e with fireTimer := e.fireRate + env.randFloat g (-(1 / 2)) (1 / 2) }, g + 1)

def setPlayerPosition (e : Enemy) (pos : Vector2) : Enemy := { e with playerPos := pos }

def setPosition (e : Enemy) (pos : Vector2) : Enemy := { e with position := pos }

/-- The constructor `AlphaEnemy(level, phase)`. -/
def newAlpha (env : Env) (g : Nat) (level phase : Int) : Enemy × Nat :=
  let (e, g) := base env g .Alpha level phase .alpha
  let o := e.toGameObject.setupSprite env "enemy_alpha" (12 / 10)
  let h : ℚ := ((30 + level * 10 : Int) : ℚ)
  ({ e with
      toGameObject := { o with health := h, maxHealth := h,
                               velocity := ⟨env.randFloat g (-30) 30, env.randFloat (g + 1) 80 120⟩ },
      scoreValue := 100 + level * 20, fireRate := 25 / 10 }, g + 2)

/-- The constructor `BetaEnemy(level, phase)`. -/
def newBeta (env : Env) (g : Nat) (level phase : Int) : Enemy × Nat :=
  let (e, g) := base env g .Beta level phase (.beta 0 0)
  let o := e.toGameObject.setupSprite env "enemy_beta" 1
  let h : ℚ := ((45 + level * 15 : Int) : ℚ)
  ({ e with
      toGameObject := { o with health := h, maxHealth := h,
                               velocity := ⟨0, env.randFloat g 60 100⟩ },
      scoreValue := 150 + level * 30, fireRate := 2,
      ext := .beta 0 (env.randFloat (g + 1) 80 150) }, g + 2)

/-- The constructor `GammaEnemy(level, phase)`. -/
def newGamma (env : Env) (g : Nat) (level phase : Int) : Enemy × Nat :=
  let (e, g) := base env g .Gamma level phase (.gamma 0)
  let o := e.toGameObject.setupSprite env "enemy_gamma" (9 / 10)
  let h : ℚ := ((60 + level * 20 : Int) : ℚ)
  ({ e with
      toGameObject := { o with health := h, maxHealth := h,
                               velocity := ⟨0, env.randFloat g 40 70⟩ },
      scoreValue := 200 + level * 40, fireRate := 18 / 10,
      ext := .gamma (100 + (level : ℚ) * 20) }, g + 1)

/-- The constructor `MonsterEnemy(level, phase)`. -/
def newMonster (env : Env) (g : Nat) (level phase : Int) : Enemy × Nat :=
  let (e, g) := base env g .Monster level phase (.monster 3 false)
  let o := e.toGameObject.setupSprite env "enemy_monster" (95 / 100)
  let h : ℚ := ((80 + level * 25 : Int) : ℚ)
  ({ e with
      toGameObject := { o with health := h, maxHealth := h,
                               velocity := ⟨env.randFloat g (-20) 20, 50⟩ },
      scoreValue := 300 + level * 50, fireRate := 15 / 10 }, g + 1)

/-- The constructor `PhantomEnemy(level, phase)`. -/
def newPhantom (env : Env) (g : Nat) (level phase : Int) : Enemy × Nat :=
  let (e, g) := base env g .Phantom level phase (.phantom 2 true)
  let o := e.toGameObject.setupSprite env "enemy_phantom" (8 / 10)
  let h : ℚ := ((50 + level * 15 : Int) : ℚ)
  ({ e with
      toGameObject := { o with health := h, maxHealth := h,
                               velocity := ⟨env.randFloat g (-50) 50, env.randFloat (g + 1) 70 100⟩ },
      scoreValue := 250 + level * 45, fireRate := 13 / 10 }, g + 2)

/-- The constructor `DragonEnemy(level, phase)`. -/
def newDragon (env : Env) (g : Nat) (level phase : Int) : Enemy × Nat :=
  let (e, g) := base env g .Dragon level phase (.dragon 3 0 0)
  let o := e.toGameObject.setupSprite env "enemy_dragon" 1
  let h : ℚ := ((200 + level * 50 : Int) : ℚ)
  ({ e with
      toGameObject := { o with health := h, maxHealth := h, velocity := ⟨0, 0⟩,
                               boundingRadius := 40 },
      scoreValue := 500 + level * 100, fireRate := 5 / 10 }, g)

/-- The virtual `update(dt)` of an enemy, dispatched on its dynamic class. -/
def update (env : Env) (g : Nat) (e : Enemy) (dt : ℚ) : Enemy × Nat :=
  match e.ext with
  | .alpha => (e.updateBase dt, g)
  | .beta waveTimer waveAmplitude =>
    let wt := waveTimer + dt * 3
    let e1 : Enemy :=
      { e with position := ⟨e.position.x + env.sin wt * waveAmplitude * dt, e.position.y⟩,
               ext := .beta wt waveAmplitude }
    (e1.updateBase dt, g)
  | .gamma seekSpeed =>
    let vx : ℚ :=
      if e.playerPos.x > e.position.x + 20 then seekSpeed
      else if e.playerPos.x < e.position.x - 20 then -seekSpeed
      else 0
    let e1 : Enemy := { e with velocity := ⟨vx, e.velocity.y⟩ }
    (e1.updateBase dt, g)
  | .monster chargeTimer isCharging =>
    let ct := chargeTimer - dt
    if !isCharging ∧ ct ≤ 0 then
      let dir := (e.playerPos.sub e.position).normalized env
      let e1 : Enemy := { e with velocity := dir.scale 300, ext := .monster (15 / 10) true }
      (e1.updateBase dt, g)
    else if isCharging ∧ ct ≤ 0 then
      let e1 : Enemy :=
        { e with velocity := ⟨env.randFloat g (-20) 20, 50⟩,
                 ext := .monster (env.randFloat (g + 1) 2 4) false }
      (e1.updateBase dt, g + 2)
    else
      let e1 : Enemy := { e with ext := .monster ct isCharging }
      (e1.updateBase dt, g)
  | .phantom fadeTimer isVisible =>
    let ft := fadeTimer - dt
    let e1 : Enemy :=
      if ft ≤ 0 then { e with ext := .phantom 2 (!isVisible) }
      else { e with ext := .phantom ft isVisible }
    (e1.updateBase dt, g)
  | .dragon stateTimer state angleOffset =>
    let ao := angleOffset + dt
    let pos : Vector2 :=
      ⟨SCREEN_WIDTH / 2 + env.cos ao * 200, 150 + env.sin (ao * (1 / 2)) * 50⟩
    ({ e with position := pos, fireTimer := e.fireTimer - dt,
              active := if e.health ≤ 0 then false else e.active,
              ext := .dragon (stateTimer - dt) state ao }, g)

end Enemy

/-! ## FinalBoss -/

structure FinalBoss extends GameObject where
  bossPhase : Int
  phaseTimer : ℚ
  attackTimer : ℚ
  moveAngle : ℚ
  playerPos : Vector2
  attackPattern : Int
  isEnraged : Bool
  shieldTimer : ℚ
  hasShield : Bool
deriving DecidableEq, Repr

namespace FinalBoss

/-- The constructor `FinalBoss()`. -/
def new (env : Env) : FinalBoss :=
  let o := GameObject.new.setupSprite env "boss" (15 / 10)
  { o with
    health := 500, maxHealth := 500, boundingRadius := 80,
    position := ⟨SCREEN_WIDTH / 2, -150⟩,
    bossPhase := 1, phaseTimer := 0, attackTimer := 0, moveAngle := 0, playerPos := ⟨0, 0⟩,
    attackPattern := 0, isEnraged := false, shieldTimer := 0, hasShield := true }

def setPlayerPosition (b : FinalBoss) (pos : Vector2) : FinalBoss := { b with playerPos := pos }

def update (env : Env) (b : FinalBoss) (dt : ℚ) : FinalBoss :=
  if b.position.y < 150 then
    { b with position := ⟨b.position.x, b.position.y + 50 * dt⟩ }
  else
    let b1 : FinalBoss :=
      { b with attackTimer := b.attackTimer - dt, moveAngle := b.moveAngle + dt,
               phaseTimer := b.phaseTimer + dt, shieldTimer := b.shieldTimer - dt }
    let healthPercent := b1.health / b1.maxHealth
    let b2 : FinalBoss :=
      if healthPercent ≤ 3 / 10 then { b1 with bossPhase := 3, isEnraged := true }
      else if healthPercent ≤ 6 / 10 then { b1 with bossPhase := 2 }
      else b1
    let pos : Vector2 :=
      if b2.bossPhase = 1 then
        ⟨SCREEN_WIDTH / 2 + env.sin (b2.moveAngle * (8 / 10)) * 250,
         150 + env.sin (b2.moveAngle * (5 / 10)) * 30⟩
      else if b2.bossPhase = 2 then
        ⟨SCREEN_WIDTH / 2 + env.sin (b2.moveAngle * (12 / 10)) * 300,
         120 + env.sin (b2.moveAngle * (8 / 10)) * 50⟩
      else if b2.bossPhase = 3 then
        ⟨SCREEN_WIDTH / 2 + env.sin (b2.moveAngle * (15 / 10)) * 350,
         100 + env.sin b2.moveAngle * 80⟩
      else b2.position
    let b3 : FinalBoss := { b2 with position := pos }
    if b3.shieldTimer ≤ 0 ∧ !b3.hasShield ∧ b3.bossPhase ≥ 2 then
      { b3 with hasShield := true, shieldTimer := 10 }
    else b3

def takeDamage (b : FinalBoss) (dmg : ℚ) : FinalBoss :=
  let (d, b1) : ℚ × FinalBoss :=
    if b.hasShield then
      let t := b.shieldTimer - 2
      (dmg * (3 / 10), { b with shieldTimer := t, hasShield := if t ≤ 0 then false else b.hasShield })
    else (dmg, b)
  let h := b1.health - d
  { b1 with health := h, active := if h ≤ 0 then false else b1.active }

/-- A boss bullet placed and launched, as each attack pattern builds it. -/
def mkBullet (env : Env) (dmg : Int) (pos vel : Vector2) : Bullet :=
  { Bullet.new env false dmg true with position := pos, velocity := vel }

def getAttackBullets (env : Env) (b : FinalBoss) : List Bullet × FinalBoss :=
  if b.attackTimer > 0 ∨ b.position.y < 150 then ([], b)
  else
    let attackDelay : ℚ :=
      if b.bossPhase = 1 then 8 / 10 else if b.bossPhase = 2 then 5 / 10
      else if b.bossPhase = 3 then 3 / 10 else 1
    let pat := Int.tmod (b.attackPattern + 1) 4
    let b1 : FinalBoss := { b with attackTimer := attackDelay, attackPattern := pat }
    let bullets : List Bullet :=
      if pat = 0 then
        let bulletCount : Int := 5 + b.bossPhase * 2
        let angleSpread : ℚ := 60 + (b.bossPhase : ℚ) * 20
        let startAngle : ℚ := 90 - angleSpread / 2
        (List.range bulletCount.toNat).map fun i =>
          let angle := (startAngle + (angleSpread / ((bulletCount - 1 : Int) : ℚ)) * (i : ℚ)) * PI / 180
          mkBullet env (15 + b.bossPhase * 5) (b.position.add ⟨0, 40⟩)
            ⟨env.cos angle * 250, env.sin angle * 250⟩
      else if pat = 1 then
        let dir := (b.playerPos.sub b.position).normalized env
        [(-1 : Int), 0, 1].map fun i =>
          mkBullet env (20 + b.bossPhase * 5) (b.position.add ⟨(i : ℚ) * 30, 40⟩) (dir.scale 350)
      else if pat = 2 then
        let bulletCount : Int := 8 + b.bossPhase * 4
        (List.range bulletCount.toNat).map fun i =>
          let angle := (360 / (bulletCount : ℚ) * (i : ℚ) + b.phaseTimer * 30) * PI / 180
          mkBullet env (10 + b.bossPhase * 3) b.position ⟨env.cos angle * 200, env.sin angle * 200⟩
      else if pat = 3 then
        if b.bossPhase ≥ 2 then
          (List.range 3).map fun i =>
            let angle := (b.phaseTimer * 100 + (i : ℚ) * 120) * PI / 180
            mkBullet env (12 + b.bossPhase * 4) b.position ⟨env.cos angle * 220, env.sin angle * 220⟩
        else []
      else []
    (bullets, b1)

end FinalBoss

/-! ## PowerUp -/

structure PowerUp extends GameObject where
  type : PowerUpType
  lifetime : ℚ
  bobTimer : ℚ
deriving DecidableEq, Repr

namespace PowerUp

def textureName : PowerUpType → String
  | .Power => "powerup_power"
  | .Fire => "powerup_fire"
  | .Shield => "powerup_shield"
  | .Lives => "powerup_lives"
  | .Nuke => "powerup_nuke"
  | .MultiShot => "powerup_multishot"
  | .Slow => "powerup_slow"
  | .Danger => "powerup_danger"

/-- The constructor `PowerUp(t)`; it makes two draws. -/
def new (env : Env) (g : Nat) (t : PowerUpType) : PowerUp × Nat :=
  let o := GameObject.new.setupSprite env (textureName t) 1
  ({ o with
      velocity := ⟨env.randFloat g (-20) 20, env.randFloat (g + 1) 40 80⟩,
      boundingRadius := 15, type := t, lifetime := 12, bobTimer := 0 }, g + 2)

def update (p : PowerUp) (dt : ℚ) : PowerUp :=
  let o := p.toGameObject.update dt
  let lt := p.lifetime - dt
  { p with
    toGameObject :=
      { o with rotation := o.rotation + 90 * dt,
               active := if lt ≤ 0 ∨ o.position.y > SCREEN_HEIGHT + 50 then false else o.active },
    lifetime := lt, bobTimer := p.bobTimer + dt }

end PowerUp

/-! ## Explosion -/

structure Explosion extends GameObject where
  currentFrame : Int
  totalFrames : Int
  frameTime : ℚ
  frameTimer : ℚ
deriving DecidableEq, Repr

namespace Explosion

/-- The constructor `Explosion(pos, scale)`. -/
def new (pos : Vector2) : Explosion :=
  { GameObject.new with
    position := pos, currentFrame := 0, totalFrames := 8, frameTime := 8 / 100, frameTimer := 0 }

def update (e : Explosion) (dt : ℚ) : Explosion :=
  let ft := e.frameTimer + dt
  if ft ≥ e.frameTime then
    let cf := e.currentFrame + 1
    { e with frameTimer := 0, currentFrame := cf,
             active := if cf ≥ e.totalFrames then false else e.active }
  else { e with frameTimer := ft }

end Explosion

/-! ## GameState -/

structure GameState where
  player : Spaceship
  boss : Option FinalBoss
  enemies : List Enemy
  bullets : List Bullet
  powerUps : List PowerUp
  explosions : List Explosion
  currentScreen : GameScreen
  currentLevel : Int
  currentPhase : Int
  phaseTimer : ℚ
  isBossLevel : Bool
  introTimer : ℚ
  currentIntroText : Int
  /-- number of entries of `introTexts` -/
  introTextCount : Int
  deltaTime : ℚ
  slowTimeMultiplier : ℚ
  slowTimeTimer : ℚ
  shakeIntensity : ℚ
  shakeTimer : ℚ
  shakeOffset : Vector2
  highScores : List (String × Int)
  playerName : String
  soundEnabled : Bool
  difficulty : ℚ
  /-- number of draws made from `RandomGenerator` so far -/
  rng : Nat
deriving Repr

/-- A range-based `for (auto& x : container)` loop: the body may change the
element it visits and the rest of the state. -/
def forEach {α σ : Type} (body : σ → α → α × σ) : List α → σ → List α × σ
  | [], st => ([], st)
  | a :: as, st =>
    let r := body st a
    let rs := forEach body as r.2
    (r.1 :: rs.1, rs.2)

namespace GameState

/-- The state built by the constructor `GameState()` (the high-score file is
read by `loadHighScores`, here the argument `scores`). -/
def new (env : Env) (scores : List (String × Int)) : GameState :=
  { player := Spaceship.new env, boss := none, enemies := [], bullets := [], powerUps := [],
    explosions := [], currentScreen := .Intro, currentLevel := 1, currentPhase := 1,
    phaseTimer := 30, isBossLevel := false, introTimer := 0, currentIntroText := 0,
    introTextCount := 8, deltaTime := 0, slowTimeMultiplier := 1, slowTimeTimer := 0,
    shakeIntensity := 0, shakeTimer := 0, shakeOffset := ⟨0, 0⟩, highScores := scores,
    playerName := "", soundEnabled := true, difficulty := 1, rng := 0 }

def triggerScreenShake (s : GameState) (intensity duration : ℚ) : GameState :=
  { s with shakeIntensity := intensity, shakeTimer := duration }

def createExplosion (s : GameState) (pos : Vector2) : GameState :=
  { s with explosions := s.explosions ++ [Explosion.new pos] }

def spawnPowerUp (env : Env) (s : GameState) : GameState :=
  let type := PowerUpType.ofInt (env.randInt s.rng 0 7)
  let r := PowerUp.new env (s.rng + 1) type
  let x := env.randFloat r.2 50 (SCREEN_WIDTH - 50)
  let powerUp : PowerUp := { r.1 with position := ⟨x, -30⟩ }
  { s with powerUps := s.powerUps ++ [powerUp], rng := r.2 + 1 }

def spawnPowerUpAt (env : Env) (s : GameState) (pos : Vector2) : GameState :=
  let type := PowerUpType.ofInt (env.randInt s.rng 0 7)
  let r := PowerUp.new env (s.rng + 1) type
  let powerUp : PowerUp := { r.1 with position := pos }
  { s with powerUps := s.powerUps ++ [powerUp], rng := r.2 }

def fireEnemyBullet (env : Env) (s : GameState) (enemy : Enemy) : GameState :=
  let dir := (s.player.position.sub enemy.position).normalized env
  let bullet : Bullet :=
    { Bullet.new env false 10 false with
      position := enemy.position.add ⟨0, 20⟩, velocity := dir.scale 250 }
  { s with bullets := s.bullets ++ [bullet] }

/-- The enemy built for grid slot `i` of `spawnEnemies`, from the roll
`randType` and the draws of its constructor. -/
def spawnOne (env : Env) (g : Nat) (level phase : Int) (i : Int) : Enemy × Nat :=
  let x : ℚ := ((80 + (Int.tmod i 8) * 130 : Int) : ℚ)
  let y : ℚ := ((-50 - (Int.tdiv i 8) * 80 : Int) : ℚ)
  let randType := env.randInt g 0 100
  let g := g + 1
  let r : Enemy × Nat :=
    if level = 1 then
      if phase = 1 then
        if randType < 60 then Enemy.newAlpha env g level phase
        else Enemy.newBeta env g level phase
      else
        if randType < 40 then Enemy.newAlpha env g level phase
        else if randType < 70 then Enemy.newBeta env g level phase
        else Enemy.newGamma env g level phase
    else
      if randType < 20 then Enemy.newAlpha env g level phase
      else if randType < 40 then Enemy.newBeta env g level phase
      else if randType < 55 then Enemy.newGamma env g level phase
      else if randType < 70 then Enemy.newMonster env g level phase
      else if randType < 85 then Enemy.newPhantom env g level phase
      else Enemy.newDragon env g level phase
  (r.1.setPosition ⟨x, y⟩, r.2)

/-- The loop of `spawnEnemies` over the grid slots. -/
def spawnList (env : Env) (level phase : Int) : List Nat → Nat → List Enemy × Nat
  | [], g => ([], g)
  | i :: is, g =>
    let r := spawnOne env g level phase (i : Int)
    let rs := spawnList env level phase is r.2
    (r.1 :: rs.1, rs.2)

def spawnEnemies (env : Env) (s : GameState) : GameState :=
  let baseCount : Int := 6 + s.currentLevel * 3 + s.currentPhase * 2
  let enemyCount : Int := truncToInt ((baseCount : ℚ) * s.difficulty)
  let r := spawnList env s.currentLevel s.currentPhase (List.range enemyCount.toNat) s.rng
  { s with enemies := r.1, rng := r.2 }

def nextPhase (env : Env) (s : GameState) : GameState :=
  let s1 : GameState := { s with currentPhase := s.currentPhase + 1 }
  if s1.currentPhase > PHASES_PER_LEVEL then
    let s2 : GameState := { s1 with currentPhase := 1, currentLevel := s1.currentLevel + 1 }
    if s2.currentLevel > MAX_LEVELS then
      { s2 with currentScreen := .BossWarning, phaseTimer := 4 }
    else
      spawnEnemies env { s2 with phaseTimer := 25 + (s2.currentLevel : ℚ) * 5 }
  else
    spawnEnemies env { s1 with phaseTimer := 25 + (s1.currentLevel : ℚ) * 5 }

def removeInactiveObjects (s : GameState) : GameState :=
  { s with
    enemies := s.enemies.filter fun e => e.active,
    bullets := s.bullets.filter fun b => b.active,
    powerUps := s.powerUps.filter fun p => p.active,
    explosions := s.explosions.filter fun e => e.active }

def startGame (env : Env) (s : GameState) : GameState :=
  spawnEnemies env
    { s with
      currentScreen := .Gameplay, currentLevel := 1, currentPhase := 1, phaseTimer := 30,
      isBossLevel := false, slowTimeMultiplier := 1, slowTimeTimer := 0,
      enemies := [], bullets := [], powerUps := [], explosions := [], boss := none,
      player := s.player.reset }

end GameState

/-! ## Collision and damage resolution -/

namespace GameState

/-- Body of the loop "check enemies" for one player bullet: threaded state is
the bullet and the session. -/
def bulletHitsEnemy (env : Env) (st : Bullet × GameState) (enemy : Enemy) :
    Enemy × (Bullet × GameState) :=
  if !enemy.active then (enemy, st)
  else if st.1.checkCollision env enemy.toGameObject then
    let enemy1 := enemy.takeDamage (st.1.damage : ℚ)
    let bullet1 : Bullet := { st.1 with active := false }
    if !enemy1.active then
      let s1 : GameState := { st.2 with player := st.2.player.addScore enemy1.scoreValue }
      let s2 := (s1.createExplosion enemy1.position).triggerScreenShake 5 (15 / 100)
      let roll := env.randInt s2.rng 0 100
      let s3 : GameState := { s2 with rng := s2.rng + 1 }
      let s4 := if roll < 20 then s3.spawnPowerUpAt env enemy1.position else s3
      (enemy1, (bullet1, s4))
    else (enemy1, (bullet1, st.2))
  else (enemy, st)

/-- The part "check boss" of the loop "player bullets vs enemies" for one
bullet. -/
def bulletHitsBoss (env : Env) (s : GameState) (bullet : Bullet) : Bullet × GameState :=
  match s.boss with
  | some boss =>
    if s.isBossLevel ∧ boss.active ∧ bullet.checkCollision env boss.toGameObject then
      ({ bullet with active := false },
       { s with boss := some (boss.takeDamage (bullet.damage : ℚ)) }.triggerScreenShake 3 (1 / 10))
    else (bullet, s)
  | none => (bullet, s)

/-- Body of the loop "player bullets vs enemies" for one bullet. -/
def playerBulletStep (env : Env) (s : GameState) (bullet : Bullet) : Bullet × GameState :=
  if !bullet.active || !bullet.fromPlayer then (bullet, s)
  else
    let st : Bullet × GameState := bulletHitsBoss env s bullet
    let r := forEach (bulletHitsEnemy env) st.2.enemies st
    (r.2.1, { r.2.2 with enemies := r.1 })

/-- Body of the loop "enemy bullets vs player" for one bullet. -/
def enemyBulletStep (env : Env) (s : GameState) (bullet : Bullet) : Bullet × GameState :=
  if !bullet.active || bullet.fromPlayer then (bullet, s)
  else if bullet.checkCollision env s.player.toGameObject then
    ({ bullet with active := false },
     { s with player := s.player.takeDamage ((bullet.damage : ℚ) * s.difficulty) }.triggerScreenShake
        4 (1 / 10))
  else (bullet, s)

/-- Body of the loop "player vs enemies" for one enemy. -/
def enemyBodyStep (env : Env) (s : GameState) (enemy : Enemy) : Enemy × GameState :=
  if !enemy.active then (enemy, s)
  else if enemy.checkCollision env s.player.toGameObject then
    (enemy.takeDamage 30,
     { s with player := s.player.takeDamage (20 * s.difficulty) }.triggerScreenShake 8 (2 / 10))
  else (enemy, s)

/-- Body of the nuke loop "destroy all enemies" for one enemy. -/
def nukeEnemy (s : GameState) (enemy : Enemy) : Enemy × GameState :=
  if enemy.active then
    let s1 : GameState := { s with player := s.player.addScore (Int.tdiv enemy.scoreValue 2) }
    ({ enemy with active := false }, s1.createExplosion enemy.position)
  else (enemy, s)

/-- Body of the loop "player vs power-ups" for one pick-up. -/
def powerUpStep (env : Env) (s : GameState) (powerUp : PowerUp) : PowerUp × GameState :=
  if !powerUp.active then (powerUp, s)
  else if powerUp.checkCollision env s.player.toGameObject then
    let type := powerUp.type
    let s1 : GameState :=
      if type = .Nuke then
        let r := forEach nukeEnemy s.enemies s
        { r.2 with enemies := r.1 }.triggerScreenShake 15 (5 / 10)
      else if type = .Slow then
        { s with slowTimeMultiplier := float04, slowTimeTimer := 5 }
      else { s with player := s.player.applyPowerUp type }
    ({ powerUp with active := false }, s1)
  else (powerUp, s)

/-- The last step of `checkCollisions`: player body against boss body. -/
def bossBodyStep (env : Env) (s : GameState) : GameState :=
  match s.boss with
  | some boss =>
    if s.isBossLevel ∧ boss.active ∧ boss.checkCollision env s.player.toGameObject then
      { s with player := s.player.takeDamage (30 * s.difficulty) }.triggerScreenShake 12 (3 / 10)
    else s
  | none => s

def checkCollisions (env : Env) (s : GameState) : GameState :=
  let r1 := forEach (playerBulletStep env) s.bullets s
  let s1 : GameState := { r1.2 with bullets := r1.1 }
  let r2 := forEach (enemyBulletStep env) s1.bullets s1
  let s2 : GameState := { r2.2 with bullets := r2.1 }
  let r3 := forEach (enemyBodyStep env) s2.enemies s2
  let s3 : GameState := { r3.2 with enemies := r3.1 }
  let r4 := forEach (powerUpStep env) s3.powerUps s3
  let s4 : GameState := { r4.2 with powerUps := r4.1 }
  bossBodyStep env s4

/-! ## The tick -/

/-- Body of the loop "update enemies" of `updateGameplay` for one enemy. -/
def enemyUpdateStep (env : Env) (s : GameState) (enemy : Enemy) : Enemy × GameState :=
  let r := (enemy.setPlayerPosition s.player.position).update env s.rng s.deltaTime
  let s1 : GameState := { s with rng := r.2 }
  if r.1.canFire then
    let roll := env.randInt s1.rng 0 100
    let s2 : GameState := { s1 with rng := s1.rng + 1 }
    if roll < 3 then
      let s3 := s2.fireEnemyBullet env r.1
      let r2 := r.1.resetFireTimer env s3.rng
      (r2.1, { s3 with rng := r2.2 })
    else (r.1, s2)
  else (r.1, s1)

/-- The branch "boss level" of `updateGameplay`. -/
def updateBoss (env : Env) (s1 : GameState) (boss : FinalBoss) : GameState :=
  let boss1 := (boss.setPlayerPosition s1.player.position).update env s1.deltaTime
  let r := boss1.getAttackBullets env
  let s' : GameState := { s1 with boss := some r.2, bullets := s1.bullets ++ r.1 }
  if !r.2.active then
    { s' with currentScreen := .Victory }.triggerScreenShake 20 1
  else s'

/-- The branch "update enemies" of `updateGameplay`, with the
phase-completion check. -/
def updateEnemies (env : Env) (s1 : GameState) : GameState :=
  let r := forEach (enemyUpdateStep env) s1.enemies s1
  let s' : GameState := { r.2 with enemies := r.1 }
  if s'.enemies.isEmpty ∧ s'.phaseTimer ≤ 0 then nextPhase env s' else s'

/-- The choice `if (isBossLevel && boss) ... else ...` of `updateGameplay`. -/
def updateBossOrEnemies (env : Env) (s1 : GameState) : GameState :=
  match (if s1.isBossLevel then s1.boss else none) with
  | some boss => updateBoss env s1 boss
  | none => updateEnemies env s1

/-- The first part of `updateGameplay`: the player, then the boss or the
enemies, then bullets, pick-ups and explosions advance. -/
def updateActors (env : Env) (s : GameState) : GameState :=
  let s1 : GameState := { s with player := s.player.update s.deltaTime }
  let s2 : GameState := updateBossOrEnemies env s1
  { s2 with
    bullets := s2.bullets.map fun b => b.update s2.deltaTime,
    powerUps := s2.powerUps.map fun p => p.update s2.deltaTime,
    explosions := s2.explosions.map fun e => e.update s2.deltaTime }

/-- The last part of `updateGameplay`, after the purge: the random pick-up
spawn, the game-over check and the phase timer. -/
def finishTick (env : Env) (s4 : GameState) : GameState :=
  let roll := env.randInt s4.rng 0 1000
  let s5 : GameState := { s4 with rng := s4.rng + 1 }
  let s6 := if roll < 2 then s5.spawnPowerUp env else s5
  let s7 : GameState :=
    if s6.player.lives ≤ 0 ∧ s6.player.health ≤ 0 then { s6 with currentScreen := .GameOver }
    else s6
  { s7 with phaseTimer := s7.phaseTimer - s7.deltaTime }

def updateGameplay (env : Env) (s : GameState) : GameState :=
  finishTick env (removeInactiveObjects (checkCollisions env (updateActors env s)))

def updateIntro (s : GameState) : GameState :=
  let t := s.introTimer + s.deltaTime
  if t > 25 / 10 then
    let n := s.currentIntroText + 1
    { s with introTimer := 0, currentIntroText := n,
             currentScreen := if n ≥ s.introTextCount then .Menu else s.currentScreen }
  else { s with introTimer := t }

def updateBossWarning (env : Env) (s : GameState) : GameState :=
  let t := s.phaseTimer - s.deltaTime
  if t ≤ 0 then
    { s with phaseTimer := t, currentScreen := .Gameplay, isBossLevel := true,
             boss := some (FinalBoss.new env) }
  else { s with phaseTimer := t }

/-- The head of `GameState::update`: the effective delta time, the screen
shake and the slow-time countdown; `frameTime` is the time the clock reports
for the frame. The arithmetic is exact; `advanceClockRounded` below writes out
the roundings of binary32. -/
def advanceClock (env : Env) (s : GameState) (frameTime : ℚ) : GameState :=
  let dt := min frameTime (5 / 100) * s.slowTimeMultiplier
  let s1 : GameState := { s with deltaTime := dt }
  let s2 : GameState :=
    if s1.shakeTimer > 0 then
      { s1 with
        shakeTimer := s1.shakeTimer - dt,
        shakeOffset := ⟨env.randFloat s1.rng (-s1.shakeIntensity) s1.shakeIntensity,
                        env.randFloat (s1.rng + 1) (-s1.shakeIntensity) s1.shakeIntensity⟩,
        shakeIntensity := s1.shakeIntensity * (95 / 100),
        rng := s1.rng + 2 }
    else { s1 with shakeOffset := ⟨0, 0⟩ }
  if s2.slowTimeTimer > 0 then
    let t := s2.slowTimeTimer - dt / s2.slowTimeMultiplier
    { s2 with slowTimeTimer := t,
              slowTimeMultiplier := if t ≤ 0 then 1 else s2.slowTimeMultiplier }
  else s2

/-- The `switch (currentScreen)` of `GameState::update`. -/
def dispatch (env : Env) (s3 : GameState) : GameState :=
  match s3.currentScreen with
  | .Intro => updateIntro s3
  | .Gameplay => updateGameplay env s3
  | .BossWarning => updateBossWarning env s3
  | _ => s3

/-- One call of `GameState::update`; `frameTime` is the time the clock
reports for the frame. -/
def update (env : Env) (s : GameState) (frameTime : ℚ) : GameState :=
  dispatch env (advanceClock env s frameTime)

/-- A run of ticks, one per frame time. -/
def ticks (env : Env) (s : GameState) (frameTimes : List ℚ) : GameState :=
  frameTimes.foldl (update env) s

/-- The head of `GameState::update` with the roundings of binary32 written out: the clamp is
    the literal `0.05f`, and the product `min(deltaTime, 0.05f) * slowTimeMultiplier`, the
    quotient `deltaTime / slowTimeMultiplier` and the differences `shakeTimer -= deltaTime` and
    `slowTimeTimer -= ...` are each rounded when they are stored; the tests read the stored
    values. `advanceClock` is this function in exact arithmetic. -/
def advanceClockRounded (env : Env) (s : GameState) (frameTime : ℚ) : GameState :=
  let dt := fl32 (min frameTime float005 * s.slowTimeMultiplier)
  let s1 : GameState := { s with deltaTime := dt }
  let s2 : GameState :=
    if s1.shakeTimer > 0 then
      { s1 with
        shakeTimer := fl32 (s1.shakeTimer - dt),
        shakeOffset := ⟨env.randFloat s1.rng (-s1.shakeIntensity) s1.shakeIntensity,
                        env.randFloat (s1.rng + 1) (-s1.shakeIntensity) s1.shakeIntensity⟩,
        shakeIntensity := fl32 (s1.shakeIntensity * fl32 (95 / 100)),
        rng := s1.rng + 2 }
    else { s1 with shakeOffset := ⟨0, 0⟩ }
  if s2.slowTimeTimer > 0 then
    let t := fl32 (s2.slowTimeTimer - fl32 (dt / s2.slowTimeMultiplier))
    { s2 with slowTimeTimer := t,
              slowTimeMultiplier := if t ≤ 0 then 1 else s2.slowTimeMultiplier }
  else s2

/-- One call of `GameState::update` with the head of the tick in binary32. -/
def updateRounded (env : Env) (s : GameState) (frameTime : ℚ) : GameState :=
  dispatch env (advanceClockRounded env s frameTime)

/-- A run of ticks with the head of each tick in binary32, one per frame time. -/
def ticksRounded (env : Env) (s : GameState) (frameTimes : List ℚ) : GameState :=
  frameTimes.foldl (updateRounded env) s

def addHighScore (env : Env) (s : GameState) (name : String) (score : Int) : GameState :=
  let sorted := env.sortByScore (s.highScores ++ [(name, score)])
  { s with
    highScores := if sorted.length > MAX_HIGH_SCORES then sorted.take MAX_HIGH_SCORES else sorted }

end GameState

/-! ## Operation sequences and sample values -/

/-- The calls the session makes on the player. -/
inductive ShipOp
  | update (dt : ℚ)
  | takeDamage (dmg : ℚ)
  | addScore (points : Int)
  | applyPowerUp (type : PowerUpType)
  | setVelocity (v : Vector2)

namespace ShipOp

def apply (p : Spaceship) : ShipOp → Spaceship
  | update dt => p.update dt
  | takeDamage dmg => p.takeDamage dmg
  | addScore points => p.addScore points
  | applyPowerUp type => p.applyPowerUp type
  | setVelocity v => { p with velocity := v }

/-- Time steps and damages are non-negative. -/
def ok : ShipOp → Prop
  | update dt => 0 ≤ dt
  | takeDamage dmg => 0 ≤ dmg
  | _ => True

def run (p : Spaceship) (ops : List ShipOp) : Spaceship := ops.foldl apply p

end ShipOp

/-- The calls the session makes on an enemy. -/
inductive EnemyOp
  | update (g : Nat) (playerPos : Vector2) (dt : ℚ)
  | takeDamage (dmg : ℚ)

namespace EnemyOp

def apply (env : Env) (e : Enemy) : EnemyOp → Enemy
  | update g playerPos dt => ((e.setPlayerPosition playerPos).update env g dt).1
  | takeDamage dmg => e.takeDamage dmg

def ok : EnemyOp → Prop
  | update _ _ dt => 0 ≤ dt
  | takeDamage dmg => 0 ≤ dmg

def run (env : Env) (e : Enemy) (ops : List EnemyOp) : Enemy := ops.foldl (apply env) e

end EnemyOp

/-- The calls the session makes on the boss. -/
inductive BossOp
  | update (playerPos : Vector2) (dt : ℚ)
  | takeDamage (dmg : ℚ)
  | attack

namespace BossOp

def apply (env : Env) (b : FinalBoss) : BossOp → FinalBoss
  | update playerPos dt => (b.setPlayerPosition playerPos).update env dt
  | takeDamage dmg => b.takeDamage dmg
  | attack => (b.getAttackBullets env).2

def ok : BossOp → Prop
  | update _ dt => 0 ≤ dt
  | takeDamage dmg => 0 ≤ dmg
  | attack => True

def run (env : Env) (b : FinalBoss) (ops : List BossOp) : FinalBoss := ops.foldl (apply env) b

end BossOp

/-- The six enemy constructors, by variant. -/
def Enemy.create (env : Env) (g : Nat) (t : EnemyType) (level phase : Int) : Enemy :=
  match t with
  | .Alpha => (Enemy.newAlpha env g level phase).1
  | .Beta => (Enemy.newBeta env g level phase).1
  | .Gamma => (Enemy.newGamma env g level phase).1
  | .Monster => (Enemy.newMonster env g level phase).1
  | .Phantom => (Enemy.newPhantom env g level phase).1
  | .Dragon => (Enemy.newDragon env g level phase).1

/-- An environment for evaluating the definitions on concrete inputs: the
square root is exact on squares of rationals, the trigonometric functions are
those of the angle 0, every draw returns the lower end of its range, no
texture is registered, and the high scores are sorted by insertion. -/
def Env.sample : Env :=
  { sqrt := fun q => (Nat.sqrt q.num.toNat : ℚ) / (Nat.sqrt q.den : ℚ),
    sin := fun _ => 0,
    cos := fun _ => 1,
    randInt := fun _ lo _ => lo,
    randFloat := fun _ lo _ => lo,
    textureWidth := fun _ => none,
    sortByScore := List.insertionSort fun a b => b.2 ≤ a.2 }

/-- Score awarded by the nuke loop to a player whose combo count is `combo`,
for the enemies of the container in order. -/
def nukeAward (combo : Int) : List Enemy → Int
  | [] => 0
  | e :: es =>
    if e.active then Int.tdiv e.scoreValue 2 * min (combo + 1) 10 + nukeAward (combo + 1) es
    else nukeAward combo es

/-- Number of active enemies of a container. -/
def activeCount (es : List Enemy) : Nat := es.countP fun e => e.active

/-- A nuke pick-up lying where a newly created player stands. -/
def sampleNuke : PowerUp := (PowerUp.new Env.sample 0 .Nuke).1

/-- A session in play with five active level-1 Alpha enemies (score value
120 each), a player with score 0 and combo 0, and the nuke pick-up. -/
def nukeScene : GameState :=
  { GameState.new Env.sample [] with
    currentScreen := .Gameplay,
    enemies := List.replicate 5 (Enemy.create Env.sample 0 .Alpha 1 1),
    powerUps := [sampleNuke] }

/-- The phase of a boss as a function of its health, in the words of the
specification: 3 when the health fraction is at most 0.3, 2 when it is at most
0.6, and 1 otherwise. -/
def phaseOfHealth (maxHealth h : ℚ) : Int :=
  if h / maxHealth ≤ 3 / 10 then 3 else if h / maxHealth ≤ 6 / 10 then 2 else 1

/-- A phase-1 boss that has finished entering (y = 150) and has health `h`. -/
def bossAtHealth (h : ℚ) : FinalBoss :=
  { FinalBoss.new Env.sample with health := h, position := ⟨SCREEN_WIDTH / 2, 150⟩ }

/-- The facts about a boss that make its phase monotone: the phase is 1, 2 or
3, and a phase above 1 records that the health fraction has crossed the
threshold of that phase. -/
def PhaseInv (b : FinalBoss) : Prop :=
  b.maxHealth = 500 ∧
  (b.bossPhase = 1 ∨ (b.bossPhase = 2 ∧ b.health / b.maxHealth ≤ 6 / 10) ∨
    (b.bossPhase = 3 ∧ b.health / b.maxHealth ≤ 3 / 10))

/-- The director's view of a session: level, phase, screen, phase timer,
boss-level flag, and whether a boss exists. -/
def GameState.progress (s : GameState) : Int × Int × GameScreen × ℚ × Bool × Bool :=
  (s.currentLevel, s.currentPhase, s.currentScreen, s.phaseTimer, s.isBossLevel, s.boss.isSome)

/-- A session is consistent when a boss exists whenever the boss-level flag
is set. -/
def GameState.bossConsistent (s : GameState) : Prop :=
  s.isBossLevel = true → s.boss.isSome = true

/-- The session `s'` is in play at `(level, phase)` with the phase timer
25 + 5 * level and the enemy set spawned for that phase from the difficulty
and the generator of `s`. -/
def GameState.EnteredPhase (env : Env) (s s' : GameState) (level phase : Int) : Prop :=
  s'.currentLevel = level ∧ s'.currentPhase = phase ∧ s'.currentScreen = .Gameplay ∧
  s'.phaseTimer = 25 + 5 * (level : ℚ) ∧
  s'.enemies =
    (GameState.spawnList env level phase
      (List.range (truncToInt (((6 + level * 3 + phase * 2 : Int) : ℚ) * s.difficulty)).toNat)
      s.rng).1 ∧
  s'.enemies.length = (truncToInt (((6 + level * 3 + phase * 2 : Int) : ℚ) * s.difficulty)).toNat

/-- A session on the boss-warning screen with `t` seconds of countdown left,
no boss and the boss-level flag clear. -/
def warningScene (t : ℚ) : GameState :=
  { GameState.new Env.sample [] with currentScreen := .BossWarning, phaseTimer := t }

/-- An Alpha enemy with health 30 and score value 100 (level 0). -/
def sampleTarget : Enemy := Enemy.create Env.sample 0 .Alpha 0 1

/-- A player projectile of damage 15 lying on `sampleTarget`. -/
def sampleShot : Bullet := Bullet.new Env.sample true 15 false

/-- A session in play whose only enemy is `sampleTarget`; score 0, combo 0. -/
def targetScene : GameState :=
  { GameState.new Env.sample [] with currentScreen := .Gameplay, enemies := [sampleTarget] }

/-- The contract of `std::sort` with the comparator `a.second > b.second`:
the result is a rearrangement of the argument in which no entry has a greater
score than an entry before it. -/
def Env.SortsScores (env : Env) : Prop :=
  ∀ l : List (String × Int),
    (env.sortByScore l).Perm l ∧ (env.sortByScore l).Pairwise (fun a b => b.2 ≤ a.2)

/-- The clock fields of a session: the tick's delta time, the slow-time
multiplier and the slow-time countdown. -/
def GameState.clockView (s : GameState) : ℚ × ℚ × ℚ :=
  (s.deltaTime, s.slowTimeMultiplier, s.slowTimeTimer)

/-- Relation between the clock fields before and after a step that leaves the
tick's delta time alone and either leaves the slow-time fields alone or starts
the slow-time effect (multiplier 0.4f, countdown 5). -/
def SlowRel (c c' : ℚ × ℚ × ℚ) : Prop :=
  c'.1 = c.1 ∧ (c'.2 = c.2 ∨ c'.2 = (float04, 5))

/-- Total clamped, unscaled duration of a run of frames: the exact sum of the frame times, each
    clamped at `0.05f`. -/
def unscaledTime (frameTimes : List ℚ) : ℚ := (frameTimes.map fun ft => min ft float005).sum

/-- No slow-time pick-up is collected in the tick: the slow-time fields
after the tick are those left by the head of the tick. -/
def GameState.noSlowPickUp (env : Env) (s : GameState) (ft : ℚ) : Prop :=
  (GameState.updateRounded env s ft).slowTimeMultiplier =
    (GameState.advanceClockRounded env s ft).slowTimeMultiplier ∧
  (GameState.updateRounded env s ft).slowTimeTimer =
    (GameState.advanceClockRounded env s ft).slowTimeTimer

/-- A paused session in which the slow-time effect has just started, with the multiplier the
    code holds, `0.4f`. -/
def pausedSlowStart : GameState :=
  { GameState.new Env.sample [] with
    currentScreen := .Pause, slowTimeMultiplier := float04, slowTimeTimer := 5 }

/-- A paused session in which the slow-time effect has just started. -/
def pausedSlowScene : GameState :=
  { GameState.new Env.sample [] with
    currentScreen := .Pause, slowTimeMultiplier := 4 / 10, slowTimeTimer := 5 }

/-- The bounds the pick-ups keep: power level and multi-shot level within
1..5 and the fire cooldown within [0.10, 0.25]. -/
def Spaceship.LevelsBounded (p : Spaceship) : Prop :=
  1 ≤ p.powerLevel ∧ p.powerLevel ≤ 5 ∧ 1 ≤ p.multiShotLevel ∧ p.multiShotLevel ≤ 5 ∧
  MIN_FIRE_RATE ≤ p.fireRate ∧ p.fireRate ≤ BASE_FIRE_RATE

/-- The variant tag that goes with the dynamic class of an enemy. -/
def EnemyExt.variant : EnemyExt → EnemyType
  | .alpha => .Alpha
  | .beta _ _ => .Beta
  | .gamma _ => .Gamma
  | .monster _ _ => .Monster
  | .phantom _ _ => .Phantom
  | .dragon _ _ _ => .Dragon

/-- The variant `spawnEnemies` builds for a roll, in the words of the
specification. -/
def variantForRoll (level phase roll : Int) : EnemyType :=
  if level = 1 then
    if phase = 1 then (if roll < 60 then .Alpha else .Beta)
    else (if roll < 40 then .Alpha else if roll < 70 then .Beta else .Gamma)
  else
    if roll < 20 then .Alpha else if roll < 40 then .Beta else if roll < 55 then .Gamma
    else if roll < 70 then .Monster else if roll < 85 then .Phantom else .Dragon

/-- A boss that finished entering, was brought to health `h` and lost its first shield. -/
def unshieldedBoss (h : ℚ) : FinalBoss := (bossAtHealth h).takeDamage 0

/-- The calls the session makes on the boss before it is first hit: updates with a frame time
    that is not negative, and attacks. -/
def BossOp.beforeHit : BossOp → Prop
  | .update _ dt => 0 ≤ dt
  | .takeDamage _ => False
  | .attack => True

/-- Whether `getAttackBullets` issues an attack: the attack timer has run out and the boss is
    in the play band. -/
def FinalBoss.ready (b : FinalBoss) : Bool := !(decide (b.attackTimer > 0 ∨ b.position.y < 150))

/-- Number of attacks issued along a run of calls on the boss: the `attack` calls made while
    the boss is ready. -/
def BossOp.issued (env : Env) : FinalBoss → List BossOp → Nat
  | _, [] => 0
  | b, op :: ops =>
    (match op with
     | .attack => if b.ready then 1 else 0
     | _ => 0) + BossOp.issued env (BossOp.apply env b op) ops

/-- A session in play with two copies of `sampleTarget` on the same spot. -/
def overlapScene : GameState :=
  { GameState.new Env.sample [] with
    currentScreen := .Gameplay, enemies := [sampleTarget, sampleTarget] }

/-- A run of calls on the player in which every call has a time step or damage that is not
    negative and every `takeDamage` call is made while the player has at least one life. -/
def ShipOp.guarded : Spaceship → List ShipOp → Prop
  | _, [] => True
  | p, op :: ops =>
    op.ok ∧ (match op with
             | .takeDamage _ => 1 ≤ p.lives
             | _ => True) ∧ ShipOp.guarded (ShipOp.apply p op) ops

/-- Seventy ticks of `0.05f`, three and a half seconds: a wait that outlasts the three seconds
    of invincibility after a lost life, whatever the rounding of the timer. -/
def invincibilityWait : List ShipOp := List.replicate 70 (.update float005)

/-- A run that loses three lives, waiting out the invincibility after the first two, and then
    takes one more hit in the collision pass that took the last life. -/
def fourFatalHits : List ShipOp :=
  [.takeDamage 100] ++ invincibilityWait ++ [.takeDamage 100] ++ invincibilityWait ++
    [.takeDamage 100, .takeDamage 100]

/-- A player bullet placed and launched, as `firePlayerBullets` builds it. -/
def GameState.playerBullet (env : Env) (dmg : Int) (pos vel : Vector2) : Bullet :=
  { Bullet.new env true dmg false with position := pos, velocity := vel }

/-- The bullets one call of `firePlayerBullets` adds for the player `p`, in the order in which
    they are pushed. -/
def GameState.volley (env : Env) (p : Spaceship) : List Bullet :=
  let shots := p.multiShotLevel
  let power := p.powerLevel
  if shots = 1 then
    [GameState.playerBullet env (10 + power * 5) (p.position.add ⟨0, -30⟩) ⟨0, -600⟩]
  else if shots = 2 then
    [(-1 : Int), 1].map fun i =>
      GameState.playerBullet env (10 + power * 4) (p.position.add ⟨(i : ℚ) * 15, -25⟩) ⟨0, -600⟩
  else if shots ≥ 3 then
    let center := GameState.playerBullet env (10 + power * 5) (p.position.add ⟨0, -30⟩) ⟨0, -600⟩
    let side := [(-1 : Int), 1].map fun i =>
      GameState.playerBullet env (8 + power * 3) (p.position.add ⟨(i : ℚ) * 20, -20⟩)
        ⟨(i : ℚ) * 100, -550⟩
    let wide :=
      if shots ≥ 4 then
        [(-1 : Int), 1].map fun i =>
          GameState.playerBullet env (6 + power * 2) (p.position.add ⟨(i : ℚ) * 25, -15⟩)
            ⟨(i : ℚ) * 200, -500⟩
      else []
    center :: (side ++ wide)
  else []

def GameState.firePlayerBullets (env : Env) (s : GameState) : GameState :=
  if !s.player.canFire then s
  else
    let p := s.player.resetFireTimer
    { s with player := p, bullets := s.bullets ++ GameState.volley env p }

/-- A newly created player with the given power and multi-shot levels. -/
def shipAt (power shots : Int) : Spaceship :=
  { Spaceship.new Env.sample with powerLevel := power, multiShotLevel := shots }

/-- The values `RandomGenerator::range(min, max)` can return for integers: it draws from
    `std::uniform_int_distribution<int> dist(min, max)`, whose range [min, max] is closed at
    both ends. -/
def rangeValues (min max : Int) : List Int :=
  (List.range (max - min + 1).toNat).map fun i => min + (i : Int)

/-- The drop test of `checkCollisions` on the roll made when an enemy dies. -/
def dropsPickUp (roll : Int) : Bool := decide (roll < 20)

/-- A paused session in which the slow-time effect has 0.03 seconds left. -/
def pausedExpiringScene : GameState :=
  { GameState.new Env.sample [] with
    currentScreen := .Pause, slowTimeMultiplier := 4 / 10, slowTimeTimer := 3 / 100 }

/-- A boss in the fight that has dropped below the entry line again: it finished entering at
    health 250 of 500 with the shield off, one update (1/60 s) moved it to phase 2 (centred on
    y = 120) and regenerated the shield, and five hits of 15 removed that shield. -/
def reenteredBoss : FinalBoss :=
  BossOp.run Env.sample ((unshieldedBoss 250).update Env.sample (1 / 60))
    [.takeDamage 15, .takeDamage 15, .takeDamage 15, .takeDamage 15, .takeDamage 15]

theorem roundHalfEven_cases (x : ℚ) : roundHalfEven x = ⌊x⌋ ∨ roundHalfEven x = ⌊x⌋ + 1 := by
  unfold roundHalfEven
  split_ifs <;> simp

theorem roundHalfEven_error (x : ℚ) : |((roundHalfEven x : Int) : ℚ) - x| ≤ 1 / 2 := by
  have h1 : (⌊x⌋ : ℚ) ≤ x := Int.floor_le x
  have h2 : x < ⌊x⌋ + 1 := Int.lt_floor_add_one x
  unfold roundHalfEven
  split_ifs with a b c
  · rw [abs_le]; constructor <;> linarith
  · rw [abs_le]; push_cast; constructor <;> linarith
  · rw [abs_le]; constructor <;> linarith
  · rw [abs_le]; push_cast; constructor <;> linarith

theorem roundHalfEven_eq (x : ℚ) (m : Int) (h : |x - m| < 1 / 2) : roundHalfEven x = m := by
  rw [abs_lt] at h
  by_cases hx : (m : ℚ) ≤ x
  · have hf : ⌊x⌋ = m := by
      rw [Int.floor_eq_iff]
      constructor
      · exact hx
      · linarith
    unfold roundHalfEven
    rw [hf, if_pos (by linarith)]
  · have hf : ⌊x⌋ = m - 1 := by
      rw [Int.floor_eq_iff]
      push_cast
      constructor <;> linarith
    unfold roundHalfEven
    rw [hf]
    push_cast
    rw [if_neg (by linarith), if_pos (by linarith)]
    ring

theorem roundHalfEven_le (x : ℚ) (n : Int) (h : x ≤ n) : roundHalfEven x ≤ n := by
  have hf : ⌊x⌋ ≤ n := by
    have := Int.floor_le x
    exact_mod_cast (Int.floor_le x).trans h |> fun h' => Int.cast_le.mp h'
  by_cases hn : x = n
  · have hfl : ⌊x⌋ = n := by rw [hn]; exact Int.floor_intCast n
    unfold roundHalfEven
    rw [hfl, hn]
    simp
  · have hlt : x < n := lt_of_le_of_ne h hn
    have hf' : ⌊x⌋ < n := Int.floor_lt.mpr hlt
    rcases roundHalfEven_cases x with r | r <;> rw [r] <;> omega

theorem roundHalfEven_ge (x : ℚ) (n : Int) (h : (n : ℚ) ≤ x) : n ≤ roundHalfEven x := by
  have hf : n ≤ ⌊x⌋ := Int.le_floor.mpr h
  rcases roundHalfEven_cases x with r | r <;> rw [r] <;> omega

theorem fl32_zero : fl32 0 = 0 := by
  unfold fl32
  rw [if_pos rfl]

/-- The binade of a non-zero rational. -/
theorem log_two_bounds (q : ℚ) (hq : q ≠ 0) :
    (2 : ℚ) ^ (Int.log 2 |q|) ≤ |q| ∧ |q| < (2 : ℚ) ^ (Int.log 2 |q| + 1) := by
  have hpos : 0 < |q| := abs_pos.mpr hq
  constructor
  · exact_mod_cast Int.zpow_log_le_self (b := 2) (by norm_num) hpos
  · exact_mod_cast Int.lt_zpow_succ_log_self (b := 2) (by norm_num) |q|

theorem log_two_eq (q : ℚ) (e : Int) (h1 : (2 : ℚ) ^ e ≤ |q|) (h2 : |q| < (2 : ℚ) ^ (e + 1)) :
    Int.log 2 |q| = e := by
  have hpos : 0 < |q| := lt_of_lt_of_le (zpow_pos (by norm_num) e) h1
  have a : e ≤ Int.log 2 |q| :=
    (Int.zpow_le_iff_le_log (b := 2) (by norm_num) hpos).mp (by exact_mod_cast h1)
  have b : Int.log 2 |q| < e + 1 :=
    (Int.lt_zpow_iff_log_lt (b := 2) (by norm_num) hpos).mp (by exact_mod_cast h2)
  omega

theorem ulp_pos (e : Int) : (0 : ℚ) < (2 : ℚ) ^ (e - 23) := zpow_pos (by norm_num) _

theorem ulp_mul (e : Int) : (2 : ℚ) ^ (e - 23) * 8388608 = (2 : ℚ) ^ e := by
  have h : (8388608 : ℚ) = (2 : ℚ) ^ ((23 : ℕ) : Int) := by norm_num
  rw [h, ← zpow_add₀ (by norm_num : (2 : ℚ) ≠ 0)]
  congr 1
  push_cast
  ring

theorem ulp_mul_succ (e : Int) : (2 : ℚ) ^ (e - 23) * 16777216 = (2 : ℚ) ^ (e + 1) := by
  have h : (16777216 : ℚ) = (2 : ℚ) ^ ((24 : ℕ) : Int) := by norm_num
  rw [h, ← zpow_add₀ (by norm_num : (2 : ℚ) ≠ 0)]
  congr 1
  push_cast
  ring

/-- Evaluation of `fl32`: the value with significand `m` in the binade of `q` that lies
    within half a unit in the last place of `q`. -/
theorem fl32_eq (q : ℚ) (e m : Int) (h1 : (2 : ℚ) ^ e ≤ |q|) (h2 : |q| < (2 : ℚ) ^ (e + 1))
    (h3 : |q - m * (2 : ℚ) ^ (e - 23)| < (2 : ℚ) ^ (e - 23) / 2) :
    fl32 q = m * (2 : ℚ) ^ (e - 23) := by
  have hq : q ≠ 0 := by
    intro h0
    rw [h0, abs_zero] at h1
    exact absurd (zpow_pos (by norm_num : (0 : ℚ) < 2) e) (not_lt.mpr h1)
  have hu := ulp_pos e
  unfold fl32
  rw [if_neg hq, log_two_eq q e h1 h2]
  congr 1
  have hr : roundHalfEven (q / (2 : ℚ) ^ (e - 23)) = m := by
    apply roundHalfEven_eq
    have e1 : q / (2 : ℚ) ^ (e - 23) - m = (q - m * (2 : ℚ) ^ (e - 23)) / (2 : ℚ) ^ (e - 23) := by
      field_simp
      ring
    rw [e1, abs_div, abs_of_pos hu, div_lt_iff₀ hu]
    linarith
  rw [hr]

/-- The relative error of `fl32` is at most 2^-24. -/
theorem fl32_error (q : ℚ) : |fl32 q - q| ≤ |q| / 2 ^ (24 : ℕ) := by
  by_cases hq : q = 0
  · rw [hq, fl32_zero]; simp
  · obtain ⟨b1, _⟩ := log_two_bounds q hq
    have hu := ulp_pos (Int.log 2 |q|)
    unfold fl32
    rw [if_neg hq]
    have hr := roundHalfEven_error (q / (2 : ℚ) ^ (Int.log 2 |q| - 23))
    have e1 : ((roundHalfEven (q / (2 : ℚ) ^ (Int.log 2 |q| - 23)) : Int) : ℚ) *
        (2 : ℚ) ^ (Int.log 2 |q| - 23) - q =
        (((roundHalfEven (q / (2 : ℚ) ^ (Int.log 2 |q| - 23)) : Int) : ℚ) -
          q / (2 : ℚ) ^ (Int.log 2 |q| - 23)) * (2 : ℚ) ^ (Int.log 2 |q| - 23) := by
      field_simp
    rw [e1, abs_mul, abs_of_pos hu]
    have h24 := ulp_mul_succ (Int.log 2 |q|)
    have h23 := ulp_mul (Int.log 2 |q|)
    rw [le_div_iff₀ (by norm_num : (0 : ℚ) < 2 ^ (24 : ℕ))]
    calc |((roundHalfEven (q / (2 : ℚ) ^ (Int.log 2 |q| - 23)) : Int) : ℚ) -
            q / (2 : ℚ) ^ (Int.log 2 |q| - 23)| * (2 : ℚ) ^ (Int.log 2 |q| - 23) * 2 ^ (24 : ℕ)
        ≤ 1 / 2 * (2 : ℚ) ^ (Int.log 2 |q| - 23) * 2 ^ (24 : ℕ) := by
          apply mul_le_mul_of_nonneg_right _ (by norm_num)
          exact mul_le_mul_of_nonneg_right hr (le_of_lt hu)
      _ = (2 : ℚ) ^ (Int.log 2 |q|) := by
          rw [← h23]; norm_num; ring
      _ ≤ |q| := b1

/-- A positive rational is rounded within its binade. -/
theorem fl32_pos_bounds (q : ℚ) (hq : 0 < q) :
    (2 : ℚ) ^ (Int.log 2 |q|) ≤ fl32 q ∧ fl32 q ≤ (2 : ℚ) ^ (Int.log 2 |q| + 1) := by
  have hne : q ≠ 0 := ne_of_gt hq
  obtain ⟨b1, b2⟩ := log_two_bounds q hne
  have hu := ulp_pos (Int.log 2 |q|)
  have h23 := ulp_mul (Int.log 2 |q|)
  have h24 := ulp_mul_succ (Int.log 2 |q|)
  rw [abs_of_pos hq] at b1 b2 hu h23 h24 ⊢
  unfold fl32
  rw [if_neg hne, abs_of_pos hq]
  constructor
  · have hge : ((8388608 : Int) : ℚ) ≤ q / (2 : ℚ) ^ (Int.log 2 q - 23) := by
      rw [le_div_iff₀ hu]
      push_cast
      linarith
    have hr := roundHalfEven_ge _ _ hge
    have hr' : (8388608 : ℚ) ≤
        ((roundHalfEven (q / (2 : ℚ) ^ (Int.log 2 q - 23)) : Int) : ℚ) := by exact_mod_cast hr
    calc (2 : ℚ) ^ (Int.log 2 q) = 8388608 * (2 : ℚ) ^ (Int.log 2 q - 23) := by linarith
      _ ≤ _ := mul_le_mul_of_nonneg_right hr' (le_of_lt hu)
  · have hle : q / (2 : ℚ) ^ (Int.log 2 q - 23) ≤ ((16777216 : Int) : ℚ) := by
      rw [div_le_iff₀ hu]
      push_cast
      linarith
    have hr := roundHalfEven_le _ _ hle
    have hr' : ((roundHalfEven (q / (2 : ℚ) ^ (Int.log 2 q - 23)) : Int) : ℚ) ≤
        (16777216 : ℚ) := by exact_mod_cast hr
    calc _ ≤ 16777216 * (2 : ℚ) ^ (Int.log 2 q - 23) :=
          mul_le_mul_of_nonneg_right hr' (le_of_lt hu)
      _ = (2 : ℚ) ^ (Int.log 2 q + 1) := by linarith

theorem fl32_pos (q : ℚ) (hq : 0 < q) : 0 < fl32 q :=
  lt_of_lt_of_le (zpow_pos (by norm_num) _) (fl32_pos_bounds q hq).1

theorem fl32_neg (q : ℚ) (hq : q < 0) : fl32 q < 0 := by
  have hne : q ≠ 0 := ne_of_lt hq
  obtain ⟨b1, _⟩ := log_two_bounds q hne
  have hu := ulp_pos (Int.log 2 |q|)
  have h23 := ulp_mul (Int.log 2 |q|)
  unfold fl32
  rw [if_neg hne]
  have hle : q / (2 : ℚ) ^ (Int.log 2 |q| - 23) ≤ ((-8388608 : Int) : ℚ) := by
    rw [div_le_iff₀ hu]
    push_cast
    have b1' : (2 : ℚ) ^ (Int.log 2 |q|) ≤ -q := le_trans b1 (le_of_eq (abs_of_neg hq))
    linarith
  have hr := roundHalfEven_le _ _ hle
  have hr' : ((roundHalfEven (q / (2 : ℚ) ^ (Int.log 2 |q| - 23)) : Int) : ℚ) < 0 := by
    have : roundHalfEven (q / (2 : ℚ) ^ (Int.log 2 |q| - 23)) < 0 := by omega
    exact_mod_cast this
  exact mul_neg_of_neg_of_pos hr' hu

/-- Rounding keeps the sign: the test `timer <= 0` after `timer -= dt` is exact. -/
theorem fl32_nonpos_iff (q : ℚ) : fl32 q ≤ 0 ↔ q ≤ 0 := by
  constructor
  · intro h
    by_contra hc
    exact absurd (fl32_pos q (not_le.mp hc)) (not_lt.mpr h)
  · intro h
    rcases lt_or_eq_of_le h with h1 | h1
    · exact le_of_lt (fl32_neg q h1)
    · rw [h1, fl32_zero]

/-- Rounding does not cross a power of two. -/
theorem fl32_le_zpow (q : ℚ) (k : Int) (h : q ≤ (2 : ℚ) ^ k) : fl32 q ≤ (2 : ℚ) ^ k := by
  have hk : (0 : ℚ) < (2 : ℚ) ^ k := zpow_pos (by norm_num) k
  by_cases hq : 0 < q
  · have hb := (fl32_pos_bounds q hq).2
    rw [abs_of_pos hq] at hb
    rcases lt_or_eq_of_le h with hlt | heq
    · have hlog : Int.log 2 q < k :=
        (Int.lt_zpow_iff_log_lt (b := 2) (by norm_num) hq).mp (by exact_mod_cast hlt)
      have hle : (2 : ℚ) ^ (Int.log 2 q + 1) ≤ (2 : ℚ) ^ k :=
        zpow_le_zpow_right₀ (by norm_num) (by omega)
      exact le_trans hb hle
    · have hpk : |(2 : ℚ) ^ k| = (2 : ℚ) ^ k := abs_of_pos hk
      have h23 := ulp_mul k
      have hev := fl32_eq ((2 : ℚ) ^ k) k 8388608 (by rw [hpk])
        (by rw [hpk]; exact zpow_lt_zpow_right₀ (by norm_num) (by omega))
        (by
          have e0 : (2 : ℚ) ^ k - ((8388608 : Int) : ℚ) * (2 : ℚ) ^ (k - 23) = 0 := by
            push_cast; linarith
          rw [e0, abs_zero]
          exact div_pos (ulp_pos k) (by norm_num))
      rw [heq, hev]
      push_cast
      linarith
  · exact le_trans ((fl32_nonpos_iff q).mpr (not_lt.mp hq)) (le_of_lt hk)

/-- Evaluation of `fl32` at a positive rational. -/
theorem fl32_eq_pos (q r : ℚ) (e m : Int) (hr : r = m * (2 : ℚ) ^ (e - 23))
    (h1 : (2 : ℚ) ^ e ≤ q) (h2 : q < (2 : ℚ) ^ (e + 1))
    (h3 : q - r < (2 : ℚ) ^ (e - 23) / 2) (h4 : r - q < (2 : ℚ) ^ (e - 23) / 2) :
    fl32 q = r := by
  have hq : 0 < q := lt_of_lt_of_le (zpow_pos (by norm_num) e) h1
  rw [hr]
  apply fl32_eq q e m
  · rw [abs_of_pos hq]; exact h1
  · rw [abs_of_pos hq]; exact h2
  · rw [← hr, abs_lt]
    constructor <;> linarith

theorem roundHalfEven_tie (x : ℚ) (m : Int) (hm : m % 2 = 0) (h : |x - m| = 1 / 2) :
    roundHalfEven x = m := by
  rcases abs_eq (by norm_num : (0 : ℚ) ≤ 1 / 2) |>.mp h with h1 | h1
  · have hf : ⌊x⌋ = m := by
      rw [Int.floor_eq_iff]
      constructor <;> linarith
    unfold roundHalfEven
    rw [hf, if_neg (by linarith), if_neg (by linarith), if_pos hm]
  · have hf : ⌊x⌋ = m - 1 := by
      rw [Int.floor_eq_iff]
      push_cast
      constructor <;> linarith
    have hodd : ¬ (m - 1) % 2 = 0 := by omega
    unfold roundHalfEven
    rw [hf]
    push_cast
    rw [if_neg (by linarith), if_neg (by linarith), if_neg hodd]
    ring

/-- Evaluation of `fl32` at a positive rational halfway between two neighbours: the one with
    the even significand. -/
theorem fl32_eq_tie (q r : ℚ) (e m : Int) (hr : r = m * (2 : ℚ) ^ (e - 23)) (hm : m % 2 = 0)
    (h1 : (2 : ℚ) ^ e ≤ q) (h2 : q < (2 : ℚ) ^ (e + 1))
    (h3 : |q - r| = (2 : ℚ) ^ (e - 23) / 2) : fl32 q = r := by
  have hq : 0 < q := lt_of_lt_of_le (zpow_pos (by norm_num) e) h1
  have hu := ulp_pos e
  have hlog : Int.log 2 |q| = e :=
    log_two_eq q e (by rw [abs_of_pos hq]; exact h1) (by rw [abs_of_pos hq]; exact h2)
  unfold fl32
  rw [if_neg (ne_of_gt hq), hlog, hr]
  congr 1
  have hround : roundHalfEven (q / (2 : ℚ) ^ (e - 23)) = m := by
    apply roundHalfEven_tie _ _ hm
    have e1 : q / (2 : ℚ) ^ (e - 23) - m = (q - r) / (2 : ℚ) ^ (e - 23) := by
      rw [hr]
      field_simp
      ring
    rw [e1, abs_div, abs_of_pos hu, h3]
    field_simp
    ring
  rw [hround]

/-- C2. A kill adds `points * min (combo + 1) 10` to the score, raises the
combo count by one and sets the combo timer to 2.0; the multiplier is at most
10, and the k-th kill of a combo started from 0 is multiplied by `min k 10`. -/
theorem addScore_combo_multiplier (p : Spaceship) (points : Int) :
    (p.addScore points).score = p.score + points * min (p.combo + 1) 10 ∧
    (p.addScore points).combo = p.combo + 1 ∧
    (p.addScore points).comboTimer = 2 ∧
    min (p.combo + 1) 10 ≤ 10 ∧
    (∀ earlier : List Int, p.combo = 0 →
      ((earlier.foldl Spaceship.addScore p).addScore points).score =
        (earlier.foldl Spaceship.addScore p).score +
          points * min ((earlier.length : Int) + 1) 10) := by
  refine ⟨rfl, rfl, rfl, min_le_right _ _, ?_⟩
  intro earlier h0
  have hc : ∀ (l : List Int) (q : Spaceship),
      (l.foldl Spaceship.addScore q).combo = q.combo + l.length := by
    intro l
    induction l with
    | nil => intro q; simp
    | cons a l ih =>
      intro q
      simp only [List.foldl_cons, List.length_cons, ih]
      simp only [Spaceship.addScore]
      push_cast
      ring
  show _ + points * min ((earlier.foldl Spaceship.addScore p).combo + 1) 10 = _
  rw [hc, h0, zero_add]

/-- C2, at a new player: the first kill of 100 points scores 100, the second
one 200. -/
theorem addScore_combo_multiplier_witness :
    (((Spaceship.new Env.sample).addScore 100).addScore 100).score
      = ((Spaceship.new Env.sample).addScore 100).score + 100 * min ((1 : Int) + 1) 10 :=
  (addScore_combo_multiplier (Spaceship.new Env.sample) 100).2.2.2.2 [100] rfl

/-! ### Combo decay -/

theorem float005_eq : float005 = 13421773 / 268435456 := by
  unfold float005
  apply fl32_eq_pos _ _ (-5) 13421773 <;> norm_num

theorem spaceship_update_score (p : Spaceship) (dt : ℚ) : (p.update dt).score = p.score := by
  unfold Spaceship.update
  simp only
  split_ifs <;> rfl

/-- One update with a running combo: the stored timer is the rounded difference, and the combo
    is cleared exactly when the timer before the update is at most dt. -/
theorem spaceship_update_combo_pos (p : Spaceship) (dt : ℚ) (h : 0 < p.combo) :
    (p.update dt).combo = (if p.comboTimer - dt ≤ 0 then 0 else p.combo) ∧
    (p.update dt).comboTimer = fl32 (p.comboTimer - dt) := by
  have hs := fl32_nonpos_iff (p.comboTimer - dt)
  unfold Spaceship.update
  simp only
  by_cases hc : p.comboTimer - dt ≤ 0
  · have hc' := hs.mpr hc
    split_ifs <;> simp_all
  · have hc' : ¬ fl32 (p.comboTimer - dt) ≤ 0 := fun hh => hc (hs.mp hh)
    split_ifs <;> simp_all

theorem spaceship_update_combo_nonpos (p : Spaceship) (dt : ℚ) (h : p.combo ≤ 0) :
    (p.update dt).combo = p.combo := by
  have h' : ¬ 0 < p.combo := not_lt.mpr h
  unfold Spaceship.update
  simp only
  split_ifs <;> simp_all

theorem spaceship_updates_score (dts : List ℚ) (p : Spaceship) :
    (dts.foldl Spaceship.update p).score = p.score := by
  induction dts generalizing p with
  | nil => rfl
  | cons d ds ih => simp only [List.foldl_cons, ih, spaceship_update_score]

theorem spaceship_updates_combo_zero (dts : List ℚ) (p : Spaceship) (h : p.combo = 0) :
    (dts.foldl Spaceship.update p).combo = 0 := by
  induction dts generalizing p with
  | nil => exact h
  | cons d ds ih =>
    simp only [List.foldl_cons]
    apply ih
    rw [spaceship_update_combo_nonpos p d (le_of_eq h), h]

/-- One update that leaves the combo running, at known timer values. -/
theorem spaceship_update_combo_step (p : Spaceship) (d t t1 : ℚ)
    (hp : p.comboTimer = t ∧ p.combo = 1) (hfl : fl32 (t - d) = t1) (hpos : 0 < t1) :
    (p.update d).comboTimer = t1 ∧ (p.update d).combo = 1 := by
  obtain ⟨h1, h2⟩ := spaceship_update_combo_pos p d (by rw [hp.2]; decide)
  rw [hp.1] at h1 h2
  have hx : ¬ t - d ≤ 0 := by
    intro hc
    have := (fl32_nonpos_iff (t - d)).mpr hc
    rw [hfl] at this
    exact absurd hpos (not_lt.mpr this)
  rw [if_neg hx] at h1
  exact ⟨h2.trans hfl, h1.trans hp.2⟩

/-- Over a run of updates with a running combo and a timer of at most 2, every update adds a
    rounding error of at most 2^-23 to the timer: the combo count is cleared once the elapsed
    time exceeds the timer by the accumulated error bound and is untouched while it stays below
    the timer by that bound. -/
theorem spaceship_updates_combo (dts : List ℚ) (p : Spaceship)
    (hc : 0 < p.combo) (ht : 0 < p.comboTimer) (ht2 : p.comboTimer ≤ 2)
    (hdt : ∀ dt ∈ dts, 0 ≤ dt) :
    (p.comboTimer + (dts.length : ℚ) / 8388608 ≤ dts.sum →
      (dts.foldl Spaceship.update p).combo = 0) ∧
    (dts.sum + (dts.length : ℚ) / 8388608 < p.comboTimer →
      (dts.foldl Spaceship.update p).combo = p.combo) := by
  induction dts generalizing p with
  | nil =>
    constructor
    · intro h
      simp only [List.sum_nil, List.length_nil, Nat.cast_zero, zero_div, add_zero] at h
      exact absurd ht (not_lt.mpr h)
    · intro _
      rfl
  | cons d ds ih =>
    have hd : 0 ≤ d := hdt d (List.mem_cons_self d ds)
    have hds : ∀ dt ∈ ds, 0 ≤ dt := fun dt hm => hdt dt (List.mem_cons_of_mem d hm)
    have hsum : 0 ≤ ds.sum := List.sum_nonneg hds
    have hlen : (0 : ℚ) ≤ (ds.length : ℚ) / 8388608 := by positivity
    obtain ⟨hcombo, htimer⟩ := spaceship_update_combo_pos p d hc
    simp only [List.foldl_cons, List.sum_cons, List.length_cons, Nat.cast_add, Nat.cast_one]
    by_cases hexp : p.comboTimer - d ≤ 0
    · have hz : (p.update d).combo = 0 := by rw [hcombo, if_pos hexp]
      constructor
      · intro _
        exact spaceship_updates_combo_zero ds _ hz
      · intro hlt
        have : ((ds.length : ℚ) + 1) / 8388608 = (ds.length : ℚ) / 8388608 + 1 / 8388608 := by
          ring
        linarith
    · have hx : 0 < p.comboTimer - d := not_le.mp hexp
      have hkeep : (p.update d).combo = p.combo := by rw [hcombo, if_neg hexp]
      have hc' : 0 < (p.update d).combo := by rw [hkeep]; exact hc
      have ht' : 0 < (p.update d).comboTimer := by rw [htimer]; exact fl32_pos _ hx
      have ht2' : (p.update d).comboTimer ≤ 2 := by
        rw [htimer]
        have := fl32_le_zpow (p.comboTimer - d) 1 (by norm_num; linarith)
        norm_num at this
        exact this
      have herr : |(p.update d).comboTimer - (p.comboTimer - d)| ≤ 1 / 8388608 := by
        rw [htimer]
        have h1 := fl32_error (p.comboTimer - d)
        rw [abs_of_pos hx] at h1
        have h2 : (p.comboTimer - d) / 2 ^ (24 : ℕ) ≤ 1 / 8388608 := by
          rw [div_le_iff₀ (by norm_num)]
          norm_num
          linarith
        exact le_trans h1 h2
      rw [abs_le] at herr
      obtain ⟨ih1, ih2⟩ := ih (p.update d) hc' ht' ht2' hds
      have hsplit : ((ds.length : ℚ) + 1) / 8388608 = (ds.length : ℚ) / 8388608 + 1 / 8388608 := by
        ring
      constructor
      · intro hle
        apply ih1
        linarith [herr.1, herr.2]
      · intro hlt
        rw [ih2 (by linarith [herr.1, herr.2]), hkeep]

/-- C3 (as the code behaves). After a kill the combo timer is 2.0. An update with a running
    combo stores the timer lowered by its delta rounded to binary32, and clears the combo count
    exactly when the timer before the update is at most the delta. Over a run of n updates with
    non-negative deltas and no kill in between, the combo count is 0 afterwards, so that the next
    kill is multiplied by 1, when the deltas sum to at least 2.0 + n * 2^-23, and it is unchanged
    when they sum to less than 2.0 - n * 2^-23. -/
theorem combo_decay (q p : Spaceship) (kill next : Int) (dts : List ℚ) (dt : ℚ)
    (hq : 0 ≤ q.combo) (hdt : ∀ dt ∈ dts, 0 ≤ dt) :
    (q.addScore kill).comboTimer = 2 ∧
    (0 < p.combo →
      (p.update dt).comboTimer = fl32 (p.comboTimer - dt) ∧
      (p.update dt).combo = (if p.comboTimer ≤ dt then 0 else p.combo)) ∧
    (2 + (dts.length : ℚ) / 8388608 ≤ dts.sum →
      (dts.foldl Spaceship.update (q.addScore kill)).combo = 0 ∧
      ((dts.foldl Spaceship.update (q.addScore kill)).addScore next).score =
        (q.addScore kill).score + next * 1) ∧
    (dts.sum + (dts.length : ℚ) / 8388608 < 2 →
      (dts.foldl Spaceship.update (q.addScore kill)).combo = (q.addScore kill).combo) := by
  have hc : 0 < (q.addScore kill).combo := by
    show 0 < q.combo + 1
    omega
  have ht : (q.addScore kill).comboTimer = 2 := rfl
  obtain ⟨h1, h2⟩ :=
    spaceship_updates_combo dts (q.addScore kill) hc (by rw [ht]; norm_num) (le_of_eq ht) hdt
  refine ⟨ht, ?_, ?_, ?_⟩
  · intro hp
    obtain ⟨k1, k2⟩ := spaceship_update_combo_pos p dt hp
    refine ⟨k2, ?_⟩
    rw [k1]
    by_cases hle : p.comboTimer ≤ dt
    · rw [if_pos hle, if_pos (by linarith)]
    · rw [if_neg hle, if_neg (by linarith)]
  · intro hsum
    have hz := h1 (by rw [ht]; exact hsum)
    refine ⟨hz, ?_⟩
    show (dts.foldl Spaceship.update (q.addScore kill)).score +
        next * min ((dts.foldl Spaceship.update (q.addScore kill)).combo + 1) 10 = _
    rw [hz, spaceship_updates_score]
    norm_num
  · intro hsum
    exact h2 (by rw [ht]; exact hsum)

/-- C3, at a new player: forty-one updates of 0.05f after a kill clear the combo. -/
theorem combo_decay_witness :
    ((List.replicate 41 float005).foldl Spaceship.update
        ((Spaceship.new Env.sample).addScore 100)).combo = 0 :=
  ((combo_decay (Spaceship.new Env.sample) (Spaceship.new Env.sample) 100 100
      (List.replicate 41 float005) 0
      (by decide) (fun dt h => by rw [List.eq_of_mem_replicate h, float005_eq]; norm_num)).2.2.1
    (by rw [List.sum_replicate, List.length_replicate, float005_eq]; norm_num)).1

/-- C3 fails as stated: after a kill, forty updates of 0.05f (the binary32 value
    0.0500000007..., a sum of 2.00000003 >= 2.0) leave the combo timer at 105 / 2^27 (about
    7.8e-7), still positive, so the combo count is still 1 and not 0. -/
theorem combo_decay_counterexample :
    (∀ dt ∈ List.replicate 40 float005, 0 ≤ dt) ∧
    2 ≤ (List.replicate 40 float005).sum ∧
    ((List.replicate 40 float005).foldl Spaceship.update
      ((Spaceship.new Env.sample).addScore 100)).comboTimer = 105 / 134217728 ∧
    ((List.replicate 40 float005).foldl Spaceship.update
      ((Spaceship.new Env.sample).addScore 100)).combo = 1 := by
  have hd : float005 = 13421773 / 268435456 := float005_eq
  have h0 : ((Spaceship.new Env.sample).addScore 100).comboTimer = 2 ∧
      ((Spaceship.new Env.sample).addScore 100).combo = 1 := ⟨rfl, rfl⟩
  have h1 := spaceship_update_combo_step _ float005 _ (8178893 / 4194304) h0
    (by rw [hd]; apply fl32_eq_pos _ _ (0) 16357786 <;> norm_num) (by norm_num)
  have h2 := spaceship_update_combo_step _ float005 _ (3984589 / 2097152) h1
    (by rw [hd]; apply fl32_eq_pos _ _ (0) 15938356 <;> norm_num) (by norm_num)
  have h3 := spaceship_update_combo_step _ float005 _ (7759463 / 4194304) h2
    (by rw [hd]; apply fl32_eq_pos _ _ (0) 15518926 <;> norm_num) (by norm_num)
  have h4 := spaceship_update_combo_step _ float005 _ (1887437 / 1048576) h3
    (by rw [hd]; apply fl32_eq_pos _ _ (0) 15099496 <;> norm_num) (by norm_num)
  have h5 := spaceship_update_combo_step _ float005 _ (7340033 / 4194304) h4
    (by rw [hd]; apply fl32_eq_pos _ _ (0) 14680066 <;> norm_num) (by norm_num)
  have h6 := spaceship_update_combo_step _ float005 _ (3565159 / 2097152) h5
    (by rw [hd]; apply fl32_eq_pos _ _ (0) 14260636 <;> norm_num) (by norm_num)
  have h7 := spaceship_update_combo_step _ float005 _ (6920603 / 4194304) h6
    (by rw [hd]; apply fl32_eq_pos _ _ (0) 13841206 <;> norm_num) (by norm_num)
  have h8 := spaceship_update_combo_step _ float005 _ (838861 / 524288) h7
    (by rw [hd]; apply fl32_eq_pos _ _ (0) 13421776 <;> norm_num) (by norm_num)
  have h9 := spaceship_update_combo_step _ float005 _ (6501173 / 4194304) h8
    (by rw [hd]; apply fl32_eq_pos _ _ (0) 13002346 <;> norm_num) (by norm_num)
  have h10 := spaceship_update_combo_step _ float005 _ (3145729 / 2097152) h9
    (by rw [hd]; apply fl32_eq_pos _ _ (0) 12582916 <;> norm_num) (by norm_num)
  have h11 := spaceship_update_combo_step _ float005 _ (6081743 / 4194304) h10
    (by rw [hd]; apply fl32_eq_pos _ _ (0) 12163486 <;> norm_num) (by norm_num)
  have h12 := spaceship_update_combo_step _ float005 _ (1468007 / 1048576) h11
    (by rw [hd]; apply fl32_eq_pos _ _ (0) 11744056 <;> norm_num) (by norm_num)
  have h13 := spaceship_update_combo_step _ float005 _ (5662313 / 4194304) h12
    (by rw [hd]; apply fl32_eq_pos _ _ (0) 11324626 <;> norm_num) (by norm_num)
  have h14 := spaceship_update_combo_step _ float005 _ (2726299 / 2097152) h13
    (by rw [hd]; apply fl32_eq_pos _ _ (0) 10905196 <;> norm_num) (by norm_num)
  have h15 := spaceship_update_combo_step _ float005 _ (5242883 / 4194304) h14
    (by rw [hd]; apply fl32_eq_pos _ _ (0) 10485766 <;> norm_num) (by norm_num)
  have h16 := spaceship_update_combo_step _ float005 _ (314573 / 262144) h15
    (by rw [hd]; apply fl32_eq_pos _ _ (0) 10066336 <;> norm_num) (by norm_num)
  have h17 := spaceship_update_combo_step _ float005 _ (4823453 / 4194304) h16
    (by rw [hd]; apply fl32_eq_pos _ _ (0) 9646906 <;> norm_num) (by norm_num)
  have h18 := spaceship_update_combo_step _ float005 _ (2306869 / 2097152) h17
    (by rw [hd]; apply fl32_eq_pos _ _ (0) 9227476 <;> norm_num) (by norm_num)
  have h19 := spaceship_update_combo_step _ float005 _ (4404023 / 4194304) h18
    (by rw [hd]; apply fl32_eq_pos _ _ (0) 8808046 <;> norm_num) (by norm_num)
  have h20 := spaceship_update_combo_step _ float005 _ (1048577 / 1048576) h19
    (by rw [hd]; apply fl32_eq_pos _ _ (0) 8388616 <;> norm_num) (by norm_num)
  have h21 := spaceship_update_combo_step _ float005 _ (15938371 / 16777216) h20
    (by rw [hd]; apply fl32_eq_pos _ _ (-1) 15938371 <;> norm_num) (by norm_num)
  have h22 := spaceship_update_combo_step _ float005 _ (7549755 / 8388608) h21
    (by rw [hd]; apply fl32_eq_pos _ _ (-1) 15099510 <;> norm_num) (by norm_num)
  have h23 := spaceship_update_combo_step _ float005 _ (14260649 / 16777216) h22
    (by rw [hd]; apply fl32_eq_pos _ _ (-1) 14260649 <;> norm_num) (by norm_num)
  have h24 := spaceship_update_combo_step _ float005 _ (3355447 / 4194304) h23
    (by rw [hd]; apply fl32_eq_pos _ _ (-1) 13421788 <;> norm_num) (by norm_num)
  have h25 := spaceship_update_combo_step _ float005 _ (12582927 / 16777216) h24
    (by rw [hd]; apply fl32_eq_pos _ _ (-1) 12582927 <;> norm_num) (by norm_num)
  have h26 := spaceship_update_combo_step _ float005 _ (5872033 / 8388608) h25
    (by rw [hd]; apply fl32_eq_pos _ _ (-1) 11744066 <;> norm_num) (by norm_num)
  have h27 := spaceship_update_combo_step _ float005 _ (10905205 / 16777216) h26
    (by rw [hd]; apply fl32_eq_pos _ _ (-1) 10905205 <;> norm_num) (by norm_num)
  have h28 := spaceship_update_combo_step _ float005 _ (1258293 / 2097152) h27
    (by rw [hd]; apply fl32_eq_pos _ _ (-1) 10066344 <;> norm_num) (by norm_num)
  have h29 := spaceship_update_combo_step _ float005 _ (9227483 / 16777216) h28
    (by rw [hd]; apply fl32_eq_pos _ _ (-1) 9227483 <;> norm_num) (by norm_num)
  have h30 := spaceship_update_combo_step _ float005 _ (4194311 / 8388608) h29
    (by rw [hd]; apply fl32_eq_pos _ _ (-1) 8388622 <;> norm_num) (by norm_num)
  have h31 := spaceship_update_combo_step _ float005 _ (7549761 / 16777216) h30
    (by rw [hd]; apply fl32_eq_pos _ _ (-2) 15099522 <;> norm_num) (by norm_num)
  have h32 := spaceship_update_combo_step _ float005 _ (1677725 / 4194304) h31
    (by rw [hd]; apply fl32_eq_pos _ _ (-2) 13421800 <;> norm_num) (by norm_num)
  have h33 := spaceship_update_combo_step _ float005 _ (5872039 / 16777216) h32
    (by rw [hd]; apply fl32_eq_pos _ _ (-2) 11744078 <;> norm_num) (by norm_num)
  have h34 := spaceship_update_combo_step _ float005 _ (2516589 / 8388608) h33
    (by rw [hd]; apply fl32_eq_pos _ _ (-2) 10066356 <;> norm_num) (by norm_num)
  have h35 := spaceship_update_combo_step _ float005 _ (4194317 / 16777216) h34
    (by rw [hd]; apply fl32_eq_pos _ _ (-2) 8388634 <;> norm_num) (by norm_num)
  have h36 := spaceship_update_combo_step _ float005 _ (13421825 / 67108864) h35
    (by rw [hd]; apply fl32_eq_pos _ _ (-3) 13421825 <;> norm_num) (by norm_num)
  have h37 := spaceship_update_combo_step _ float005 _ (5033191 / 33554432) h36
    (by rw [hd]; apply fl32_eq_pos _ _ (-3) 10066382 <;> norm_num) (by norm_num)
  have h38 := spaceship_update_combo_step _ float005 _ (6710939 / 67108864) h37
    (by rw [hd]; apply fl32_eq_tie _ _ (-4) 13421878 (by norm_num) (by decide) <;> norm_num) (by norm_num)
  have h39 := spaceship_update_combo_step _ float005 _ (13421983 / 268435456) h38
    (by rw [hd]; apply fl32_eq_pos _ _ (-5) 13421983 <;> norm_num) (by norm_num)
  have h40 := spaceship_update_combo_step _ float005 _ (105 / 134217728) h39
    (by rw [hd]; apply fl32_eq_pos _ _ (-21) 13762560 <;> norm_num) (by norm_num)
  have hl : List.replicate 40 float005 =
      [float005, float005, float005, float005, float005, float005, float005, float005,
        float005, float005, float005, float005, float005, float005, float005, float005,
        float005, float005, float005, float005, float005, float005, float005, float005,
        float005, float005, float005, float005, float005, float005, float005, float005,
        float005, float005, float005, float005, float005, float005, float005, float005] := rfl
  refine ⟨?_, ?_, ?_, ?_⟩
  · intro dt hdt
    rw [List.eq_of_mem_replicate hdt, hd]
    norm_num
  · rw [List.sum_replicate, hd]
    norm_num
  · rw [hl]
    simp only [List.foldl_cons, List.foldl_nil]
    exact h40.1
  · rw [hl]
    simp only [List.foldl_cons, List.foldl_nil]
    exact h40.2

/-! ### The nuke pick-up -/

theorem forEach_length {α σ : Type} (body : σ → α → α × σ) (l : List α) (st : σ) :
    (forEach body l st).1.length = l.length := by
  induction l generalizing st with
  | nil => rfl
  | cons a as ih => simp only [forEach, List.length_cons, ih]

/-- A loop whose body leaves an observation of the threaded state alone
leaves it alone as a whole. -/
theorem forEach_frame {α σ β : Type} (f : σ → β) (body : σ → α → α × σ)
    (h : ∀ st a, f (body st a).2 = f st) (l : List α) (st : σ) :
    f (forEach body l st).2 = f st := by
  induction l generalizing st with
  | nil => rfl
  | cons a as ih => simp only [forEach, ih, h]

/-- A loop whose body establishes a property of every element it visits
establishes it for the whole container. -/
theorem forEach_all {α σ : Type} (P : α → Prop) (body : σ → α → α × σ)
    (h : ∀ st a, P (body st a).1) (l : List α) (st : σ) :
    ∀ a ∈ (forEach body l st).1, P a := by
  induction l generalizing st with
  | nil => intro a ha; simp [forEach] at ha
  | cons a as ih =>
    intro b hb
    simp only [forEach, List.mem_cons] at hb
    rcases hb with rfl | hb
    · exact h st a
    · exact ih _ b hb

/-- The nuke loop: every enemy ends inactive, each active enemy is passed to
`addScore` with half its score value, in container order. -/
theorem nukeLoop_spec (es : List Enemy) (s : GameState) :
    (∀ e ∈ (forEach GameState.nukeEnemy es s).1, e.active = false) ∧
    (forEach GameState.nukeEnemy es s).2.player.score =
      s.player.score + nukeAward s.player.combo es ∧
    (forEach GameState.nukeEnemy es s).2.player.combo = s.player.combo + activeCount es := by
  refine ⟨?_, ?_⟩
  · apply forEach_all (fun e : Enemy => e.active = false)
    intro st a
    unfold GameState.nukeEnemy
    split_ifs with h
    · rfl
    · simpa using h
  · induction es generalizing s with
    | nil => simp [forEach, nukeAward, activeCount]
    | cons e es ih =>
      obtain ⟨ih1, ih2⟩ := ih (GameState.nukeEnemy s e).2
      simp only [forEach]
      rw [ih1, ih2]
      unfold GameState.nukeEnemy
      by_cases h : e.active = true
      · simp only [h, if_true, nukeAward, activeCount, List.countP_cons_of_pos,
          GameState.createExplosion, Spaceship.addScore]
        push_cast
        constructor <;> ring
      · simp only [h, if_false, nukeAward, activeCount]
        rw [List.countP_cons_of_neg]
        · exact ⟨rfl, rfl⟩
        · simpa using h

/-- The pick-up step for an active nuke that touches the player runs the
nuke loop, shakes the screen and consumes the pick-up. -/
theorem powerUpStep_nuke (env : Env) (s : GameState) (powerUp : PowerUp)
    (hact : powerUp.active = true) (htype : powerUp.type = .Nuke)
    (htouch : powerUp.checkCollision env s.player.toGameObject = true) :
    GameState.powerUpStep env s powerUp =
      ({ powerUp with active := false },
       { (forEach GameState.nukeEnemy s.enemies s).2 with
          enemies := (forEach GameState.nukeEnemy s.enemies s).1 }.triggerScreenShake
            15 (5 / 10)) := by
  unfold GameState.powerUpStep
  simp only [hact, htouch, htype, Bool.not_true, if_true, Bool.false_eq_true, if_false]

theorem sampleNuke_touches :
    sampleNuke.checkCollision Env.sample nukeScene.player.toGameObject = true := by
  simp [sampleNuke, nukeScene, PowerUp.new, GameState.new, Spaceship.new, GameObject.setupSprite,
    GameObject.new, GameObject.checkCollision, Vector2.distanceTo, Vector2.sub, Vector2.length,
    Env.sample]
  norm_num

theorem nukeScene_award : nukeAward nukeScene.player.combo nukeScene.enemies = 900 := by
  simp [nukeScene, GameState.new, Spaceship.new, nukeAward, Enemy.create, Enemy.newAlpha,
    Enemy.base, GameObject.setupSprite, GameObject.new, Env.sample, List.replicate]
  decide

theorem nukeScene_active : activeCount nukeScene.enemies = 5 := by
  simp [nukeScene, activeCount, Enemy.create, Enemy.newAlpha,
    Enemy.base, GameObject.setupSprite, GameObject.new, Env.sample, List.replicate]

theorem sampleNuke_active : sampleNuke.active = true ∧ sampleNuke.type = .Nuke := by
  simp [sampleNuke, PowerUp.new, GameObject.setupSprite, GameObject.new, Env.sample]

theorem nukeScene_halves :
    nukeScene.player.score + (nukeScene.enemies.map fun e => Int.tdiv e.scoreValue 2).sum = 300 := by
  simp [nukeScene, GameState.new, Spaceship.new, Enemy.create, Enemy.newAlpha,
    Enemy.base, GameObject.setupSprite, GameObject.new, Env.sample, List.replicate]
  decide

theorem nukeScene_player : nukeScene.player.score = 0 ∧ nukeScene.player.combo = 0 := by
  simp [nukeScene, GameState.new, Spaceship.new]

/-- C1 (as the code behaves). When the player touches an active nuke
pick-up, every enemy of the container is inactive afterwards and the pick-up
is consumed; each active enemy is passed to `addScore` with half its score
value, so the combo count rises by the number of active enemies and the score
rises by the halves multiplied by the running combo multiplier. -/
theorem nuke_pickup_awards_through_combo (env : Env) (s : GameState) (powerUp : PowerUp)
    (hact : powerUp.active = true) (htype : powerUp.type = .Nuke)
    (htouch : powerUp.checkCollision env s.player.toGameObject = true) :
    (∀ e ∈ (GameState.powerUpStep env s powerUp).2.enemies, e.active = false) ∧
    (GameState.powerUpStep env s powerUp).2.enemies.length = s.enemies.length ∧
    (GameState.powerUpStep env s powerUp).2.player.score =
      s.player.score + nukeAward s.player.combo s.enemies ∧
    (GameState.powerUpStep env s powerUp).2.player.combo =
      s.player.combo + activeCount s.enemies ∧
    (GameState.powerUpStep env s powerUp).1.active = false := by
  obtain ⟨hall, hscore, hcombo⟩ := nukeLoop_spec s.enemies s
  have hlen := forEach_length GameState.nukeEnemy s.enemies s
  rw [powerUpStep_nuke env s powerUp hact htype htouch]
  exact ⟨hall, hlen, hscore, hcombo, rfl⟩

/-- C1, in the sample scene: five enemies worth 120 each, combo 0. -/
theorem nuke_pickup_awards_through_combo_witness :
    (GameState.powerUpStep Env.sample nukeScene sampleNuke).2.player.score =
      nukeScene.player.score + nukeAward nukeScene.player.combo nukeScene.enemies ∧
    (GameState.powerUpStep Env.sample nukeScene sampleNuke).2.player.combo =
      nukeScene.player.combo + activeCount nukeScene.enemies :=
  ⟨(nuke_pickup_awards_through_combo Env.sample nukeScene sampleNuke sampleNuke_active.1
      sampleNuke_active.2 sampleNuke_touches).2.2.1,
   (nuke_pickup_awards_through_combo Env.sample nukeScene sampleNuke sampleNuke_active.1
      sampleNuke_active.2 sampleNuke_touches).2.2.2.1⟩

/-- C1 fails as stated: with five active enemies worth 120 each and a player
at score 0 and combo 0, the nuke raises the score to 900 (not to 5 * 60 = 300)
and the combo count to 5 (not 0). -/
theorem nuke_pickup_counterexample :
    sampleNuke.active = true ∧ sampleNuke.type = .Nuke ∧
    sampleNuke.checkCollision Env.sample nukeScene.player.toGameObject = true ∧
    activeCount nukeScene.enemies = 5 ∧
    (GameState.powerUpStep Env.sample nukeScene sampleNuke).2.player.score = 900 ∧
    (GameState.powerUpStep Env.sample nukeScene sampleNuke).2.player.combo = 5 ∧
    ¬ ((GameState.powerUpStep Env.sample nukeScene sampleNuke).2.player.score =
          nukeScene.player.score +
            (nukeScene.enemies.map fun e => Int.tdiv e.scoreValue 2).sum ∧
       (GameState.powerUpStep Env.sample nukeScene sampleNuke).2.player.combo =
          nukeScene.player.combo) := by
  have hstep := powerUpStep_nuke Env.sample nukeScene sampleNuke sampleNuke_active.1
    sampleNuke_active.2 sampleNuke_touches
  obtain ⟨_, hscore, hcombo⟩ := nukeLoop_spec nukeScene.enemies nukeScene
  have hs : (GameState.powerUpStep Env.sample nukeScene sampleNuke).2.player.score = 900 := by
    rw [hstep]
    show (forEach GameState.nukeEnemy nukeScene.enemies nukeScene).2.player.score = 900
    rw [hscore, nukeScene_award, nukeScene_player.1]
    rfl
  have hc : (GameState.powerUpStep Env.sample nukeScene sampleNuke).2.player.combo = 5 := by
    rw [hstep]
    show (forEach GameState.nukeEnemy nukeScene.enemies nukeScene).2.player.combo = 5
    rw [hcombo, nukeScene_active, nukeScene_player.2]
    rfl
  refine ⟨sampleNuke_active.1, sampleNuke_active.2, sampleNuke_touches, nukeScene_active,
    hs, hc, ?_⟩
  rintro ⟨h, _⟩
  rw [hs, nukeScene_halves] at h
  exact absurd h (by decide)

/-! ### Health bounds -/

/-- An invariant kept by every admissible operation holds along every
admissible sequence of operations. -/
theorem foldl_invariant {σ ο : Type} (I : σ → Prop) (f : σ → ο → σ) (ok : ο → Prop)
    (h : ∀ s o, I s → ok o → I (f s o)) (ops : List ο) (s : σ)
    (hs : I s) (hops : ∀ o ∈ ops, ok o) : I (ops.foldl f s) := by
  induction ops generalizing s with
  | nil => exact hs
  | cons o os ih =>
    simp only [List.foldl_cons]
    exact ih _ (h s o hs (hops o (List.mem_cons_self o os)))
      (fun o' ho' => hops o' (List.mem_cons_of_mem o ho'))

theorem spaceship_update_health (p : Spaceship) (dt : ℚ) :
    (p.update dt).health = p.health ∧ (p.update dt).maxHealth = p.maxHealth := by
  unfold Spaceship.update GameObject.update
  simp only
  split_ifs <;> exact ⟨rfl, rfl⟩

theorem spaceship_takeDamage_maxHealth (p : Spaceship) (dmg : ℚ) :
    (p.takeDamage dmg).maxHealth = p.maxHealth := by
  unfold Spaceship.takeDamage
  simp only
  split_ifs <;> rfl

theorem spaceship_takeDamage_health_le (p : Spaceship) (dmg : ℚ) (hd : 0 ≤ dmg)
    (h : p.health ≤ p.maxHealth) : (p.takeDamage dmg).health ≤ p.maxHealth := by
  unfold Spaceship.takeDamage
  simp only
  split_ifs <;> first | exact h | exact le_refl _ | (show p.health - dmg ≤ p.maxHealth; linarith)

theorem spaceship_applyPowerUp_health (p : Spaceship) (t : PowerUpType)
    (h : p.health ≤ p.maxHealth) :
    (p.applyPowerUp t).health ≤ (p.applyPowerUp t).maxHealth := by
  cases t <;> simp only [Spaceship.applyPowerUp] <;> first | exact h | exact min_le_right _ _

theorem shipOp_apply_health (p : Spaceship) (op : ShipOp) (h : p.health ≤ p.maxHealth)
    (hop : op.ok) : (ShipOp.apply p op).health ≤ (ShipOp.apply p op).maxHealth := by
  cases op with
  | update dt =>
    simp only [ShipOp.apply]
    rw [(spaceship_update_health p dt).1, (spaceship_update_health p dt).2]
    exact h
  | takeDamage dmg =>
    simp only [ShipOp.apply]
    rw [spaceship_takeDamage_maxHealth]
    exact spaceship_takeDamage_health_le p dmg hop h
  | addScore points => exact h
  | applyPowerUp t => exact spaceship_applyPowerUp_health p t h
  | setVelocity v => exact h

theorem enemy_updateBase_health (e : Enemy) (dt : ℚ) :
    (e.updateBase dt).health = e.health ∧ (e.updateBase dt).maxHealth = e.maxHealth :=
  ⟨rfl, rfl⟩

theorem enemy_update_health (env : Env) (g : Nat) (e : Enemy) (dt : ℚ) :
    (e.update env g dt).1.health = e.health ∧ (e.update env g dt).1.maxHealth = e.maxHealth := by
  unfold Enemy.update
  split
  · exact ⟨rfl, rfl⟩
  · exact ⟨rfl, rfl⟩
  · exact ⟨rfl, rfl⟩
  · simp only
    split_ifs <;> exact ⟨rfl, rfl⟩
  · simp only
    split_ifs <;> exact ⟨rfl, rfl⟩
  · exact ⟨rfl, rfl⟩

theorem enemyOp_apply_health (env : Env) (e : Enemy) (op : EnemyOp)
    (h : e.health ≤ e.maxHealth) (hop : op.ok) :
    (EnemyOp.apply env e op).health ≤ (EnemyOp.apply env e op).maxHealth := by
  cases op with
  | update g playerPos dt =>
    simp only [EnemyOp.apply]
    rw [(enemy_update_health env g _ dt).1, (enemy_update_health env g _ dt).2]
    exact h
  | takeDamage dmg =>
    have hd : 0 ≤ dmg := hop
    show e.health - dmg ≤ e.maxHealth
    linarith

theorem enemy_create_health (env : Env) (g : Nat) (t : EnemyType) (level phase : Int) :
    (Enemy.create env g t level phase).health = (Enemy.create env g t level phase).maxHealth := by
  cases t <;> rfl

theorem finalBoss_update_health (env : Env) (b : FinalBoss) (dt : ℚ) :
    (b.update env dt).health = b.health ∧ (b.update env dt).maxHealth = b.maxHealth := by
  unfold FinalBoss.update
  simp only
  split_ifs <;> exact ⟨rfl, rfl⟩

theorem finalBoss_takeDamage_health (b : FinalBoss) (dmg : ℚ) :
    (b.takeDamage dmg).health = b.health - (if b.hasShield then dmg * (3 / 10) else dmg) ∧
    (b.takeDamage dmg).maxHealth = b.maxHealth := by
  unfold FinalBoss.takeDamage
  by_cases h : b.hasShield = true <;> simp [h]

theorem finalBoss_attack_health (env : Env) (b : FinalBoss) :
    (b.getAttackBullets env).2.health = b.health ∧
    (b.getAttackBullets env).2.maxHealth = b.maxHealth ∧
    (b.getAttackBullets env).2.bossPhase = b.bossPhase := by
  unfold FinalBoss.getAttackBullets
  split_ifs <;> exact ⟨rfl, rfl, rfl⟩

theorem bossOp_apply_health (env : Env) (b : FinalBoss) (op : BossOp)
    (h : b.health ≤ b.maxHealth) (hop : op.ok) :
    (BossOp.apply env b op).health ≤ (BossOp.apply env b op).maxHealth := by
  cases op with
  | update playerPos dt =>
    simp only [BossOp.apply]
    rw [(finalBoss_update_health env _ dt).1, (finalBoss_update_health env _ dt).2]
    exact h
  | takeDamage dmg =>
    have hd : 0 ≤ dmg := hop
    simp only [BossOp.apply]
    rw [(finalBoss_takeDamage_health b dmg).1, (finalBoss_takeDamage_health b dmg).2]
    split_ifs <;> linarith
  | attack =>
    simp only [BossOp.apply]
    rw [(finalBoss_attack_health env b).1, (finalBoss_attack_health env b).2.1]
    exact h

/-- C4 (as the code behaves). For the player, every enemy variant and the
boss, `health ≤ maxHealth` holds after every operation of every sequence of
updates, damages (non-negative) and pick-ups applied to a newly constructed
entity.  No lower bound is claimed: damage is subtracted without a clamp. -/
theorem health_le_maxHealth (env : Env) :
    (∀ ops : List ShipOp, (∀ op ∈ ops, op.ok) →
      (ShipOp.run (Spaceship.new env) ops).health ≤
        (ShipOp.run (Spaceship.new env) ops).maxHealth) ∧
    (∀ (g : Nat) (t : EnemyType) (level phase : Int) (ops : List EnemyOp),
      (∀ op ∈ ops, op.ok) →
      (EnemyOp.run env (Enemy.create env g t level phase) ops).health ≤
        (EnemyOp.run env (Enemy.create env g t level phase) ops).maxHealth) ∧
    (∀ ops : List BossOp, (∀ op ∈ ops, op.ok) →
      (BossOp.run env (FinalBoss.new env) ops).health ≤
        (BossOp.run env (FinalBoss.new env) ops).maxHealth) := by
  refine ⟨?_, ?_, ?_⟩
  · intro ops hops
    exact foldl_invariant (fun p : Spaceship => p.health ≤ p.maxHealth) ShipOp.apply ShipOp.ok
      shipOp_apply_health ops _ (le_refl _) hops
  · intro g t level phase ops hops
    exact foldl_invariant (fun e : Enemy => e.health ≤ e.maxHealth) (EnemyOp.apply env)
      EnemyOp.ok (enemyOp_apply_health env) ops _
      (le_of_eq (enemy_create_health env g t level phase)) hops
  · intro ops hops
    exact foldl_invariant (fun b : FinalBoss => b.health ≤ b.maxHealth) (BossOp.apply env)
      BossOp.ok (bossOp_apply_health env) ops _ (le_refl _) hops

/-- C4, for a level-1 Alpha enemy hit for 50 after one update. -/
theorem health_le_maxHealth_witness :
    (EnemyOp.run Env.sample (Enemy.create Env.sample 0 .Alpha 1 1)
        [.update 0 ⟨0, 0⟩ (1 / 60), .takeDamage 50]).health ≤
      (EnemyOp.run Env.sample (Enemy.create Env.sample 0 .Alpha 1 1)
        [.update 0 ⟨0, 0⟩ (1 / 60), .takeDamage 50]).maxHealth :=
  (health_le_maxHealth Env.sample).2.1 0 .Alpha 1 1 [.update 0 ⟨0, 0⟩ (1 / 60), .takeDamage 50]
    (by
      intro op hop
      simp only [List.mem_cons, List.mem_singleton, List.not_mem_nil, or_false] at hop
      rcases hop with rfl | rfl
      · show (0 : ℚ) ≤ 1 / 60
        norm_num
      · show (0 : ℚ) ≤ 50
        norm_num)

/-- C4 fails as stated: a level-1 Alpha enemy (health 40) hit for 50 is left
with health -10, below 0. -/
theorem health_lower_bound_counterexample :
    EnemyOp.ok (.takeDamage 50) ∧
    (EnemyOp.run Env.sample (Enemy.create Env.sample 0 .Alpha 1 1) [.takeDamage 50]).health = -10 ∧
    ¬ (0 ≤ (EnemyOp.run Env.sample (Enemy.create Env.sample 0 .Alpha 1 1)
              [.takeDamage 50]).health) := by
  have h : (EnemyOp.run Env.sample (Enemy.create Env.sample 0 .Alpha 1 1)
      [.takeDamage 50]).health = -10 := by
    simp [EnemyOp.run, EnemyOp.apply, Enemy.takeDamage, Enemy.create, Enemy.newAlpha, Enemy.base,
      GameObject.setupSprite, GameObject.new, Env.sample]
    norm_num
  refine ⟨?_, h, ?_⟩
  · show (0 : ℚ) ≤ 50
    norm_num
  · rw [h]
    norm_num

/-! ### Boss phases -/

theorem finalBoss_update_phase (env : Env) (b : FinalBoss) (dt : ℚ) :
    (b.update env dt).bossPhase =
      (if b.position.y < 150 then b.bossPhase
       else if b.health / b.maxHealth ≤ 3 / 10 then 3
       else if b.health / b.maxHealth ≤ 6 / 10 then 2
       else b.bossPhase) := by
  unfold FinalBoss.update
  simp only
  split_ifs <;> rfl

theorem phaseInv_range (b : FinalBoss) (h : PhaseInv b) :
    b.bossPhase = 1 ∨ b.bossPhase = 2 ∨ b.bossPhase = 3 := by
  rcases h.2 with h1 | h2 | h3
  · exact Or.inl h1
  · exact Or.inr (Or.inl h2.1)
  · exact Or.inr (Or.inr h3.1)

theorem phaseInv_update (env : Env) (b : FinalBoss) (dt : ℚ) (h : PhaseInv b) :
    PhaseInv (b.update env dt) ∧ b.bossPhase ≤ (b.update env dt).bossPhase := by
  obtain ⟨hmax, hph⟩ := h
  have hH := finalBoss_update_health env b dt
  have hP := finalBoss_update_phase env b dt
  unfold PhaseInv
  rw [hH.1, hH.2, hP]
  refine ⟨⟨hmax, ?_⟩, ?_⟩
  · split_ifs with h1 h2 h3
    · exact hph
    · exact Or.inr (Or.inr ⟨rfl, h2⟩)
    · exact Or.inr (Or.inl ⟨rfl, h3⟩)
    · exact hph
  · split_ifs with h1 h2 h3
    · exact le_refl _
    · rcases hph with p | p | p <;> omega
    · rcases hph with p | p | p
      · omega
      · omega
      · exact absurd p.2 h2
    · exact le_refl _

theorem phaseInv_takeDamage (b : FinalBoss) (dmg : ℚ) (hd : 0 ≤ dmg) (h : PhaseInv b) :
    PhaseInv (b.takeDamage dmg) ∧ b.bossPhase ≤ (b.takeDamage dmg).bossPhase := by
  obtain ⟨hmax, hph⟩ := h
  have hH := finalBoss_takeDamage_health b dmg
  have hP : (b.takeDamage dmg).bossPhase = b.bossPhase := by
    unfold FinalBoss.takeDamage
    by_cases hs : b.hasShield = true <;> simp [hs]
  have hle : (b.takeDamage dmg).health ≤ b.health := by
    rw [hH.1]
    split_ifs <;> linarith
  have hdiv : (b.takeDamage dmg).health / 500 ≤ b.health / 500 :=
    div_le_div_of_nonneg_right hle (by norm_num)
  unfold PhaseInv
  rw [hH.2, hP, hmax]
  rw [hmax] at hph
  refine ⟨⟨rfl, ?_⟩, le_refl _⟩
  rcases hph with p | p | p
  · exact Or.inl p
  · exact Or.inr (Or.inl ⟨p.1, le_trans hdiv p.2⟩)
  · exact Or.inr (Or.inr ⟨p.1, le_trans hdiv p.2⟩)

theorem phaseInv_apply (env : Env) (b : FinalBoss) (op : BossOp) (h : PhaseInv b) (hop : op.ok) :
    PhaseInv (BossOp.apply env b op) ∧ b.bossPhase ≤ (BossOp.apply env b op).bossPhase := by
  cases op with
  | update playerPos dt => exact phaseInv_update env (b.setPlayerPosition playerPos) dt h
  | takeDamage dmg => exact phaseInv_takeDamage b dmg hop h
  | attack =>
    obtain ⟨h1, h2, h3⟩ := finalBoss_attack_health env b
    simp only [BossOp.apply]
    unfold PhaseInv
    rw [h1, h2, h3]
    exact ⟨h, le_refl _⟩

theorem phaseInv_run (env : Env) (ops : List BossOp) (hops : ∀ o ∈ ops, o.ok) :
    PhaseInv (BossOp.run env (FinalBoss.new env) ops) :=
  foldl_invariant PhaseInv (BossOp.apply env) BossOp.ok
    (fun b o hb ho => (phaseInv_apply env b o hb ho).1) ops _
    ⟨rfl, Or.inl rfl⟩ hops

/-- C5. Along every sequence of boss updates and damages (non-negative)
starting from a newly created boss, the phase is 1, 2 or 3 and no step lowers
it. -/
theorem boss_phase_never_decreases (env : Env) (ops : List BossOp) (op : BossOp)
    (hops : ∀ o ∈ ops, o.ok) (hop : op.ok) :
    ((BossOp.run env (FinalBoss.new env) ops).bossPhase = 1 ∨
      (BossOp.run env (FinalBoss.new env) ops).bossPhase = 2 ∨
      (BossOp.run env (FinalBoss.new env) ops).bossPhase = 3) ∧
    (BossOp.run env (FinalBoss.new env) ops).bossPhase ≤
      (BossOp.apply env (BossOp.run env (FinalBoss.new env) ops) op).bossPhase := by
  have hinv := phaseInv_run env ops hops
  exact ⟨phaseInv_range _ hinv, (phaseInv_apply env _ op hinv hop).2⟩

/-- C5, for a new boss hit for 400 and then updated. -/
theorem boss_phase_never_decreases_witness :
    (BossOp.run Env.sample (FinalBoss.new Env.sample) [.takeDamage 400]).bossPhase ≤
      (BossOp.apply Env.sample
        (BossOp.run Env.sample (FinalBoss.new Env.sample) [.takeDamage 400])
        (.update ⟨0, 0⟩ (1 / 60))).bossPhase :=
  (boss_phase_never_decreases Env.sample [.takeDamage 400] (.update ⟨0, 0⟩ (1 / 60))
    (by
      intro o ho
      rw [List.mem_singleton] at ho
      rw [ho]
      show (0 : ℚ) ≤ 400
      norm_num)
    (by
      show (0 : ℚ) ≤ 1 / 60
      norm_num)).2

theorem phaseOfHealth_antitone (maxHealth h1 h2 : ℚ) (hmax : 0 < maxHealth) (h : h2 ≤ h1) :
    phaseOfHealth maxHealth h1 ≤ phaseOfHealth maxHealth h2 := by
  have hdiv : h2 / maxHealth ≤ h1 / maxHealth := div_le_div_of_nonneg_right h (le_of_lt hmax)
  unfold phaseOfHealth
  split_ifs with a b c d e f <;> first | decide | (exfalso; linarith)

theorem finalBoss_update_phaseOfHealth (env : Env) (b : FinalBoss) (dt : ℚ)
    (hphase : b.bossPhase = 1) (hy : 150 ≤ b.position.y) :
    (b.update env dt).bossPhase = phaseOfHealth b.maxHealth b.health := by
  rw [finalBoss_update_phase, if_neg (not_lt.mpr hy), hphase]
  rfl

/-- C6 (as the code behaves). The phase that `FinalBoss::update` assigns to a
phase-1 boss that has finished entering is 3 when health / maxHealth ≤ 0.3, 2
when it is ≤ 0.6 and 1 otherwise, and it is antitone in the health: of two
such bosses with the same positive maxHealth, the one with the lower health
gets the phase that is at least as high. -/
theorem boss_phase_antitone_in_health (env : Env) (b1 b2 : FinalBoss) (dt1 dt2 : ℚ)
    (hp1 : b1.bossPhase = 1) (hp2 : b2.bossPhase = 1)
    (hy1 : 150 ≤ b1.position.y) (hy2 : 150 ≤ b2.position.y)
    (hmax : b1.maxHealth = b2.maxHealth) (hpos : 0 < b1.maxHealth)
    (hle : b2.health ≤ b1.health) :
    (b1.update env dt1).bossPhase = phaseOfHealth b1.maxHealth b1.health ∧
    (b2.update env dt2).bossPhase = phaseOfHealth b2.maxHealth b2.health ∧
    (b1.update env dt1).bossPhase ≤ (b2.update env dt2).bossPhase := by
  have e1 := finalBoss_update_phaseOfHealth env b1 dt1 hp1 hy1
  have e2 := finalBoss_update_phaseOfHealth env b2 dt2 hp2 hy2
  refine ⟨e1, e2, ?_⟩
  rw [e1, e2, ← hmax]
  exact phaseOfHealth_antitone _ _ _ hpos hle

theorem bossAtHealth_facts (h : ℚ) :
    (bossAtHealth h).bossPhase = 1 ∧ (150 : ℚ) ≤ (bossAtHealth h).position.y ∧
    (bossAtHealth h).maxHealth = 500 ∧ (bossAtHealth h).health = h := by
  simp [bossAtHealth, FinalBoss.new, GameObject.setupSprite, GameObject.new, Env.sample]

/-- C6, for a boss at full health 500 and a boss at health 100. -/
theorem boss_phase_antitone_in_health_witness :
    ((bossAtHealth 500).update Env.sample 0).bossPhase ≤
      ((bossAtHealth 100).update Env.sample 0).bossPhase :=
  (boss_phase_antitone_in_health Env.sample (bossAtHealth 500) (bossAtHealth 100) 0 0
    (bossAtHealth_facts 500).1 (bossAtHealth_facts 100).1
    (bossAtHealth_facts 500).2.1 (bossAtHealth_facts 100).2.1
    (by rw [(bossAtHealth_facts 500).2.2.1, (bossAtHealth_facts 100).2.2.1])
    (by rw [(bossAtHealth_facts 500).2.2.1]; norm_num)
    (by rw [(bossAtHealth_facts 500).2.2.2, (bossAtHealth_facts 100).2.2.2]; norm_num)).2.2

/-- C6 fails as stated: with maxHealth 500, h1 = 500 and h2 = 0 lie in
[0, maxHealth] and h1 ≥ h2, but the phase at h1 is 1 and the phase at h2 is 3. -/
theorem boss_phase_counterexample :
    (0 : ℚ) ≤ (bossAtHealth 0).health ∧
    (bossAtHealth 0).health ≤ (bossAtHealth 500).health ∧
    (bossAtHealth 500).health ≤ (bossAtHealth 500).maxHealth ∧
    ((bossAtHealth 500).update Env.sample 0).bossPhase = 1 ∧
    ((bossAtHealth 0).update Env.sample 0).bossPhase = 3 ∧
    ¬ (((bossAtHealth 500).update Env.sample 0).bossPhase ≥
        ((bossAtHealth 0).update Env.sample 0).bossPhase) := by
  have e1 : ((bossAtHealth 500).update Env.sample 0).bossPhase = 1 := by
    rw [finalBoss_update_phaseOfHealth _ _ _ (bossAtHealth_facts 500).1 (bossAtHealth_facts 500).2.1,
      (bossAtHealth_facts 500).2.2.1, (bossAtHealth_facts 500).2.2.2]
    unfold phaseOfHealth
    norm_num
  have e2 : ((bossAtHealth 0).update Env.sample 0).bossPhase = 3 := by
    rw [finalBoss_update_phaseOfHealth _ _ _ (bossAtHealth_facts 0).1 (bossAtHealth_facts 0).2.1,
      (bossAtHealth_facts 0).2.2.1, (bossAtHealth_facts 0).2.2.2]
    unfold phaseOfHealth
    norm_num
  refine ⟨?_, ?_, ?_, e1, e2, ?_⟩
  · rw [(bossAtHealth_facts 0).2.2.2]
  · rw [(bossAtHealth_facts 0).2.2.2, (bossAtHealth_facts 500).2.2.2]
    norm_num
  · rw [(bossAtHealth_facts 500).2.2.2, (bossAtHealth_facts 500).2.2.1]
  · rw [e1, e2]
    decide

/-! ### Boss damage -/

/-- C7. With the shield up, `FinalBoss::takeDamage d` lowers the health by
0.3 * d (by 15 for d = 50) and the shield timer by 2.0; with the shield down
it lowers the health by d and leaves the shield timer alone; an active boss is
inactive afterwards exactly when the resulting health is at most 0. -/
theorem boss_takeDamage_effect (b : FinalBoss) (d : ℚ) :
    (b.hasShield = true →
      (b.takeDamage d).health = b.health - 3 / 10 * d ∧
      (b.takeDamage d).shieldTimer = b.shieldTimer - 2 ∧
      (b.takeDamage 50).health = b.health - 15) ∧
    (b.hasShield = false →
      (b.takeDamage d).health = b.health - d ∧
      (b.takeDamage d).shieldTimer = b.shieldTimer) ∧
    (b.active = true → ((b.takeDamage d).active = false ↔ (b.takeDamage d).health ≤ 0)) := by
  refine ⟨?_, ?_, ?_⟩
  · intro hs
    unfold FinalBoss.takeDamage
    simp only [hs, if_true]
    refine ⟨by ring, trivial, by ring⟩
  · intro hs
    unfold FinalBoss.takeDamage
    simp [hs]
  · intro ha
    unfold FinalBoss.takeDamage
    by_cases hs : b.hasShield = true
    · simp only [hs, if_true, ha]
      by_cases hz : b.health - d * (3 / 10) ≤ 0 <;> simp [hz]
    · simp only [hs, if_false, ha, Bool.false_eq_true]
      by_cases hz : b.health - d ≤ 0 <;> simp [hz]

/-- C7, for a new boss (shield up, health 500) hit for 50: health 485. -/
theorem boss_takeDamage_effect_witness :
    ((FinalBoss.new Env.sample).takeDamage 50).health = (FinalBoss.new Env.sample).health - 15 ∧
    ((FinalBoss.new Env.sample).takeDamage 50).shieldTimer =
      (FinalBoss.new Env.sample).shieldTimer - 2 :=
  ⟨((boss_takeDamage_effect (FinalBoss.new Env.sample) 50).1 rfl).2.2,
   ((boss_takeDamage_effect (FinalBoss.new Env.sample) 50).1 rfl).2.1⟩

/-! ### Collision test -/

theorem distanceTo_comm (env : Env) (a b : Vector2) : a.distanceTo env b = b.distanceTo env a := by
  unfold Vector2.distanceTo Vector2.length Vector2.sub
  simp only
  congr 1
  ring

/-- C8. `checkCollision` is symmetric; it holds exactly when both objects
are active and the distance between their centres is less than the sum of
their bounding radii; an inactive object collides with nothing. -/
theorem checkCollision_symmetric (env : Env) (a b : GameObject) :
    a.checkCollision env b = b.checkCollision env a ∧
    (a.checkCollision env b = true ↔
      a.active = true ∧ b.active = true ∧
      a.position.distanceTo env b.position < a.boundingRadius + b.boundingRadius) ∧
    (a.active = false → a.checkCollision env b = false ∧ b.checkCollision env a = false) := by
  refine ⟨?_, ?_, ?_⟩
  · unfold GameObject.checkCollision
    rw [distanceTo_comm env a.position b.position, add_comm a.boundingRadius b.boundingRadius]
    cases a.active <;> cases b.active <;> simp
  · unfold GameObject.checkCollision
    cases a.active <;> cases b.active <;> simp
  · intro ha
    unfold GameObject.checkCollision
    simp [ha]

/-- C8, for a new object tested against an inactive copy of itself. -/
theorem checkCollision_symmetric_witness :
    GameObject.checkCollision Env.sample { GameObject.new with active := false } GameObject.new
      = false ∧
    GameObject.checkCollision Env.sample GameObject.new { GameObject.new with active := false }
      = false :=
  (checkCollision_symmetric Env.sample { GameObject.new with active := false } GameObject.new).2.2
    rfl

/-! ### Cleanup -/

theorem powerUp_new_active (env : Env) (g : Nat) (t : PowerUpType) :
    (PowerUp.new env g t).1.active = true := by
  unfold PowerUp.new GameObject.setupSprite GameObject.new
  simp only
  split <;> rfl

theorem spawnPowerUp_containers (env : Env) (s : GameState) :
    (s.spawnPowerUp env).enemies = s.enemies ∧
    (s.spawnPowerUp env).bullets = s.bullets ∧
    (s.spawnPowerUp env).explosions = s.explosions ∧
    ∃ p : PowerUp, p.active = true ∧ (s.spawnPowerUp env).powerUps = s.powerUps ++ [p] := by
  refine ⟨rfl, rfl, rfl, _, ?_, rfl⟩
  exact powerUp_new_active env (s.rng + 1) (PowerUpType.ofInt (env.randInt s.rng 0 7))

/-- The end of the tick leaves the enemy, bullet and explosion containers
alone and adds at most one pick-up, which is active. -/
theorem finishTick_containers (env : Env) (s : GameState) :
    (GameState.finishTick env s).enemies = s.enemies ∧
    (GameState.finishTick env s).bullets = s.bullets ∧
    (GameState.finishTick env s).explosions = s.explosions ∧
    ((GameState.finishTick env s).powerUps = s.powerUps ∨
      ∃ p : PowerUp, p.active = true ∧ (GameState.finishTick env s).powerUps = s.powerUps ++ [p]) := by
  obtain ⟨h1, h2, h3, h4⟩ := spawnPowerUp_containers env { s with rng := s.rng + 1 }
  unfold GameState.finishTick
  simp only
  split_ifs
  · exact ⟨h1, h2, h3, Or.inr h4⟩
  · exact ⟨h1, h2, h3, Or.inr h4⟩
  · exact ⟨rfl, rfl, rfl, Or.inl rfl⟩
  · exact ⟨rfl, rfl, rfl, Or.inl rfl⟩

/-- C9. `removeInactiveObjects` keeps, in each of the four containers,
exactly the active elements in their original order; and at the end of a
gameplay tick each container holds the elements that were still active after
the update and collision steps (the pick-up container possibly followed by one
newly spawned pick-up), so no container holds an inactive element when the
next tick begins. -/
theorem removeInactiveObjects_purges (env : Env) (s : GameState) :
    (((GameState.removeInactiveObjects s).enemies = s.enemies.filter (fun e => e.active) ∧
      (GameState.removeInactiveObjects s).enemies.Sublist s.enemies ∧
      ∀ e, e ∈ (GameState.removeInactiveObjects s).enemies ↔ e ∈ s.enemies ∧ e.active = true) ∧
     ((GameState.removeInactiveObjects s).bullets = s.bullets.filter (fun b => b.active) ∧
      (GameState.removeInactiveObjects s).bullets.Sublist s.bullets ∧
      ∀ b, b ∈ (GameState.removeInactiveObjects s).bullets ↔ b ∈ s.bullets ∧ b.active = true) ∧
     ((GameState.removeInactiveObjects s).powerUps = s.powerUps.filter (fun p => p.active) ∧
      (GameState.removeInactiveObjects s).powerUps.Sublist s.powerUps ∧
      ∀ p, p ∈ (GameState.removeInactiveObjects s).powerUps ↔ p ∈ s.powerUps ∧ p.active = true) ∧
     ((GameState.removeInactiveObjects s).explosions = s.explosions.filter (fun e => e.active) ∧
      (GameState.removeInactiveObjects s).explosions.Sublist s.explosions ∧
      ∀ e, e ∈ (GameState.removeInactiveObjects s).explosions ↔
        e ∈ s.explosions ∧ e.active = true)) ∧
    ((GameState.updateGameplay env s).enemies =
        (GameState.checkCollisions env (GameState.updateActors env s)).enemies.filter
          (fun e => e.active) ∧
     (GameState.updateGameplay env s).bullets =
        (GameState.checkCollisions env (GameState.updateActors env s)).bullets.filter
          (fun b => b.active) ∧
     (GameState.updateGameplay env s).explosions =
        (GameState.checkCollisions env (GameState.updateActors env s)).explosions.filter
          (fun e => e.active)) ∧
    ((∀ e ∈ (GameState.updateGameplay env s).enemies, e.active = true) ∧
     (∀ b ∈ (GameState.updateGameplay env s).bullets, b.active = true) ∧
     (∀ p ∈ (GameState.updateGameplay env s).powerUps, p.active = true) ∧
     (∀ e ∈ (GameState.updateGameplay env s).explosions, e.active = true)) := by
  have hmem : ∀ {α : Type} (f : α → Bool) (l : List α) (a : α),
      a ∈ l.filter f ↔ a ∈ l ∧ f a = true := fun f l a => List.mem_filter
  obtain ⟨he, hb, hx, hp⟩ := finishTick_containers env
    (GameState.removeInactiveObjects (GameState.checkCollisions env (GameState.updateActors env s)))
  refine ⟨⟨⟨rfl, List.filter_sublist _, fun e => hmem _ _ e⟩,
    ⟨rfl, List.filter_sublist _, fun b => hmem _ _ b⟩,
    ⟨rfl, List.filter_sublist _, fun p => hmem _ _ p⟩,
    ⟨rfl, List.filter_sublist _, fun e => hmem _ _ e⟩⟩, ⟨he, hb, hx⟩, ?_, ?_, ?_, ?_⟩
  · intro e hmemE
    unfold GameState.updateGameplay at hmemE
    rw [he] at hmemE
    exact ((hmem _ _ e).mp hmemE).2
  · intro b hmemB
    unfold GameState.updateGameplay at hmemB
    rw [hb] at hmemB
    exact ((hmem _ _ b).mp hmemB).2
  · intro p hmemP
    unfold GameState.updateGameplay at hmemP
    rcases hp with hp | ⟨q, hq, hp⟩
    · rw [hp] at hmemP
      exact ((hmem _ _ p).mp hmemP).2
    · rw [hp, List.mem_append, List.mem_singleton] at hmemP
      rcases hmemP with h | h
      · exact ((hmem _ _ p).mp h).2
      · rw [h]
        exact hq
  · intro e hmemE
    unfold GameState.updateGameplay at hmemE
    rw [hx] at hmemE
    exact ((hmem _ _ e).mp hmemE).2

/-! ### Phase progression -/

theorem spawnList_length (env : Env) (level phase : Int) (l : List Nat) (g : Nat) :
    (GameState.spawnList env level phase l g).1.length = l.length := by
  induction l generalizing g with
  | nil => rfl
  | cons i is ih => simp only [GameState.spawnList, List.length_cons, ih]

/-- What `spawnEnemies` changes: the enemy container and the generator. -/
theorem spawnEnemies_spec (env : Env) (s : GameState) :
    (s.spawnEnemies env).currentLevel = s.currentLevel ∧
    (s.spawnEnemies env).currentPhase = s.currentPhase ∧
    (s.spawnEnemies env).currentScreen = s.currentScreen ∧
    (s.spawnEnemies env).phaseTimer = s.phaseTimer ∧
    (s.spawnEnemies env).enemies =
      (GameState.spawnList env s.currentLevel s.currentPhase
        (List.range (truncToInt (((6 + s.currentLevel * 3 + s.currentPhase * 2 : Int) : ℚ) *
          s.difficulty)).toNat) s.rng).1 ∧
    (s.spawnEnemies env).enemies.length =
      (truncToInt (((6 + s.currentLevel * 3 + s.currentPhase * 2 : Int) : ℚ) * s.difficulty)).toNat := by
  refine ⟨rfl, rfl, rfl, rfl, rfl, ?_⟩
  unfold GameState.spawnEnemies
  simp only [spawnList_length, List.length_range]

theorem nextPhase_same_level (env : Env) (s : GameState) (h : s.currentPhase + 1 ≤ 2) :
    GameState.nextPhase env s =
      GameState.spawnEnemies env
        { s with currentPhase := s.currentPhase + 1, phaseTimer := 25 + (s.currentLevel : ℚ) * 5 } := by
  unfold GameState.nextPhase PHASES_PER_LEVEL
  simp only
  rw [if_neg (not_lt.mpr h)]

theorem nextPhase_next_level (env : Env) (s : GameState) (h : 2 < s.currentPhase + 1)
    (hl : s.currentLevel + 1 ≤ 2) :
    GameState.nextPhase env s =
      GameState.spawnEnemies env
        { s with currentPhase := 1, currentLevel := s.currentLevel + 1,
                 phaseTimer := 25 + ((s.currentLevel + 1 : Int) : ℚ) * 5 } := by
  unfold GameState.nextPhase PHASES_PER_LEVEL MAX_LEVELS
  simp only
  rw [if_pos h, if_neg (not_lt.mpr hl)]

theorem nextPhase_boss_warning (env : Env) (s : GameState) (h : 2 < s.currentPhase + 1)
    (hl : 2 < s.currentLevel + 1) :
    GameState.nextPhase env s =
      { s with currentPhase := 1, currentLevel := s.currentLevel + 1,
               currentScreen := .BossWarning, phaseTimer := 4 } := by
  unfold GameState.nextPhase PHASES_PER_LEVEL MAX_LEVELS
  simp only
  rw [if_pos h, if_pos hl]

/-- The level and phase after `nextPhase`. -/
theorem nextPhase_levelPhase (env : Env) (s : GameState) :
    ((GameState.nextPhase env s).currentLevel, (GameState.nextPhase env s).currentPhase) =
      (if 2 < s.currentPhase + 1 then (s.currentLevel + 1, 1)
       else (s.currentLevel, s.currentPhase + 1)) := by
  by_cases h : 2 < s.currentPhase + 1
  · rw [if_pos h]
    by_cases hl : 2 < s.currentLevel + 1
    · rw [nextPhase_boss_warning env s h hl]
    · rw [nextPhase_next_level env s h (not_lt.mp hl)]
      rfl
  · rw [if_neg h, nextPhase_same_level env s (not_lt.mp h)]
    rfl

theorem bulletHitsEnemy_progress (env : Env) (st : Bullet × GameState) (e : Enemy) :
    (GameState.bulletHitsEnemy env st e).2.2.progress = st.2.progress := by
  unfold GameState.bulletHitsEnemy
  simp only
  split_ifs <;> rfl

theorem bulletHitsBoss_progress (env : Env) (s : GameState) (b : Bullet) :
    (GameState.bulletHitsBoss env s b).2.progress = s.progress := by
  unfold GameState.bulletHitsBoss
  cases hb : s.boss with
  | none => simp [GameState.progress, hb]
  | some boss =>
    simp only
    split_ifs <;> simp [GameState.progress, GameState.triggerScreenShake, hb]

theorem playerBulletStep_progress (env : Env) (s : GameState) (b : Bullet) :
    (GameState.playerBulletStep env s b).2.progress = s.progress := by
  unfold GameState.playerBulletStep
  simp only
  split_ifs
  · rfl
  · show (forEach (GameState.bulletHitsEnemy env) _ _).2.2.progress = _
    rw [forEach_frame (fun st : Bullet × GameState => st.2.progress) _
      (bulletHitsEnemy_progress env)]
    exact bulletHitsBoss_progress env s b

theorem enemyBulletStep_progress (env : Env) (s : GameState) (b : Bullet) :
    (GameState.enemyBulletStep env s b).2.progress = s.progress := by
  unfold GameState.enemyBulletStep
  split_ifs <;> rfl

theorem enemyBodyStep_progress (env : Env) (s : GameState) (e : Enemy) :
    (GameState.enemyBodyStep env s e).2.progress = s.progress := by
  unfold GameState.enemyBodyStep
  split_ifs <;> rfl

theorem nukeEnemy_progress (s : GameState) (e : Enemy) :
    (GameState.nukeEnemy s e).2.progress = s.progress := by
  unfold GameState.nukeEnemy
  split_ifs <;> rfl

theorem powerUpStep_progress (env : Env) (s : GameState) (p : PowerUp) :
    (GameState.powerUpStep env s p).2.progress = s.progress := by
  unfold GameState.powerUpStep
  simp only
  split_ifs
  · rfl
  · show (forEach GameState.nukeEnemy s.enemies s).2.progress = _
    exact forEach_frame GameState.progress _ nukeEnemy_progress _ _
  · rfl
  · rfl
  · rfl

theorem bossBodyStep_progress (env : Env) (s : GameState) :
    (GameState.bossBodyStep env s).progress = s.progress := by
  unfold GameState.bossBodyStep
  cases hb : s.boss with
  | none => simp [GameState.progress, hb]
  | some boss =>
    simp only
    split_ifs <;> simp [GameState.progress, GameState.triggerScreenShake, hb]

/-- Collision resolution does not touch level, phase, screen, phase timer or
boss-level flag. -/
theorem checkCollisions_progress (env : Env) (s : GameState) :
    (GameState.checkCollisions env s).progress = s.progress := by
  unfold GameState.checkCollisions
  simp only
  rw [bossBodyStep_progress]
  show (forEach (GameState.powerUpStep env) _ _).2.progress = _
  rw [forEach_frame GameState.progress _ (powerUpStep_progress env)]
  show (forEach (GameState.enemyBodyStep env) _ _).2.progress = _
  rw [forEach_frame GameState.progress _ (enemyBodyStep_progress env)]
  show (forEach (GameState.enemyBulletStep env) _ _).2.progress = _
  rw [forEach_frame GameState.progress _ (enemyBulletStep_progress env)]
  show (forEach (GameState.playerBulletStep env) _ _).2.progress = _
  rw [forEach_frame GameState.progress _ (playerBulletStep_progress env)]

theorem enemyUpdateStep_progress (env : Env) (s : GameState) (e : Enemy) :
    (GameState.enemyUpdateStep env s e).2.progress = s.progress := by
  unfold GameState.enemyUpdateStep
  simp only
  split_ifs <;> rfl

/-- The end of the tick keeps level and phase. -/
theorem finishTick_levelPhase (env : Env) (s : GameState) :
    (GameState.finishTick env s).currentLevel = s.currentLevel ∧
    (GameState.finishTick env s).currentPhase = s.currentPhase := by
  unfold GameState.finishTick
  simp only
  split_ifs <;> exact ⟨rfl, rfl⟩

theorem forEach_nil_iff {α σ : Type} (body : σ → α → α × σ) (l : List α) (st : σ) :
    (forEach body l st).1 = [] ↔ l = [] := by
  rw [← List.length_eq_zero, forEach_length, List.length_eq_zero]

/-- The enemy branch of a gameplay tick: level and phase after the update
loop and the phase-completion check. -/
theorem updateEnemies_levelPhase (env : Env) (s1 : GameState) :
    ((GameState.updateEnemies env s1).currentLevel,
      (GameState.updateEnemies env s1).currentPhase) =
      (if s1.enemies = [] ∧ s1.phaseTimer ≤ 0 then
        ((GameState.nextPhase env s1).currentLevel, (GameState.nextPhase env s1).currentPhase)
       else (s1.currentLevel, s1.currentPhase)) := by
  have hfr : (forEach (GameState.enemyUpdateStep env) s1.enemies s1).2.progress = s1.progress :=
    forEach_frame GameState.progress _ (enemyUpdateStep_progress env) _ _
  have hL : (forEach (GameState.enemyUpdateStep env) s1.enemies s1).2.currentLevel
      = s1.currentLevel := congrArg (fun t => t.1) hfr
  have hP : (forEach (GameState.enemyUpdateStep env) s1.enemies s1).2.currentPhase
      = s1.currentPhase := congrArg (fun t => t.2.1) hfr
  have hT : (forEach (GameState.enemyUpdateStep env) s1.enemies s1).2.phaseTimer
      = s1.phaseTimer := congrArg (fun t => t.2.2.2.1) hfr
  have hE : (forEach (GameState.enemyUpdateStep env) s1.enemies s1).1.isEmpty = true ↔
      s1.enemies = [] := by
    rw [List.isEmpty_iff]
    exact forEach_nil_iff _ _ _
  unfold GameState.updateEnemies
  simp only [hE, hT]
  by_cases hc : s1.enemies = [] ∧ s1.phaseTimer ≤ 0
  · rw [if_pos hc, if_pos hc, nextPhase_levelPhase, nextPhase_levelPhase]
    simp only [hL, hP]
  · rw [if_neg hc, if_neg hc]
    simp only [hL, hP]

theorem updateBoss_levelPhase (env : Env) (s1 : GameState) (boss : FinalBoss) :
    ((GameState.updateBoss env s1 boss).currentLevel,
      (GameState.updateBoss env s1 boss).currentPhase) = (s1.currentLevel, s1.currentPhase) := by
  unfold GameState.updateBoss
  simp only
  split_ifs <;> rfl

theorem updateBossOrEnemies_levelPhase (env : Env) (s1 : GameState) :
    ((GameState.updateBossOrEnemies env s1).currentLevel,
      (GameState.updateBossOrEnemies env s1).currentPhase) =
      (if s1.isBossLevel = true ∧ s1.boss.isSome = true then (s1.currentLevel, s1.currentPhase)
       else if s1.enemies = [] ∧ s1.phaseTimer ≤ 0 then
        ((GameState.nextPhase env s1).currentLevel, (GameState.nextPhase env s1).currentPhase)
       else (s1.currentLevel, s1.currentPhase)) := by
  have hbranch := updateEnemies_levelPhase env s1
  have hboss := updateBoss_levelPhase env s1
  unfold GameState.updateBossOrEnemies
  cases hB : s1.isBossLevel with
  | false =>
    simp only [Bool.false_eq_true, if_false, false_and]
    exact hbranch
  | true =>
    cases hb : s1.boss with
    | none =>
      simp only [if_true, Option.isSome_none, Bool.false_eq_true, and_false, if_false]
      exact hbranch
    | some boss =>
      simp only [if_true, Option.isSome_some, and_self]
      exact hboss boss

/-- Level and phase after the first part of a gameplay tick: `nextPhase` acts
exactly when the boss branch is not taken, the enemy container is empty and
the phase timer has run out. -/
theorem updateActors_levelPhase (env : Env) (s : GameState) :
    ((GameState.updateActors env s).currentLevel, (GameState.updateActors env s).currentPhase) =
      (if s.isBossLevel = true ∧ s.boss.isSome = true then (s.currentLevel, s.currentPhase)
       else if s.enemies = [] ∧ s.phaseTimer ≤ 0 then
        ((GameState.nextPhase env s).currentLevel, (GameState.nextPhase env s).currentPhase)
       else (s.currentLevel, s.currentPhase)) := by
  have hnp : ((GameState.nextPhase env { s with player := s.player.update s.deltaTime }).currentLevel,
      (GameState.nextPhase env { s with player := s.player.update s.deltaTime }).currentPhase) =
      ((GameState.nextPhase env s).currentLevel, (GameState.nextPhase env s).currentPhase) := by
    rw [nextPhase_levelPhase, nextPhase_levelPhase]
  have h := updateBossOrEnemies_levelPhase env { s with player := s.player.update s.deltaTime }
  rw [hnp] at h
  exact h

/-! #### The boss exists whenever the boss-level flag is set -/

theorem nextPhase_boss (env : Env) (s : GameState) :
    (GameState.nextPhase env s).isBossLevel = s.isBossLevel ∧
    (GameState.nextPhase env s).boss = s.boss := by
  by_cases h : 2 < s.currentPhase + 1
  · by_cases hl : 2 < s.currentLevel + 1
    · rw [nextPhase_boss_warning env s h hl]
      exact ⟨rfl, rfl⟩
    · rw [nextPhase_next_level env s h (not_lt.mp hl)]
      exact ⟨rfl, rfl⟩
  · rw [nextPhase_same_level env s (not_lt.mp h)]
    exact ⟨rfl, rfl⟩

theorem updateEnemies_bossConsistent (env : Env) (s1 : GameState) (h : s1.bossConsistent) :
    (GameState.updateEnemies env s1).bossConsistent := by
  have hfr : (forEach (GameState.enemyUpdateStep env) s1.enemies s1).2.progress = s1.progress :=
    forEach_frame GameState.progress _ (enemyUpdateStep_progress env) _ _
  have hB : (forEach (GameState.enemyUpdateStep env) s1.enemies s1).2.isBossLevel
      = s1.isBossLevel := congrArg (fun t => t.2.2.2.2.1) hfr
  have hS : (forEach (GameState.enemyUpdateStep env) s1.enemies s1).2.boss.isSome
      = s1.boss.isSome := congrArg (fun t => t.2.2.2.2.2) hfr
  unfold GameState.updateEnemies GameState.bossConsistent
  simp only
  split_ifs
  · rw [(nextPhase_boss env _).1, (nextPhase_boss env _).2]
    show (forEach (GameState.enemyUpdateStep env) s1.enemies s1).2.isBossLevel = true →
      (forEach (GameState.enemyUpdateStep env) s1.enemies s1).2.boss.isSome = true
    rw [hB, hS]
    exact h
  · show (forEach (GameState.enemyUpdateStep env) s1.enemies s1).2.isBossLevel = true →
      (forEach (GameState.enemyUpdateStep env) s1.enemies s1).2.boss.isSome = true
    rw [hB, hS]
    exact h

theorem updateBoss_bossConsistent (env : Env) (s1 : GameState) (boss : FinalBoss) :
    (GameState.updateBoss env s1 boss).bossConsistent := by
  unfold GameState.updateBoss GameState.bossConsistent
  simp only
  split_ifs <;> exact fun _ => rfl

theorem updateBossOrEnemies_bossConsistent (env : Env) (s1 : GameState)
    (h : s1.bossConsistent) : (GameState.updateBossOrEnemies env s1).bossConsistent := by
  unfold GameState.updateBossOrEnemies
  split
  · exact updateBoss_bossConsistent env s1 _
  · exact updateEnemies_bossConsistent env s1 h

theorem finishTick_boss (env : Env) (s : GameState) :
    (GameState.finishTick env s).isBossLevel = s.isBossLevel ∧
    (GameState.finishTick env s).boss = s.boss := by
  unfold GameState.finishTick
  simp only
  split_ifs <;> exact ⟨rfl, rfl⟩

theorem updateGameplay_bossConsistent (env : Env) (s : GameState) (h : s.bossConsistent) :
    (GameState.updateGameplay env s).bossConsistent := by
  have h1 : (GameState.updateActors env s).bossConsistent :=
    updateBossOrEnemies_bossConsistent env { s with player := s.player.update s.deltaTime } h
  have hfr := checkCollisions_progress env (GameState.updateActors env s)
  have hB : (GameState.checkCollisions env (GameState.updateActors env s)).isBossLevel
      = (GameState.updateActors env s).isBossLevel := congrArg (fun t => t.2.2.2.2.1) hfr
  have hS : (GameState.checkCollisions env (GameState.updateActors env s)).boss.isSome
      = (GameState.updateActors env s).boss.isSome := congrArg (fun t => t.2.2.2.2.2) hfr
  obtain ⟨f1, f2⟩ := finishTick_boss env
    (GameState.removeInactiveObjects (GameState.checkCollisions env (GameState.updateActors env s)))
  unfold GameState.updateGameplay GameState.bossConsistent
  rw [f1, f2]
  show (GameState.checkCollisions env (GameState.updateActors env s)).isBossLevel = true →
    (GameState.checkCollisions env (GameState.updateActors env s)).boss.isSome = true
  rw [hB, hS]
  exact h1

theorem advanceClock_boss (env : Env) (s : GameState) (frameTime : ℚ) :
    (GameState.advanceClock env s frameTime).isBossLevel = s.isBossLevel ∧
    (GameState.advanceClock env s frameTime).boss = s.boss := by
  unfold GameState.advanceClock
  simp only
  split_ifs <;> exact ⟨rfl, rfl⟩

theorem dispatch_bossConsistent (env : Env) (s : GameState) (h : s.bossConsistent) :
    (GameState.dispatch env s).bossConsistent := by
  unfold GameState.dispatch
  split
  · unfold GameState.updateIntro
    simp only
    split_ifs <;> exact h
  · exact updateGameplay_bossConsistent env s h
  · unfold GameState.updateBossWarning
    simp only
    split_ifs
    · exact fun _ => rfl
    · exact h
  · exact h

theorem update_bossConsistent (env : Env) (s : GameState) (frameTime : ℚ)
    (h : s.bossConsistent) : (GameState.update env s frameTime).bossConsistent := by
  apply dispatch_bossConsistent
  unfold GameState.bossConsistent
  rw [(advanceClock_boss env s frameTime).1, (advanceClock_boss env s frameTime).2]
  exact h

/-- Level and phase after a whole gameplay tick. -/
theorem updateGameplay_levelPhase (env : Env) (s : GameState) :
    ((GameState.updateGameplay env s).currentLevel, (GameState.updateGameplay env s).currentPhase) =
      (if s.isBossLevel = true ∧ s.boss.isSome = true then (s.currentLevel, s.currentPhase)
       else if s.enemies = [] ∧ s.phaseTimer ≤ 0 then
        ((GameState.nextPhase env s).currentLevel, (GameState.nextPhase env s).currentPhase)
       else (s.currentLevel, s.currentPhase)) := by
  have hfr := checkCollisions_progress env (GameState.updateActors env s)
  have hL : (GameState.checkCollisions env (GameState.updateActors env s)).currentLevel
      = (GameState.updateActors env s).currentLevel := congrArg (fun t => t.1) hfr
  have hP : (GameState.checkCollisions env (GameState.updateActors env s)).currentPhase
      = (GameState.updateActors env s).currentPhase := congrArg (fun t => t.2.1) hfr
  obtain ⟨f1, f2⟩ := finishTick_levelPhase env
    (GameState.removeInactiveObjects (GameState.checkCollisions env (GameState.updateActors env s)))
  unfold GameState.updateGameplay
  rw [f1, f2, ← updateActors_levelPhase env s, ← hL, ← hP]
  rfl

theorem enteredPhase_of_spawn (env : Env) (s t : GameState) (level phase : Int)
    (hl : t.currentLevel = level) (hp : t.currentPhase = phase)
    (hs : t.currentScreen = .Gameplay) (ht : t.phaseTimer = 25 + 5 * (level : ℚ))
    (hd : t.difficulty = s.difficulty) (hg : t.rng = s.rng) :
    GameState.EnteredPhase env s (GameState.spawnEnemies env t) level phase := by
  obtain ⟨a, b, c, d, e, f⟩ := spawnEnemies_spec env t
  rw [hl, hp, hd, hg] at e
  rw [hl, hp, hd] at f
  exact ⟨a.trans hl, b.trans hp, c.trans hs, d.trans ht, e, f⟩

theorem nextPhase_entered (env : Env) (s : GameState) (hs : s.currentScreen = .Gameplay) :
    (s.currentLevel = 1 → s.currentPhase = 1 →
      GameState.EnteredPhase env s (GameState.nextPhase env s) 1 2) ∧
    (s.currentLevel = 1 → s.currentPhase = 2 →
      GameState.EnteredPhase env s (GameState.nextPhase env s) 2 1) ∧
    (s.currentLevel = 2 → s.currentPhase = 1 →
      GameState.EnteredPhase env s (GameState.nextPhase env s) 2 2) := by
  refine ⟨?_, ?_, ?_⟩
  · intro hl hp
    rw [nextPhase_same_level env s (by rw [hp]; decide)]
    apply enteredPhase_of_spawn
    · exact hl
    · show s.currentPhase + 1 = 2
      rw [hp]; rfl
    · exact hs
    · show 25 + (s.currentLevel : ℚ) * 5 = _
      rw [hl]; norm_num
    · rfl
    · rfl
  · intro hl hp
    rw [nextPhase_next_level env s (by rw [hp]; decide) (by rw [hl]; decide)]
    apply enteredPhase_of_spawn
    · show s.currentLevel + 1 = 2
      rw [hl]; rfl
    · rfl
    · exact hs
    · show 25 + ((s.currentLevel + 1 : Int) : ℚ) * 5 = _
      rw [hl]; norm_num
    · rfl
    · rfl
  · intro hl hp
    rw [nextPhase_same_level env s (by rw [hp]; decide)]
    apply enteredPhase_of_spawn
    · exact hl
    · show s.currentPhase + 1 = 2
      rw [hp]; rfl
    · exact hs
    · show 25 + (s.currentLevel : ℚ) * 5 = _
      rw [hl]; norm_num
    · rfl
    · rfl

theorem startGame_start (env : Env) (s : GameState) :
    (GameState.startGame env s).currentLevel = 1 ∧
    (GameState.startGame env s).currentPhase = 1 ∧
    (GameState.startGame env s).currentScreen = .Gameplay ∧
    (GameState.startGame env s).isBossLevel = false :=
  ⟨rfl, rfl, rfl, rfl⟩

theorem nextPhase_to_boss_warning (env : Env) (s : GameState)
    (hl : s.currentLevel = 2) (hp : s.currentPhase = 2) :
    (GameState.nextPhase env s).currentScreen = .BossWarning ∧
    (GameState.nextPhase env s).phaseTimer = 4 ∧
    (GameState.nextPhase env s).enemies = s.enemies ∧
    (GameState.nextPhase env s).rng = s.rng := by
  rw [nextPhase_boss_warning env s (by rw [hp]; decide) (by rw [hl]; decide)]
  exact ⟨rfl, rfl, rfl, rfl⟩

/-- C10. From a state in play, `nextPhase` takes (1,1) to (1,2), (1,2) to
(2,1) and (2,1) to (2,2), each time with a respawned enemy set, the Gameplay
screen and the phase timer 25 + 5 * level; from (2,2) it switches to the
BossWarning screen with a 4.0 s countdown and spawns nothing.  Four successive
calls from a new game run through exactly these steps.  In a gameplay tick the
level and phase move (by `nextPhase`) exactly when it is not the boss level,
the enemy container is empty and the phase timer is at most 0; the boss exists
whenever the boss-level flag is set, in every session reached by ticks and new
games. -/
theorem nextPhase_progression (env : Env) (s : GameState) :
    (s.currentScreen = .Gameplay →
      (s.currentLevel = 1 → s.currentPhase = 1 →
        GameState.EnteredPhase env s (GameState.nextPhase env s) 1 2) ∧
      (s.currentLevel = 1 → s.currentPhase = 2 →
        GameState.EnteredPhase env s (GameState.nextPhase env s) 2 1) ∧
      (s.currentLevel = 2 → s.currentPhase = 1 →
        GameState.EnteredPhase env s (GameState.nextPhase env s) 2 2)) ∧
    (s.currentLevel = 2 → s.currentPhase = 2 →
      (GameState.nextPhase env s).currentScreen = .BossWarning ∧
      (GameState.nextPhase env s).phaseTimer = 4 ∧
      (GameState.nextPhase env s).enemies = s.enemies ∧
      (GameState.nextPhase env s).rng = s.rng) ∧
    (((GameState.startGame env s).currentLevel = 1 ∧
      (GameState.startGame env s).currentPhase = 1 ∧
      (GameState.startGame env s).currentScreen = .Gameplay) ∧
     GameState.EnteredPhase env (GameState.startGame env s)
      (GameState.nextPhase env (GameState.startGame env s)) 1 2 ∧
     GameState.EnteredPhase env (GameState.nextPhase env (GameState.startGame env s))
      (GameState.nextPhase env (GameState.nextPhase env (GameState.startGame env s))) 2 1 ∧
     GameState.EnteredPhase env
      (GameState.nextPhase env (GameState.nextPhase env (GameState.startGame env s)))
      (GameState.nextPhase env
        (GameState.nextPhase env (GameState.nextPhase env (GameState.startGame env s)))) 2 2 ∧
     (GameState.nextPhase env (GameState.nextPhase env
        (GameState.nextPhase env (GameState.nextPhase env (GameState.startGame env s))))).currentScreen
        = .BossWarning ∧
     (GameState.nextPhase env (GameState.nextPhase env
        (GameState.nextPhase env (GameState.nextPhase env (GameState.startGame env s))))).phaseTimer
        = 4 ∧
     (GameState.nextPhase env (GameState.nextPhase env
        (GameState.nextPhase env (GameState.nextPhase env (GameState.startGame env s))))).enemies
        = (GameState.nextPhase env
        (GameState.nextPhase env (GameState.nextPhase env (GameState.startGame env s)))).enemies) ∧
    (s.bossConsistent → (s.isBossLevel = true ∨ s.enemies ≠ [] ∨ 0 < s.phaseTimer) →
      (GameState.updateGameplay env s).currentLevel = s.currentLevel ∧
      (GameState.updateGameplay env s).currentPhase = s.currentPhase) ∧
    (s.isBossLevel = false → s.enemies = [] → s.phaseTimer ≤ 0 →
      (GameState.updateGameplay env s).currentLevel = (GameState.nextPhase env s).currentLevel ∧
      (GameState.updateGameplay env s).currentPhase = (GameState.nextPhase env s).currentPhase ∧
      ((GameState.nextPhase env s).currentLevel ≠ s.currentLevel ∨
        (GameState.nextPhase env s).currentPhase ≠ s.currentPhase)) ∧
    ((GameState.startGame env s).bossConsistent ∧
      ∀ frameTime : ℚ, s.bossConsistent → (GameState.update env s frameTime).bossConsistent) := by
  refine ⟨fun hs => nextPhase_entered env s hs, nextPhase_to_boss_warning env s, ?_, ?_, ?_, ?_⟩
  · obtain ⟨g1, g2, g3, _⟩ := startGame_start env s
    have e1 := (nextPhase_entered env _ g3).1 g1 g2
    have e2 := (nextPhase_entered env _ e1.2.2.1).2.1 e1.1 e1.2.1
    have e3 := (nextPhase_entered env _ e2.2.2.1).2.2 e2.1 e2.2.1
    have e4 := nextPhase_to_boss_warning env _ e3.1 e3.2.1
    exact ⟨⟨g1, g2, g3⟩, e1, e2, e3, e4.1, e4.2.1, e4.2.2.1⟩
  · intro hcons hcond
    have h := updateGameplay_levelPhase env s
    by_cases hb : s.isBossLevel = true ∧ s.boss.isSome = true
    · rw [if_pos hb] at h
      exact ⟨congrArg Prod.fst h, congrArg Prod.snd h⟩
    · rw [if_neg hb] at h
      have hnb : ¬ s.isBossLevel = true := fun hB => hb ⟨hB, hcons hB⟩
      have hne : ¬ (s.enemies = [] ∧ s.phaseTimer ≤ 0) := by
        rintro ⟨he, ht⟩
        rcases hcond with hB | hE | hT
        · exact hnb hB
        · exact hE he
        · exact absurd ht (not_le.mpr hT)
      rw [if_neg hne] at h
      exact ⟨congrArg Prod.fst h, congrArg Prod.snd h⟩
  · intro hB hE hT
    have h := updateGameplay_levelPhase env s
    rw [if_neg (by rw [hB]; simp), if_pos ⟨hE, hT⟩] at h
    refine ⟨congrArg Prod.fst h, congrArg Prod.snd h, ?_⟩
    have hn := nextPhase_levelPhase env s
    by_cases hp : 2 < s.currentPhase + 1
    · rw [if_pos hp] at hn
      left
      have h1 : (GameState.nextPhase env s).currentLevel = s.currentLevel + 1 :=
        congrArg Prod.fst hn
      omega
    · rw [if_neg hp] at hn
      right
      have h2 : (GameState.nextPhase env s).currentPhase = s.currentPhase + 1 :=
        congrArg Prod.snd hn
      omega
  · refine ⟨?_, fun frameTime h => update_bossConsistent env s frameTime h⟩
    intro hB
    exact absurd hB (by rw [(startGame_start env s).2.2.2]; simp)

/-- C10, for the first advance of a new game started from a new session. -/
theorem nextPhase_progression_witness :
    GameState.EnteredPhase Env.sample
      (GameState.startGame Env.sample (GameState.new Env.sample []))
      (GameState.nextPhase Env.sample
        (GameState.startGame Env.sample (GameState.new Env.sample []))) 1 2 :=
  ((nextPhase_progression Env.sample
      (GameState.startGame Env.sample (GameState.new Env.sample []))).1 rfl).1 rfl rfl

/-! ### Boss warning -/

/-- What the head of a tick leaves alone (the director's view), and the delta
time it sets. -/
theorem advanceClock_progress (env : Env) (s : GameState) (frameTime : ℚ) :
    (GameState.advanceClock env s frameTime).progress = s.progress ∧
    (GameState.advanceClock env s frameTime).deltaTime =
      min frameTime (5 / 100) * s.slowTimeMultiplier := by
  unfold GameState.advanceClock
  simp only
  split_ifs <;> exact ⟨rfl, rfl⟩

theorem finalBoss_new_facts (env : Env) :
    (FinalBoss.new env).health = 500 ∧ (FinalBoss.new env).maxHealth = 500 ∧
    (FinalBoss.new env).bossPhase = 1 ∧ (FinalBoss.new env).position.y = -150 ∧
    (FinalBoss.new env).hasShield = true ∧ (FinalBoss.new env).shieldTimer = 0 ∧
    (FinalBoss.new env).active = true := by
  unfold FinalBoss.new GameObject.setupSprite
  cases env.textureWidth "boss" <;> exact ⟨rfl, rfl, rfl, rfl, rfl, rfl, rfl⟩

/-- One tick on the boss-warning screen. -/
theorem bossWarning_step (env : Env) (s : GameState) (frameTime : ℚ)
    (hs : s.currentScreen = .BossWarning) :
    (GameState.update env s frameTime).deltaTime =
      min frameTime (5 / 100) * s.slowTimeMultiplier ∧
    (GameState.update env s frameTime).phaseTimer =
      s.phaseTimer - min frameTime (5 / 100) * s.slowTimeMultiplier ∧
    ((GameState.update env s frameTime).phaseTimer ≤ 0 →
      (GameState.update env s frameTime).currentScreen = .Gameplay ∧
      (GameState.update env s frameTime).isBossLevel = true ∧
      (GameState.update env s frameTime).boss = some (FinalBoss.new env)) ∧
    (0 < (GameState.update env s frameTime).phaseTimer →
      (GameState.update env s frameTime).currentScreen = .BossWarning ∧
      (GameState.update env s frameTime).isBossLevel = s.isBossLevel ∧
      (GameState.update env s frameTime).boss = s.boss) := by
  obtain ⟨hp, hd⟩ := advanceClock_progress env s frameTime
  obtain ⟨_, hboss⟩ := advanceClock_boss env s frameTime
  have hscreen : (GameState.advanceClock env s frameTime).currentScreen = .BossWarning :=
    (congrArg (fun t => t.2.2.1) hp).trans hs
  have htimer : (GameState.advanceClock env s frameTime).phaseTimer = s.phaseTimer :=
    congrArg (fun t => t.2.2.2.1) hp
  have hflag : (GameState.advanceClock env s frameTime).isBossLevel = s.isBossLevel :=
    congrArg (fun t => t.2.2.2.2.1) hp
  have hupd : GameState.update env s frameTime =
      GameState.updateBossWarning env (GameState.advanceClock env s frameTime) := by
    unfold GameState.update GameState.dispatch
    rw [hscreen]
  rw [hupd]
  unfold GameState.updateBossWarning
  simp only [hd, htimer]
  by_cases hz : s.phaseTimer - min frameTime (5 / 100) * s.slowTimeMultiplier ≤ 0
  · rw [if_pos hz]
    refine ⟨rfl, rfl, fun _ => ⟨rfl, rfl, rfl⟩, fun hpos => absurd hz (not_le.mpr hpos)⟩
  · rw [if_neg hz]
    refine ⟨rfl, rfl, fun hle => absurd hle hz, fun _ => ⟨hscreen, hflag, hboss⟩⟩

theorem ticks_append_singleton (env : Env) (s : GameState) (fts : List ℚ) (ft : ℚ) :
    GameState.ticks env s (fts ++ [ft]) = GameState.update env (GameState.ticks env s fts) ft := by
  unfold GameState.ticks
  rw [List.foldl_append]
  rfl

/-- While every tick so far has left the countdown positive, the session is
still on the boss-warning screen with its boss-level flag and boss untouched. -/
theorem bossWarning_waiting (env : Env) (s : GameState) (fts : List ℚ)
    (hs : s.currentScreen = .BossWarning)
    (hearly : ∀ k, 0 < k → k ≤ fts.length → 0 < (GameState.ticks env s (fts.take k)).phaseTimer) :
    (GameState.ticks env s fts).currentScreen = .BossWarning ∧
    (GameState.ticks env s fts).isBossLevel = s.isBossLevel ∧
    (GameState.ticks env s fts).boss = s.boss := by
  induction fts using List.reverseRecOn with
  | nil => exact ⟨hs, rfl, rfl⟩
  | append_singleton l a ih =>
    have hl : ∀ k, 0 < k → k ≤ l.length → 0 < (GameState.ticks env s (l.take k)).phaseTimer := by
      intro k hk hkl
      have h := hearly k hk (by rw [List.length_append]; omega)
      rwa [List.take_append_of_le_length hkl] at h
    obtain ⟨i1, i2, i3⟩ := ih hl
    have hlast := hearly (l.length + 1) (by omega) (by rw [List.length_append]; rfl)
    rw [show l.length + 1 = (l ++ [a]).length by rw [List.length_append]; rfl,
      List.take_length, ticks_append_singleton] at hlast
    obtain ⟨j1, j2, j3⟩ := (bossWarning_step env _ a i1).2.2.2 hlast
    rw [ticks_append_singleton]
    exact ⟨j1, j2.trans i2, j3.trans i3⟩

/-- C11. On the boss-warning screen each tick lowers the countdown by the
tick's delta.  While every tick so far has left the countdown positive, the
screen is still BossWarning, the boss-level flag is clear and no boss exists;
the first tick that brings the countdown to 0 or below switches to Gameplay,
sets the boss-level flag and creates the boss with health 500 = maxHealth,
phase 1 and y = -150. -/
theorem bossWarning_countdown (env : Env) (s : GameState) (fts : List ℚ) (ft : ℚ)
    (hs : s.currentScreen = .BossWarning) (hflag : s.isBossLevel = false)
    (hboss : s.boss = none)
    (hearly : ∀ k, 0 < k → k ≤ fts.length →
      0 < (GameState.ticks env s (fts.take k)).phaseTimer) :
    (∀ k, k ≤ fts.length →
      (GameState.ticks env s (fts.take k)).currentScreen = .BossWarning ∧
      (GameState.ticks env s (fts.take k)).isBossLevel = false ∧
      (GameState.ticks env s (fts.take k)).boss = none) ∧
    (GameState.update env (GameState.ticks env s fts) ft).deltaTime =
      min ft (5 / 100) * (GameState.ticks env s fts).slowTimeMultiplier ∧
    (GameState.update env (GameState.ticks env s fts) ft).phaseTimer =
      (GameState.ticks env s fts).phaseTimer -
        (GameState.update env (GameState.ticks env s fts) ft).deltaTime ∧
    ((GameState.update env (GameState.ticks env s fts) ft).phaseTimer ≤ 0 →
      (GameState.update env (GameState.ticks env s fts) ft).currentScreen = .Gameplay ∧
      (GameState.update env (GameState.ticks env s fts) ft).isBossLevel = true ∧
      ∃ b : FinalBoss,
        (GameState.update env (GameState.ticks env s fts) ft).boss = some b ∧
        b.health = 500 ∧ b.maxHealth = 500 ∧ b.bossPhase = 1 ∧ b.position.y = -150) ∧
    (0 < (GameState.update env (GameState.ticks env s fts) ft).phaseTimer →
      (GameState.update env (GameState.ticks env s fts) ft).currentScreen = .BossWarning ∧
      (GameState.update env (GameState.ticks env s fts) ft).isBossLevel = false ∧
      (GameState.update env (GameState.ticks env s fts) ft).boss = none) := by
  have hwait : ∀ k, k ≤ fts.length →
      (GameState.ticks env s (fts.take k)).currentScreen = .BossWarning ∧
      (GameState.ticks env s (fts.take k)).isBossLevel = false ∧
      (GameState.ticks env s (fts.take k)).boss = none := by
    intro k hk
    have h := bossWarning_waiting env s (fts.take k) hs (by
      intro j hj hjk
      have hjk' : j ≤ k := by
        rw [List.length_take] at hjk
        omega
      have := hearly j hj (le_trans hjk' hk)
      rwa [List.take_take, min_eq_left hjk'])
    exact ⟨h.1, h.2.1.trans hflag, h.2.2.trans hboss⟩
  have hnow := hwait fts.length (le_refl _)
  rw [List.take_length] at hnow
  obtain ⟨d1, d2, d3, d4⟩ := bossWarning_step env (GameState.ticks env s fts) ft hnow.1
  obtain ⟨b1, b2, b3, b4, _⟩ := finalBoss_new_facts env
  refine ⟨hwait, d1, by rw [d2, d1], ?_, ?_⟩
  · intro hz
    obtain ⟨e1, e2, e3⟩ := d3 hz
    exact ⟨e1, e2, _, e3, b1, b2, b3, b4⟩
  · intro hz
    obtain ⟨e1, e2, e3⟩ := d4 hz
    exact ⟨e1, e2.trans hnow.2.1, e3.trans hnow.2.2⟩

theorem warningScene_facts (t : ℚ) :
    (warningScene t).currentScreen = .BossWarning ∧ (warningScene t).isBossLevel = false ∧
    (warningScene t).boss = none ∧ (warningScene t).phaseTimer = t ∧
    (warningScene t).slowTimeMultiplier = 1 :=
  ⟨rfl, rfl, rfl, rfl, rfl⟩

/-- C11, with 0.04 s of countdown left and a frame of 0.05 s: the boss is
created on that tick. -/
theorem bossWarning_countdown_witness :
    (GameState.update Env.sample (warningScene (4 / 100)) (5 / 100)).currentScreen = .Gameplay ∧
    (GameState.update Env.sample (warningScene (4 / 100)) (5 / 100)).isBossLevel = true :=
  have h := bossWarning_countdown Env.sample (warningScene (4 / 100)) [] (5 / 100)
    (warningScene_facts _).1 (warningScene_facts _).2.1 (warningScene_facts _).2.2.1
    (fun k hk hk0 => absurd hk0 (by simp; omega))
  have hz : (GameState.update Env.sample (warningScene (4 / 100)) (5 / 100)).phaseTimer ≤ 0 := by
    have h3 := h.2.2.1
    rw [h.2.1] at h3
    simp only [GameState.ticks, List.foldl_nil] at h3
    rw [(warningScene_facts _).2.2.2.1, (warningScene_facts _).2.2.2.2] at h3
    rw [h3]
    norm_num
  ⟨(h.2.2.2.1 hz).1, (h.2.2.2.1 hz).2.1⟩

/-! ### Damage to the player -/

/-- C12. For a player that is not invincible and has an active shield with
shield > 0, `takeDamage d` (d ≥ 0) leaves health and lives unchanged, sets the
shield to max (shield - d) 0 and clears the shield flag exactly when
shield - d ≤ 0. -/
theorem shield_absorbs_damage (p : Spaceship) (d : ℚ)
    (hinv : p.isInvincible = false) (hflag : p.hasShield = true) (hpos : 0 < p.shield)
    (_hd : 0 ≤ d) :
    (p.takeDamage d).health = p.health ∧
    (p.takeDamage d).lives = p.lives ∧
    (p.takeDamage d).shield = max (p.shield - d) 0 ∧
    ((p.takeDamage d).hasShield = false ↔ p.shield - d ≤ 0) := by
  unfold Spaceship.takeDamage
  simp only [hinv, Bool.false_eq_true, if_false, hflag, true_and, gt_iff_lt, hpos, if_true]
  by_cases hz : p.shield - d ≤ 0
  · rw [if_pos hz]
    exact ⟨rfl, rfl, (max_eq_right hz).symm, fun _ => hz, fun _ => rfl⟩
  · rw [if_neg hz]
    refine ⟨rfl, rfl, (max_eq_left (le_of_lt (not_le.mp hz))).symm, ?_, fun h => absurd h hz⟩
    intro h
    exact Bool.noConfusion h

/-- C12, for a new player given a full shield (50) and hit for 80: the
shield is emptied and dropped, the health stays 100. -/
theorem shield_absorbs_damage_witness :
    (((Spaceship.new Env.sample).applyPowerUp .Shield).takeDamage 80).health =
      ((Spaceship.new Env.sample).applyPowerUp .Shield).health ∧
    (((Spaceship.new Env.sample).applyPowerUp .Shield).takeDamage 80).shield =
      max (((Spaceship.new Env.sample).applyPowerUp .Shield).shield - 80) 0 :=
  ⟨(shield_absorbs_damage ((Spaceship.new Env.sample).applyPowerUp .Shield) 80 rfl rfl
      (by show (0 : ℚ) < PLAYER_MAX_SHIELD; unfold PLAYER_MAX_SHIELD; norm_num) (by norm_num)).1,
   (shield_absorbs_damage ((Spaceship.new Env.sample).applyPowerUp .Shield) 80 rfl rfl
      (by show (0 : ℚ) < PLAYER_MAX_SHIELD; unfold PLAYER_MAX_SHIELD; norm_num)
      (by norm_num)).2.2.1⟩

/-- C13. For a player that is not invincible and has no active shield,
`takeDamage d` subtracts d from the health; when the result is at most 0 one
life is consumed, and then either lives remain, the health is restored to
maxHealth and a 3.0 s invincibility window starts, or no life remains, the
health stays at the non-positive result and no invincibility is granted.  For
an invincible player `takeDamage` changes nothing. -/
theorem takeDamage_without_shield (p : Spaceship) (d : ℚ) :
    (p.isInvincible = false → ¬ (p.hasShield = true ∧ 0 < p.shield) →
      (0 < p.health - d →
        (p.takeDamage d).health = p.health - d ∧ (p.takeDamage d).lives = p.lives ∧
        (p.takeDamage d).isInvincible = false) ∧
      (p.health - d ≤ 0 →
        (p.takeDamage d).lives = p.lives - 1 ∧
        (0 < p.lives - 1 →
          (p.takeDamage d).health = p.maxHealth ∧ (p.takeDamage d).isInvincible = true ∧
          (p.takeDamage d).invincibilityTimer = 3) ∧
        (p.lives - 1 ≤ 0 →
          (p.takeDamage d).health = p.health - d ∧ (p.takeDamage d).health ≤ 0 ∧
          (p.takeDamage d).isInvincible = false ∧
          (p.takeDamage d).invincibilityTimer = p.invincibilityTimer))) ∧
    (p.isInvincible = true → p.takeDamage d = p) := by
  refine ⟨?_, ?_⟩
  · intro hinv hsh
    unfold Spaceship.takeDamage
    simp only [hinv, Bool.false_eq_true, if_false, gt_iff_lt, if_neg hsh]
    refine ⟨?_, ?_⟩
    · intro hpos
      rw [if_neg (not_le.mpr hpos)]
      exact ⟨rfl, rfl, rfl⟩
    · intro hz
      rw [if_pos hz]
      refine ⟨?_, ?_, ?_⟩
      · split_ifs <;> rfl
      · intro hl
        rw [if_pos hl]
        exact ⟨rfl, rfl, rfl⟩
      · intro hl
        rw [if_neg (not_lt.mpr hl)]
        exact ⟨rfl, hz, rfl, rfl⟩
  · intro hinv
    unfold Spaceship.takeDamage
    rw [if_pos hinv]

/-- C13, for a new player (health 100, 3 lives) hit for 120: one life is
consumed, the health is restored and the player is invincible for 3 s. -/
theorem takeDamage_without_shield_witness :
    ((Spaceship.new Env.sample).takeDamage 120).lives = (Spaceship.new Env.sample).lives - 1 ∧
    ((Spaceship.new Env.sample).takeDamage 120).isInvincible = true ∧
    ((Spaceship.new Env.sample).takeDamage 120).invincibilityTimer = 3 :=
  have hz : (Spaceship.new Env.sample).health - 120 ≤ 0 := by
    show PLAYER_MAX_HEALTH - 120 ≤ 0
    unfold PLAYER_MAX_HEALTH
    norm_num
  have h := ((takeDamage_without_shield (Spaceship.new Env.sample) 120).1 rfl
    (fun h => absurd h.1 (by decide))).2 hz
  ⟨h.1, (h.2.1 (by decide)).2.1, (h.2.1 (by decide)).2.2⟩

/-! ### Player projectiles against an enemy -/

theorem forEach_append {α σ : Type} (body : σ → α → α × σ) (l1 l2 : List α) (st : σ) :
    forEach body (l1 ++ l2) st =
      ((forEach body l1 st).1 ++ (forEach body l2 (forEach body l1 st).2).1,
        (forEach body l2 (forEach body l1 st).2).2) := by
  induction l1 generalizing st with
  | nil => rfl
  | cons a as ih =>
    show ((body st a).1 :: (forEach body (as ++ l2) (body st a).2).1,
      (forEach body (as ++ l2) (body st a).2).2) = _
    rw [ih]
    rfl

theorem checkCollision_inactive (env : Env) (o other : GameObject) (h : o.active = false) :
    o.checkCollision env other = false := by
  unfold GameObject.checkCollision
  simp [h]

/-- A bullet that does not touch an active enemy leaves it and the session
alone. -/
theorem bulletHitsEnemy_miss (env : Env) (st : Bullet × GameState) (e : Enemy)
    (h : ¬ (e.active = true ∧ st.1.checkCollision env e.toGameObject = true)) :
    GameState.bulletHitsEnemy env st e = (e, st) := by
  unfold GameState.bulletHitsEnemy
  by_cases ha : e.active = true
  · have hc : ¬ st.1.checkCollision env e.toGameObject = true := fun hc => h ⟨ha, hc⟩
    simp only [ha, Bool.not_true, Bool.false_eq_true, if_false, hc]
  · simp only [ha, Bool.not_false, if_true, Bool.not_eq_true] at ha ⊢

theorem forEach_bullet_miss (env : Env) (l : List Enemy) (st : Bullet × GameState)
    (h : ∀ x ∈ l, ¬ (x.active = true ∧ st.1.checkCollision env x.toGameObject = true)) :
    forEach (GameState.bulletHitsEnemy env) l st = (l, st) := by
  induction l with
  | nil => rfl
  | cons a as ih =>
    simp only [forEach]
    rw [bulletHitsEnemy_miss env st a (h a (List.mem_cons_self a as)),
      ih (fun x hx => h x (List.mem_cons_of_mem a hx))]

/-- A bullet that touches an active enemy damages it and is spent; the player
is awarded the enemy's score value through `addScore` exactly when the enemy
dies of the hit. -/
theorem bulletHitsEnemy_hit (env : Env) (st : Bullet × GameState) (e : Enemy)
    (he : e.active = true) (hit : st.1.checkCollision env e.toGameObject = true) :
    (GameState.bulletHitsEnemy env st e).1 = e.takeDamage (st.1.damage : ℚ) ∧
    (GameState.bulletHitsEnemy env st e).2.1 = { st.1 with active := false } ∧
    (0 < e.health - (st.1.damage : ℚ) → (GameState.bulletHitsEnemy env st e).2.2 = st.2) ∧
    (e.health - (st.1.damage : ℚ) ≤ 0 →
      (GameState.bulletHitsEnemy env st e).2.2.player = st.2.player.addScore e.scoreValue) := by
  have hna : ¬ ((!e.active) = true) := by simp [he]
  unfold GameState.bulletHitsEnemy
  rw [if_neg hna, if_pos hit]
  by_cases hz : e.health - (st.1.damage : ℚ) ≤ 0
  · have hdead : (!(e.takeDamage (st.1.damage : ℚ)).active) = true := by
      unfold Enemy.takeDamage
      simp [hz]
    simp only
    rw [if_pos hdead]
    refine ⟨rfl, rfl, fun hpos => absurd hz (not_le.mpr hpos), fun _ => ?_⟩
    simp only
    split_ifs <;> rfl
  · have halive : ¬ ((!(e.takeDamage (st.1.damage : ℚ)).active) = true) := by
      unfold Enemy.takeDamage
      simp [hz, he]
    simp only
    rw [if_neg halive]
    exact ⟨rfl, rfl, fun _ => rfl, fun h => absurd h hz⟩

theorem bulletHitsBoss_off_level (env : Env) (s : GameState) (b : Bullet)
    (hboss : s.isBossLevel = false) : GameState.bulletHitsBoss env s b = (b, s) := by
  unfold GameState.bulletHitsBoss
  cases s.boss with
  | none => rfl
  | some boss => simp [hboss]

/-- The pass of one player bullet over the enemy container, when the first
active enemy it touches is `e`: the bullet is spent, `e` takes its damage, no
other enemy changes, and the player is awarded through `addScore` exactly when
`e` dies. -/
theorem playerBulletStep_hit (env : Env) (s : GameState) (pre post : List Enemy) (e : Enemy)
    (b : Bullet) (hboss : s.isBossLevel = false) (hen : s.enemies = pre ++ e :: post)
    (hb : b.active = true) (hfp : b.fromPlayer = true) (he : e.active = true)
    (hfirst : ∀ x ∈ pre, ¬ (x.active = true ∧ b.checkCollision env x.toGameObject = true))
    (hit : b.checkCollision env e.toGameObject = true) :
    (GameState.playerBulletStep env s b).1.active = false ∧
    (GameState.playerBulletStep env s b).2.enemies =
      pre ++ e.takeDamage (b.damage : ℚ) :: post ∧
    (0 < e.health - (b.damage : ℚ) → (GameState.playerBulletStep env s b).2.player = s.player) ∧
    (e.health - (b.damage : ℚ) ≤ 0 →
      (GameState.playerBulletStep env s b).2.player = s.player.addScore e.scoreValue) ∧
    (GameState.playerBulletStep env s b).2.isBossLevel = false := by
  have hguard : ¬ ((!b.active || !b.fromPlayer) = true) := by simp [hb, hfp]
  obtain ⟨k1, k2, k3, k4⟩ := bulletHitsEnemy_hit env (b, s) e he hit
  have hspent : ∀ x ∈ post, ¬ (x.active = true ∧
      (GameState.bulletHitsEnemy env (b, s) e).2.1.checkCollision env x.toGameObject = true) := by
    intro x _ hx
    rw [k2, checkCollision_inactive env _ _ rfl] at hx
    exact Bool.noConfusion hx.2
  have hloop : forEach (GameState.bulletHitsEnemy env) (pre ++ e :: post) (b, s) =
      (pre ++ (GameState.bulletHitsEnemy env (b, s) e).1 :: post,
        (GameState.bulletHitsEnemy env (b, s) e).2) := by
    rw [forEach_append, forEach_bullet_miss env pre (b, s) hfirst]
    simp only [forEach]
    rw [forEach_bullet_miss env post _ hspent]
  have hflag := congrArg (fun t => t.2.2.2.2.1) (playerBulletStep_progress env s b)
  unfold GameState.playerBulletStep at hflag ⊢
  rw [if_neg hguard] at hflag ⊢
  simp only [bulletHitsBoss_off_level env s b hboss, hen, hloop] at hflag ⊢
  refine ⟨?_, ?_, ?_, ?_, ?_⟩
  · rw [k2]
  · rw [k1]
  · intro hpos
    rw [k3 hpos]
  · intro hz
    exact k4 hz
  · exact hflag.trans hboss

theorem checkCollision_takeDamage (env : Env) (o : GameObject) (e : Enemy) (dmg : ℚ)
    (h : (e.takeDamage dmg).active = e.active) :
    o.checkCollision env (e.takeDamage dmg).toGameObject = o.checkCollision env e.toGameObject := by
  unfold GameObject.checkCollision
  rw [h]
  rfl

theorem enemy_takeDamage_active (e : Enemy) (dmg : ℚ) (he : e.active = true) :
    ((e.takeDamage dmg).active = true ↔ 0 < e.health - dmg) ∧
    (e.takeDamage dmg).health = e.health - dmg ∧
    (e.takeDamage dmg).scoreValue = e.scoreValue := by
  unfold Enemy.takeDamage
  refine ⟨?_, rfl, rfl⟩
  by_cases hz : e.health - dmg ≤ 0
  · simp only [hz, if_true]
    exact ⟨fun h => Bool.noConfusion h, fun h => absurd hz (not_le.mpr h)⟩
  · simp only [hz, if_false]
    exact ⟨fun _ => not_le.mp hz, fun _ => he⟩

/-- C14. An active enemy with health h > 0 is hit by two player projectiles
of damages d1 and d2 with d1 < h ≤ d1 + d2 (each projectile touching it before
any other active enemy).  After the first hit the enemy is still active, the
projectile is spent and the score is unchanged; after the second hit the enemy
is inactive, the second projectile is spent too, and the score has risen by
scoreValue * min (combo + 1) 10, the combo multiplier of that kill. -/
theorem two_hits_kill (env : Env) (s : GameState) (pre post : List Enemy) (e : Enemy)
    (b1 b2 : Bullet) (hboss : s.isBossLevel = false) (hen : s.enemies = pre ++ e :: post)
    (hb1 : b1.active = true ∧ b1.fromPlayer = true)
    (hb2 : b2.active = true ∧ b2.fromPlayer = true)
    (he : e.active = true) (_hh : 0 < e.health)
    (hd1 : (b1.damage : ℚ) < e.health) (hd2 : e.health ≤ (b1.damage : ℚ) + (b2.damage : ℚ))
    (hfirst1 : ∀ x ∈ pre, ¬ (x.active = true ∧ b1.checkCollision env x.toGameObject = true))
    (hfirst2 : ∀ x ∈ pre, ¬ (x.active = true ∧ b2.checkCollision env x.toGameObject = true))
    (hit1 : b1.checkCollision env e.toGameObject = true)
    (hit2 : b2.checkCollision env e.toGameObject = true) :
    ((e.takeDamage (b1.damage : ℚ)).active = true ∧
      (GameState.playerBulletStep env s b1).2.enemies =
        pre ++ e.takeDamage (b1.damage : ℚ) :: post ∧
      (GameState.playerBulletStep env s b1).1.active = false ∧
      (GameState.playerBulletStep env s b1).2.player.score = s.player.score) ∧
    (((e.takeDamage (b1.damage : ℚ)).takeDamage (b2.damage : ℚ)).active = false ∧
      (GameState.playerBulletStep env (GameState.playerBulletStep env s b1).2 b2).2.enemies =
        pre ++ (e.takeDamage (b1.damage : ℚ)).takeDamage (b2.damage : ℚ) :: post ∧
      (GameState.playerBulletStep env (GameState.playerBulletStep env s b1).2 b2).1.active
        = false ∧
      (GameState.playerBulletStep env (GameState.playerBulletStep env s b1).2 b2).2.player.score =
        s.player.score + e.scoreValue * min (s.player.combo + 1) 10) := by
  obtain ⟨a1, a2, a3, _, a5⟩ :=
    playerBulletStep_hit env s pre post e b1 hboss hen hb1.1 hb1.2 he hfirst1 hit1
  obtain ⟨t1, t2, t3⟩ := enemy_takeDamage_active e (b1.damage : ℚ) he
  have halive : (e.takeDamage (b1.damage : ℚ)).active = true := t1.mpr (by linarith)
  have hit2' : b2.checkCollision env (e.takeDamage (b1.damage : ℚ)).toGameObject = true := by
    rw [checkCollision_takeDamage env _ e _ (halive.trans he.symm)]
    exact hit2
  obtain ⟨c1, c2, _, c4, _⟩ :=
    playerBulletStep_hit env (GameState.playerBulletStep env s b1).2 pre post
      (e.takeDamage (b1.damage : ℚ)) b2 a5 a2 hb2.1 hb2.2 halive hfirst2 hit2'
  obtain ⟨u1, _, _⟩ := enemy_takeDamage_active (e.takeDamage (b1.damage : ℚ)) (b2.damage : ℚ) halive
  have hkill : (e.takeDamage (b1.damage : ℚ)).health - (b2.damage : ℚ) ≤ 0 := by
    rw [t2]
    linarith
  have hdead : ((e.takeDamage (b1.damage : ℚ)).takeDamage (b2.damage : ℚ)).active = false := by
    cases hx : ((e.takeDamage (b1.damage : ℚ)).takeDamage (b2.damage : ℚ)).active with
    | false => rfl
    | true => exact absurd (u1.mp hx) (not_lt.mpr hkill)
  have hsame : (GameState.playerBulletStep env s b1).2.player = s.player := a3 (by linarith)
  refine ⟨⟨halive, a2, a1, by rw [hsame]⟩, hdead, c2, c1, ?_⟩
  rw [c4 hkill, hsame, t3]
  rfl

theorem sampleShot_hits : sampleShot.active = true ∧ sampleShot.fromPlayer = true ∧
    sampleShot.damage = 15 ∧
    sampleShot.checkCollision Env.sample sampleTarget.toGameObject = true := by
  refine ⟨rfl, rfl, rfl, ?_⟩
  simp [sampleShot, sampleTarget, Bullet.new, Enemy.create, Enemy.newAlpha, Enemy.base,
    GameObject.setupSprite, GameObject.new, GameObject.checkCollision, Vector2.distanceTo,
    Vector2.sub, Vector2.length, Env.sample]
  norm_num

theorem sampleTarget_facts : sampleTarget.active = true ∧ sampleTarget.health = 30 ∧
    sampleTarget.scoreValue = 100 := by
  refine ⟨rfl, ?_, rfl⟩
  simp [sampleTarget, Enemy.create, Enemy.newAlpha, Enemy.base, GameObject.setupSprite,
    GameObject.new, Env.sample]

/-- C14, Scenario A: an enemy with health 30 and score value 100 hit twice
for 15 by a player at score 0 and combo 0; the second hit scores 100 * 1. -/
theorem two_hits_kill_witness :
    (GameState.playerBulletStep Env.sample
        (GameState.playerBulletStep Env.sample targetScene sampleShot).2 sampleShot).2.player.score =
      targetScene.player.score + sampleTarget.scoreValue * min (targetScene.player.combo + 1) 10 :=
  (two_hits_kill Env.sample targetScene [] [] sampleTarget sampleShot sampleShot rfl rfl
    ⟨sampleShot_hits.1, sampleShot_hits.2.1⟩ ⟨sampleShot_hits.1, sampleShot_hits.2.1⟩
    sampleTarget_facts.1 (by rw [sampleTarget_facts.2.1]; norm_num)
    (by rw [sampleTarget_facts.2.1, sampleShot_hits.2.2.1]; norm_num)
    (by rw [sampleTarget_facts.2.1, sampleShot_hits.2.2.1]; norm_num)
    (fun x hx => absurd hx (List.not_mem_nil x)) (fun x hx => absurd hx (List.not_mem_nil x))
    sampleShot_hits.2.2.2 sampleShot_hits.2.2.2).2.2.2.2

/-! ### High scores -/

theorem sample_sortsScores : Env.sample.SortsScores := by
  intro l
  haveI : IsTotal (String × Int) (fun a b => b.2 ≤ a.2) := ⟨fun a b => le_total b.2 a.2⟩
  haveI : IsTrans (String × Int) (fun a b => b.2 ≤ a.2) := ⟨fun a b c h1 h2 => le_trans h2 h1⟩
  exact ⟨List.perm_insertionSort _ l, List.sorted_insertionSort _ l⟩

theorem addHighScore_eq_take (env : Env) (s : GameState) (name : String) (score : Int) :
    (s.addHighScore env name score).highScores =
      (env.sortByScore (s.highScores ++ [(name, score)])).take 10 := by
  unfold GameState.addHighScore MAX_HIGH_SCORES
  simp only
  split_ifs with h
  · rfl
  · rw [List.take_of_length_le (not_lt.mp h)]

/-- C15. After `addHighScore` the list is ordered by non-increasing score,
has length min (n + 1) 10, and consists of the highest-scoring entries of the
old list plus the new entry: together with the dropped entries it is a
rearrangement of them, and no dropped entry outscores a kept one. -/
theorem addHighScore_keeps_top_ten (env : Env) (hsort : env.SortsScores) (s : GameState)
    (name : String) (score : Int) :
    (s.addHighScore env name score).highScores.Pairwise (fun a b => b.2 ≤ a.2) ∧
    (s.addHighScore env name score).highScores.length = min (s.highScores.length + 1) 10 ∧
    ∃ dropped : List (String × Int),
      ((s.addHighScore env name score).highScores ++ dropped).Perm
        (s.highScores ++ [(name, score)]) ∧
      ∀ d ∈ dropped, ∀ k ∈ (s.addHighScore env name score).highScores, d.2 ≤ k.2 := by
  obtain ⟨hperm, hsorted⟩ := hsort (s.highScores ++ [(name, score)])
  have hsplit := List.take_append_drop 10 (env.sortByScore (s.highScores ++ [(name, score)]))
  rw [addHighScore_eq_take]
  refine ⟨hsorted.sublist (List.take_sublist _ _), ?_,
    (env.sortByScore (s.highScores ++ [(name, score)])).drop 10, ?_, ?_⟩
  · rw [List.length_take, hperm.length_eq, List.length_append, List.length_singleton]
    exact min_comm _ _
  · rw [hsplit]
    exact hperm
  · rw [← hsplit, List.pairwise_append] at hsorted
    intro d hd k hk
    exact hsorted.2.2 k hk d hd

/-- C15, for a list holding ("A", 10) that receives ("B", 20). -/
theorem addHighScore_keeps_top_ten_witness :
    ((GameState.new Env.sample [("A", 10)]).addHighScore Env.sample "B" 20).highScores.length =
      min ((GameState.new Env.sample [("A", 10)]).highScores.length + 1) 10 :=
  (addHighScore_keeps_top_ten Env.sample sample_sortsScores
    (GameState.new Env.sample [("A", 10)]) "B" 20).2.1

/-! ### Normalisation -/

theorem slowRel_refl (c : ℚ × ℚ × ℚ) : SlowRel c c := ⟨rfl, Or.inl rfl⟩

theorem slowRel_trans (c c' c'' : ℚ × ℚ × ℚ) (h1 : SlowRel c c') (h2 : SlowRel c' c'') :
    SlowRel c c'' := by
  obtain ⟨d1, o1⟩ := h1
  obtain ⟨d2, o2⟩ := h2
  refine ⟨d2.trans d1, ?_⟩
  rcases o2 with a | a
  · rcases o1 with b | b
    · exact Or.inl (a.trans b)
    · exact Or.inr (a.trans b)
  · exact Or.inr a

theorem slowRel_of_eq_left (c c' c'' : ℚ × ℚ × ℚ) (h1 : c = c') (h2 : SlowRel c' c'') :
    SlowRel c c'' := by
  rw [h1]
  exact h2

/-- A loop whose body acts on the clock fields by `SlowRel` does so as a
whole. -/
theorem forEach_slowRel {α : Type} (body : GameState → α → α × GameState)
    (h : ∀ st a, SlowRel st.clockView (body st a).2.clockView) (l : List α) (st : GameState) :
    SlowRel st.clockView (forEach body l st).2.clockView := by
  induction l generalizing st with
  | nil => exact slowRel_refl _
  | cons a as ih => exact slowRel_trans _ _ _ (h st a) (ih _)

theorem bulletHitsEnemy_clockView (env : Env) (st : Bullet × GameState) (e : Enemy) :
    (GameState.bulletHitsEnemy env st e).2.2.clockView = st.2.clockView := by
  unfold GameState.bulletHitsEnemy
  simp only
  split_ifs <;> rfl

theorem bulletHitsBoss_clockView (env : Env) (s : GameState) (b : Bullet) :
    (GameState.bulletHitsBoss env s b).2.clockView = s.clockView := by
  unfold GameState.bulletHitsBoss
  cases s.boss with
  | none => rfl
  | some boss =>
    simp only
    split_ifs <;> rfl

theorem playerBulletStep_clockView (env : Env) (s : GameState) (b : Bullet) :
    (GameState.playerBulletStep env s b).2.clockView = s.clockView := by
  unfold GameState.playerBulletStep
  simp only
  split_ifs
  · rfl
  · show (forEach (GameState.bulletHitsEnemy env) _ _).2.2.clockView = _
    rw [forEach_frame (fun st : Bullet × GameState => st.2.clockView) _
      (bulletHitsEnemy_clockView env)]
    exact bulletHitsBoss_clockView env s b

theorem enemyBulletStep_clockView (env : Env) (s : GameState) (b : Bullet) :
    (GameState.enemyBulletStep env s b).2.clockView = s.clockView := by
  unfold GameState.enemyBulletStep
  split_ifs <;> rfl

theorem enemyBodyStep_clockView (env : Env) (s : GameState) (e : Enemy) :
    (GameState.enemyBodyStep env s e).2.clockView = s.clockView := by
  unfold GameState.enemyBodyStep
  split_ifs <;> rfl

theorem nukeEnemy_clockView (s : GameState) (e : Enemy) :
    (GameState.nukeEnemy s e).2.clockView = s.clockView := by
  unfold GameState.nukeEnemy
  split_ifs <;> rfl

theorem bossBodyStep_clockView (env : Env) (s : GameState) :
    (GameState.bossBodyStep env s).clockView = s.clockView := by
  unfold GameState.bossBodyStep
  cases s.boss with
  | none => rfl
  | some boss =>
    simp only
    split_ifs <;> rfl

/-- Only a collected slow-time pick-up touches the slow-time fields, and it
sets them to 0.4 and 5. -/
theorem powerUpStep_slowRel (env : Env) (s : GameState) (p : PowerUp) :
    SlowRel s.clockView (GameState.powerUpStep env s p).2.clockView := by
  unfold GameState.powerUpStep
  simp only
  split_ifs
  · exact slowRel_refl _
  · show SlowRel s.clockView (forEach GameState.nukeEnemy s.enemies s).2.clockView
    rw [forEach_frame GameState.clockView _ nukeEnemy_clockView]
    exact slowRel_refl _
  · exact ⟨rfl, Or.inr rfl⟩
  · exact slowRel_refl _
  · exact slowRel_refl _

theorem checkCollisions_slowRel (env : Env) (s : GameState) :
    SlowRel s.clockView (GameState.checkCollisions env s).clockView := by
  unfold GameState.checkCollisions
  simp only
  rw [bossBodyStep_clockView]
  show SlowRel s.clockView (forEach (GameState.powerUpStep env) _ _).2.clockView
  refine slowRel_of_eq_left _ _ _ ?_ (forEach_slowRel _ (powerUpStep_slowRel env) _ _)
  show _ = (forEach (GameState.enemyBodyStep env) _ _).2.clockView
  rw [forEach_frame GameState.clockView _ (enemyBodyStep_clockView env)]
  show _ = (forEach (GameState.enemyBulletStep env) _ _).2.clockView
  rw [forEach_frame GameState.clockView _ (enemyBulletStep_clockView env)]
  show _ = (forEach (GameState.playerBulletStep env) _ _).2.clockView
  rw [forEach_frame GameState.clockView _ (playerBulletStep_clockView env)]

theorem enemyUpdateStep_clockView (env : Env) (s : GameState) (e : Enemy) :
    (GameState.enemyUpdateStep env s e).2.clockView = s.clockView := by
  unfold GameState.enemyUpdateStep
  simp only
  split_ifs <;> rfl

theorem nextPhase_clockView (env : Env) (s : GameState) :
    (GameState.nextPhase env s).clockView = s.clockView := by
  by_cases h : 2 < s.currentPhase + 1
  · by_cases hl : 2 < s.currentLevel + 1
    · rw [nextPhase_boss_warning env s h hl]
      rfl
    · rw [nextPhase_next_level env s h (not_lt.mp hl)]
      rfl
  · rw [nextPhase_same_level env s (not_lt.mp h)]
    rfl

theorem updateEnemies_clockView (env : Env) (s1 : GameState) :
    (GameState.updateEnemies env s1).clockView = s1.clockView := by
  have hfr : (forEach (GameState.enemyUpdateStep env) s1.enemies s1).2.clockView = s1.clockView :=
    forEach_frame GameState.clockView _ (enemyUpdateStep_clockView env) _ _
  unfold GameState.updateEnemies
  simp only
  split_ifs
  · rw [nextPhase_clockView]
    exact hfr
  · exact hfr

theorem updateBoss_clockView (env : Env) (s1 : GameState) (boss : FinalBoss) :
    (GameState.updateBoss env s1 boss).clockView = s1.clockView := by
  unfold GameState.updateBoss
  simp only
  split_ifs <;> rfl

theorem updateBossOrEnemies_clockView (env : Env) (s1 : GameState) :
    (GameState.updateBossOrEnemies env s1).clockView = s1.clockView := by
  unfold GameState.updateBossOrEnemies
  split
  · exact updateBoss_clockView env s1 _
  · exact updateEnemies_clockView env s1

theorem updateActors_clockView (env : Env) (s : GameState) :
    (GameState.updateActors env s).clockView = s.clockView :=
  updateBossOrEnemies_clockView env { s with player := s.player.update s.deltaTime }

theorem finishTick_clockView (env : Env) (s : GameState) :
    (GameState.finishTick env s).clockView = s.clockView := by
  unfold GameState.finishTick
  simp only
  split_ifs <;> rfl

theorem updateGameplay_slowRel (env : Env) (s : GameState) :
    SlowRel s.clockView (GameState.updateGameplay env s).clockView := by
  unfold GameState.updateGameplay
  rw [finishTick_clockView]
  show SlowRel s.clockView
    (GameState.checkCollisions env (GameState.updateActors env s)).clockView
  exact slowRel_of_eq_left _ _ _ (updateActors_clockView env s).symm
    (checkCollisions_slowRel env _)

/-- The screen-specific part of a tick leaves the delta time alone and
changes the slow-time fields only by starting the slow-time effect. -/
theorem dispatch_slowRel (env : Env) (s : GameState) :
    SlowRel s.clockView (GameState.dispatch env s).clockView := by
  unfold GameState.dispatch
  split
  · unfold GameState.updateIntro
    simp only
    split_ifs <;> exact slowRel_refl _
  · exact updateGameplay_slowRel env s
  · unfold GameState.updateBossWarning
    simp only
    split_ifs <;> exact slowRel_refl _
  · exact slowRel_refl _

/-- The clock fields after the head of a tick. -/
theorem advanceClock_clockView (env : Env) (s : GameState) (ft : ℚ) :
    (GameState.advanceClock env s ft).clockView =
      (min ft (5 / 100) * s.slowTimeMultiplier,
       if 0 < s.slowTimeTimer then
        (if s.slowTimeTimer - min ft (5 / 100) * s.slowTimeMultiplier / s.slowTimeMultiplier ≤ 0
          then 1 else s.slowTimeMultiplier,
         s.slowTimeTimer - min ft (5 / 100) * s.slowTimeMultiplier / s.slowTimeMultiplier)
       else (s.slowTimeMultiplier, s.slowTimeTimer)) := by
  unfold GameState.advanceClock GameState.clockView
  simp only [gt_iff_lt]
  split_ifs <;> rfl

theorem unscaledTime_append_singleton (l : List ℚ) (a : ℚ) :
    unscaledTime (l ++ [a]) = unscaledTime l + min a float005 := by
  unfold unscaledTime
  simp

/-- The slow-time fields after the head of a tick. -/
theorem advanceClock_slow (env : Env) (s : GameState) (ft : ℚ) :
    (0 < s.slowTimeTimer → s.slowTimeMultiplier ≠ 0 →
      (GameState.advanceClock env s ft).slowTimeTimer = s.slowTimeTimer - min ft (5 / 100) ∧
      (GameState.advanceClock env s ft).slowTimeMultiplier =
        (if s.slowTimeTimer - min ft (5 / 100) ≤ 0 then 1 else s.slowTimeMultiplier)) ∧
    (s.slowTimeTimer ≤ 0 →
      (GameState.advanceClock env s ft).slowTimeTimer = s.slowTimeTimer ∧
      (GameState.advanceClock env s ft).slowTimeMultiplier = s.slowTimeMultiplier) := by
  have hc := advanceClock_clockView env s ft
  have hm : (GameState.advanceClock env s ft).slowTimeMultiplier = _ :=
    congrArg (fun t => t.2.1) hc
  have ht : (GameState.advanceClock env s ft).slowTimeTimer = _ :=
    congrArg (fun t => t.2.2) hc
  refine ⟨?_, ?_⟩
  · intro hpos hne
    rw [hm, ht]
    simp only [if_pos hpos, mul_div_assoc, div_self hne, mul_one]
    exact ⟨trivial, trivial⟩
  · intro hz
    rw [hm, ht]
    simp only [if_neg (not_lt.mpr hz)]
    exact ⟨trivial, trivial⟩

theorem update_paused (env : Env) (s : GameState) (ft : ℚ) (h : s.currentScreen = .Pause) :
    GameState.update env s ft = GameState.advanceClock env s ft := by
  have hscreen : (GameState.advanceClock env s ft).currentScreen = .Pause :=
    (congrArg (fun t => t.2.2.1) (advanceClock_progress env s ft).1).trans h
  unfold GameState.update GameState.dispatch
  rw [hscreen]

theorem powerUpStep_slow (env : Env) (s : GameState) (p : PowerUp)
    (hact : p.active = true) (htype : p.type = .Slow)
    (htouch : p.checkCollision env s.player.toGameObject = true) :
    (GameState.powerUpStep env s p).2.slowTimeMultiplier = float04 ∧
    (GameState.powerUpStep env s p).2.slowTimeTimer = 5 ∧
    (GameState.powerUpStep env s p).1.active = false := by
  simp [GameState.powerUpStep, hact, htouch, htype]

theorem float04_eq : float04 = 13421773 / 33554432 := by
  unfold float04
  apply fl32_eq_pos _ _ (-2) 13421773 <;> norm_num

theorem frame30_eq : frame30 = 8947849 / 268435456 := by
  unfold frame30
  apply fl32_eq_pos _ _ (-5) 8947849 <;> norm_num

theorem fl32_nonneg (q : ℚ) (h : 0 ≤ q) : 0 ≤ fl32 q := by
  rcases eq_or_lt_of_le h with h0 | hpos
  · rw [← h0, fl32_zero]
  · exact le_of_lt (fl32_pos q hpos)

theorem ticksRounded_append_singleton (env : Env) (s : GameState) (fts : List ℚ) (ft : ℚ) :
    GameState.ticksRounded env s (fts ++ [ft]) =
      GameState.updateRounded env (GameState.ticksRounded env s fts) ft := by
  unfold GameState.ticksRounded
  rw [List.foldl_append]
  rfl

/-- The clock fields after the head of a tick in binary32. -/
theorem advanceClockRounded_clockView (env : Env) (s : GameState) (ft : ℚ) :
    (GameState.advanceClockRounded env s ft).clockView =
      (fl32 (min ft float005 * s.slowTimeMultiplier),
       if 0 < s.slowTimeTimer then
        (if fl32 (s.slowTimeTimer -
            fl32 (fl32 (min ft float005 * s.slowTimeMultiplier) / s.slowTimeMultiplier)) ≤ 0
          then 1 else s.slowTimeMultiplier,
         fl32 (s.slowTimeTimer -
            fl32 (fl32 (min ft float005 * s.slowTimeMultiplier) / s.slowTimeMultiplier)))
       else (s.slowTimeMultiplier, s.slowTimeTimer)) := by
  unfold GameState.advanceClockRounded GameState.clockView
  simp only [gt_iff_lt]
  split_ifs <;> rfl

theorem advanceClockRounded_screen (env : Env) (s : GameState) (ft : ℚ) :
    (GameState.advanceClockRounded env s ft).currentScreen = s.currentScreen := by
  unfold GameState.advanceClockRounded
  simp only
  split_ifs <;> rfl

theorem updateRounded_paused (env : Env) (s : GameState) (ft : ℚ)
    (h : s.currentScreen = .Pause) :
    GameState.updateRounded env s ft = GameState.advanceClockRounded env s ft := by
  have hscreen : (GameState.advanceClockRounded env s ft).currentScreen = .Pause :=
    (advanceClockRounded_screen env s ft).trans h
  unfold GameState.updateRounded GameState.dispatch
  rw [hscreen]

/-- A paused session stays paused over a run of ticks. -/
theorem ticksRounded_paused (env : Env) (fts : List ℚ) (s : GameState)
    (h : s.currentScreen = .Pause) :
    (GameState.ticksRounded env s fts).currentScreen = .Pause := by
  induction fts using List.reverseRecOn with
  | nil => exact h
  | append_singleton l a ih =>
    rw [ticksRounded_append_singleton, updateRounded_paused env _ a ih,
      advanceClockRounded_screen]
    exact ih

/-- The delta time of a tick and the alternative for its slow-time fields. -/
theorem updateRounded_clock (env : Env) (s : GameState) (ft : ℚ) :
    (GameState.updateRounded env s ft).deltaTime =
      fl32 (min ft float005 * s.slowTimeMultiplier) ∧
    (s.noSlowPickUp env ft ∨
      ((GameState.updateRounded env s ft).slowTimeMultiplier = float04 ∧
        (GameState.updateRounded env s ft).slowTimeTimer = 5)) := by
  obtain ⟨hd, hs⟩ := dispatch_slowRel env (GameState.advanceClockRounded env s ft)
  have hc := advanceClockRounded_clockView env s ft
  refine ⟨?_, ?_⟩
  · exact hd.trans (congrArg (fun t => t.1) hc)
  · rcases hs with h | h
    · exact Or.inl ⟨congrArg (fun t => t.1) h, congrArg (fun t => t.2) h⟩
    · exact Or.inr ⟨congrArg (fun t => t.1) h, congrArg (fun t => t.2) h⟩

/-- The slow-time fields after the head of a tick in binary32: a positive countdown is lowered
    by the rounded quotient of the tick's delta time and the multiplier, and the multiplier
    returns to 1 exactly when the stored countdown is 0 or less. -/
theorem advanceClockRounded_slow (env : Env) (s : GameState) (ft : ℚ) :
    (0 < s.slowTimeTimer →
      (GameState.advanceClockRounded env s ft).slowTimeTimer =
        fl32 (s.slowTimeTimer -
          fl32 (fl32 (min ft float005 * s.slowTimeMultiplier) / s.slowTimeMultiplier)) ∧
      (GameState.advanceClockRounded env s ft).slowTimeMultiplier =
        (if (GameState.advanceClockRounded env s ft).slowTimeTimer ≤ 0 then 1
          else s.slowTimeMultiplier)) ∧
    (s.slowTimeTimer ≤ 0 →
      (GameState.advanceClockRounded env s ft).slowTimeTimer = s.slowTimeTimer ∧
      (GameState.advanceClockRounded env s ft).slowTimeMultiplier = s.slowTimeMultiplier) := by
  have hc := advanceClockRounded_clockView env s ft
  have hm : (GameState.advanceClockRounded env s ft).slowTimeMultiplier = _ :=
    congrArg (fun t => t.2.1) hc
  have ht : (GameState.advanceClockRounded env s ft).slowTimeTimer = _ :=
    congrArg (fun t => t.2.2) hc
  refine ⟨?_, ?_⟩
  · intro hpos
    rw [hm, ht]
    simp only [if_pos hpos]
    exact ⟨trivial, trivial⟩
  · intro hz
    rw [hm, ht]
    simp only [if_neg (not_lt.mpr hz)]
    exact ⟨trivial, trivial⟩

/-- The amount one tick takes off the slow-time countdown, the rounded quotient of the rounded
    product, is within 2^-26 of the clamped frame time. -/
theorem slowStep_error (c m : ℚ) (hc0 : 0 ≤ c) (hc : c ≤ float005) (hm : 0 < m) :
    0 ≤ fl32 (fl32 (c * m) / m) ∧ |fl32 (fl32 (c * m) / m) - c| ≤ 1 / 67108864 := by
  have ha : 0 ≤ c * m := mul_nonneg hc0 (le_of_lt hm)
  have hfa : 0 ≤ fl32 (c * m) := fl32_nonneg _ ha
  have hb : 0 ≤ fl32 (c * m) / m := div_nonneg hfa (le_of_lt hm)
  have e1 := fl32_error (c * m)
  rw [abs_of_nonneg ha, abs_le] at e1
  have hbm : fl32 (c * m) / m * m = fl32 (c * m) := div_mul_cancel₀ _ (ne_of_gt hm)
  have hlo : c - c / 2 ^ (24 : ℕ) ≤ fl32 (c * m) / m := by
    apply le_of_mul_le_mul_right _ hm
    rw [hbm]
    have : (c - c / 2 ^ (24 : ℕ)) * m = c * m - c * m / 2 ^ (24 : ℕ) := by ring
    rw [this]
    linarith [e1.1]
  have hhi : fl32 (c * m) / m ≤ c + c / 2 ^ (24 : ℕ) := by
    apply le_of_mul_le_mul_right _ hm
    rw [hbm]
    have : (c + c / 2 ^ (24 : ℕ)) * m = c * m + c * m / 2 ^ (24 : ℕ) := by ring
    rw [this]
    linarith [e1.2]
  have e2 := fl32_error (fl32 (c * m) / m)
  rw [abs_of_nonneg hb, abs_le] at e2
  have hc16 : c ≤ 1 / 16 := by
    rw [float005_eq] at hc
    linarith
  refine ⟨fl32_nonneg _ hb, ?_⟩
  rw [abs_le]
  norm_num at hlo hhi e2 ⊢
  constructor <;> linarith [e2.1, e2.2]

/-- The slow-time countdown over a run of ticks in which no further slow-time pick-up is
    collected: while the effect lasts the stored countdown is within 2^-20 per tick of 5 minus
    the clamped frame times, and once it is over their sum is within that bound of 5 or
    beyond. -/
theorem slowCountdown_run (env : Env) (s : GameState) (fts : List ℚ)
    (hm : s.slowTimeMultiplier = float04) (ht : s.slowTimeTimer = 5)
    (hnn : ∀ ft ∈ fts, 0 ≤ ft)
    (hno : ∀ pre ft post, fts = pre ++ ft :: post →
      (GameState.ticksRounded env s pre).noSlowPickUp env ft) :
    ((GameState.ticksRounded env s fts).slowTimeMultiplier = float04 ∧
      0 < (GameState.ticksRounded env s fts).slowTimeTimer ∧
      (GameState.ticksRounded env s fts).slowTimeTimer ≤ 8 ∧
      |(GameState.ticksRounded env s fts).slowTimeTimer - (5 - unscaledTime fts)| ≤
        (fts.length : ℚ) / 1048576) ∨
    ((GameState.ticksRounded env s fts).slowTimeMultiplier = 1 ∧
      (GameState.ticksRounded env s fts).slowTimeTimer ≤ 0 ∧
      5 ≤ unscaledTime fts + (fts.length : ℚ) / 1048576) := by
  induction fts using List.reverseRecOn with
  | nil =>
    left
    refine ⟨hm, ?_, ?_, ?_⟩
    · show 0 < s.slowTimeTimer
      rw [ht]; norm_num
    · show s.slowTimeTimer ≤ 8
      rw [ht]; norm_num
    · show |s.slowTimeTimer - (5 - unscaledTime [])| ≤ _
      rw [ht]
      simp [unscaledTime]
  | append_singleton l a ih =>
    have ha : 0 ≤ a := hnn a (by simp)
    have h5 : (0 : ℚ) ≤ float005 := by rw [float005_eq]; norm_num
    have hc0 : 0 ≤ min a float005 := le_min ha h5
    have hc1 : min a float005 ≤ float005 := min_le_right _ _
    have h4 : (0 : ℚ) < float04 := by rw [float04_eq]; norm_num
    have hih := ih (fun ft hft => hnn ft (by simp [hft]))
      (fun pre ft post hl => hno pre ft (post ++ [a]) (by rw [hl]; simp))
    obtain ⟨n1, n2⟩ := hno l a [] rfl
    obtain ⟨c1, c2⟩ := advanceClockRounded_slow env (GameState.ticksRounded env s l) a
    have hlen : (((l ++ [a]).length : ℕ) : ℚ) / 1048576 =
        (l.length : ℚ) / 1048576 + 1 / 1048576 := by
      rw [List.length_append, List.length_singleton]
      push_cast
      ring
    rw [ticksRounded_append_singleton, unscaledTime_append_singleton, n1, n2, hlen]
    rcases hih with ⟨w1, w2, w3, w4⟩ | ⟨w1, w2, w3⟩
    · obtain ⟨t1, t2⟩ := c1 w2
      rw [w1] at t1 t2
      obtain ⟨q0, qe⟩ := slowStep_error (min a float005) float04 hc0 hc1 h4
      rw [abs_le] at qe w4
      by_cases hexp : (GameState.ticksRounded env s l).slowTimeTimer -
          fl32 (fl32 (min a float005 * float04) / float04) ≤ 0
      · right
        have hz : (GameState.advanceClockRounded env (GameState.ticksRounded env s l)
            a).slowTimeTimer ≤ 0 := by
          rw [t1]
          exact (fl32_nonpos_iff _).mpr hexp
        rw [t2, if_pos hz]
        refine ⟨rfl, hz, ?_⟩
        linarith [qe.1, qe.2, w4.1, w4.2]
      · left
        have hx := not_le.mp hexp
        have hp : 0 < (GameState.advanceClockRounded env (GameState.ticksRounded env s l)
            a).slowTimeTimer := by
          rw [t1]
          exact fl32_pos _ hx
        rw [t2, if_neg (not_le.mpr hp)]
        have hle : (GameState.advanceClockRounded env (GameState.ticksRounded env s l)
            a).slowTimeTimer ≤ 8 := by
          rw [t1]
          have := fl32_le_zpow ((GameState.ticksRounded env s l).slowTimeTimer -
            fl32 (fl32 (min a float005 * float04) / float04)) 3 (by norm_num; linarith)
          norm_num at this
          exact this
        have e := fl32_error ((GameState.ticksRounded env s l).slowTimeTimer -
            fl32 (fl32 (min a float005 * float04) / float04))
        rw [← t1, abs_of_pos hx, abs_le] at e
        norm_num at e
        refine ⟨rfl, hp, hle, ?_⟩
        rw [abs_le]
        constructor <;> linarith [qe.1, qe.2, w4.1, w4.2, e.1, e.2]
    · right
      obtain ⟨t1, t2⟩ := c2 w2
      rw [t1, t2]
      refine ⟨w1, w2, ?_⟩
      linarith

/-- C17 (as the code behaves). Every tick's delta time is min(frame time, 0.05f) times the
    slow-time multiplier, rounded to binary32. A collected slow-time pick-up sets the
    multiplier to 0.4f and the countdown to 5; a tick changes the slow-time fields only by its
    countdown or by such a pick-up. A positive countdown is lowered by the rounded quotient of
    the tick's delta time and the multiplier, the difference being rounded again, and the
    multiplier returns to 1 on exactly the tick that leaves the stored countdown at 0 or less.
    Over n ticks in which no further pick-up is collected, after every prefix of the run the
    multiplier is still 0.4f, and the countdown within n * 2^-20 of 5 minus the clamped frame
    times, when these sum to less than 5 - n * 2^-20, and the multiplier is 1 when they sum to
    at least 5 + n * 2^-20. -/
theorem slow_time_countdown (env : Env) (s : GameState) (fts : List ℚ) :
    (∀ ft, (GameState.updateRounded env s ft).deltaTime =
      fl32 (min ft float005 * s.slowTimeMultiplier)) ∧
    (∀ p : PowerUp, p.active = true → p.type = .Slow →
      p.checkCollision env s.player.toGameObject = true →
      (GameState.powerUpStep env s p).2.slowTimeMultiplier = float04 ∧
      (GameState.powerUpStep env s p).2.slowTimeTimer = 5) ∧
    (∀ ft, s.noSlowPickUp env ft ∨
      ((GameState.updateRounded env s ft).slowTimeMultiplier = float04 ∧
        (GameState.updateRounded env s ft).slowTimeTimer = 5)) ∧
    (∀ ft, 0 < s.slowTimeTimer →
      (GameState.advanceClockRounded env s ft).slowTimeTimer =
        fl32 (s.slowTimeTimer -
          fl32 ((GameState.updateRounded env s ft).deltaTime / s.slowTimeMultiplier)) ∧
      (GameState.advanceClockRounded env s ft).slowTimeMultiplier =
        (if (GameState.advanceClockRounded env s ft).slowTimeTimer ≤ 0 then 1
          else s.slowTimeMultiplier)) ∧
    (∀ ft, s.slowTimeTimer ≤ 0 →
      (GameState.advanceClockRounded env s ft).slowTimeTimer = s.slowTimeTimer ∧
      (GameState.advanceClockRounded env s ft).slowTimeMultiplier = s.slowTimeMultiplier) ∧
    (s.slowTimeMultiplier = float04 → s.slowTimeTimer = 5 → (∀ ft ∈ fts, 0 ≤ ft) →
      (∀ pre ft post, fts = pre ++ ft :: post →
        (GameState.ticksRounded env s pre).noSlowPickUp env ft) →
      ∀ pre post, fts = pre ++ post →
        (unscaledTime pre + (pre.length : ℚ) / 1048576 < 5 →
          (GameState.ticksRounded env s pre).slowTimeMultiplier = float04 ∧
          |(GameState.ticksRounded env s pre).slowTimeTimer - (5 - unscaledTime pre)| ≤
            (pre.length : ℚ) / 1048576) ∧
        (5 + (pre.length : ℚ) / 1048576 ≤ unscaledTime pre →
          (GameState.ticksRounded env s pre).slowTimeMultiplier = 1)) := by
  refine ⟨fun ft => (updateRounded_clock env s ft).1, ?_,
    fun ft => (updateRounded_clock env s ft).2, ?_,
    fun ft => (advanceClockRounded_slow env s ft).2, ?_⟩
  · intro p h1 h2 h3
    exact ⟨(powerUpStep_slow env s p h1 h2 h3).1, (powerUpStep_slow env s p h1 h2 h3).2.1⟩
  · intro ft hpos
    rw [(updateRounded_clock env s ft).1]
    exact (advanceClockRounded_slow env s ft).1 hpos
  · intro hm ht hnn hno pre post hsplit
    have hrun := slowCountdown_run env s pre hm ht
      (fun ft hft => hnn ft (by rw [hsplit]; simp [hft]))
      (fun p ft q hl => hno p ft (q ++ post) (by rw [hsplit, hl]; simp))
    constructor
    · intro hlt
      rcases hrun with ⟨w1, _, _, w4⟩ | ⟨_, _, w3⟩
      · exact ⟨w1, w4⟩
      · exact absurd hlt (not_lt.mpr w3)
    · intro hge
      rcases hrun with ⟨_, w2, _, w4⟩ | ⟨w1, _, _⟩
      · rw [abs_le] at w4
        exfalso
        linarith [w4.2]
      · exact w1

/-- On a paused session no pick-up is collected in a tick. -/
theorem noSlowPickUp_paused (env : Env) (s : GameState) (ft : ℚ)
    (h : s.currentScreen = .Pause) : s.noSlowPickUp env ft := by
  unfold GameState.noSlowPickUp
  rw [updateRounded_paused env s ft h]
  exact ⟨rfl, rfl⟩

/-- C17, for one tick of 0.05 s of a paused session in which the effect has just started: the
    multiplier is still 0.4f. -/
theorem slow_time_countdown_witness :
    (GameState.ticksRounded Env.sample pausedSlowStart [5 / 100]).slowTimeMultiplier =
      float04 :=
  (((slow_time_countdown Env.sample pausedSlowStart [5 / 100]).2.2.2.2.2 rfl rfl
    (fun ft hft => by rw [List.mem_singleton.mp hft]; norm_num)
    (fun pre ft post hl => by
      cases pre with
      | nil => exact noSlowPickUp_paused Env.sample pausedSlowStart ft rfl
      | cons x xs => simp at hl)
    [5 / 100] [] rfl).1 (by
      have h5 : min (5 / 100 : ℚ) float005 = 5 / 100 := by
        rw [float005_eq]
        exact min_eq_left (by norm_num)
      simp only [unscaledTime, List.map_cons, List.map_nil, List.sum_cons, List.sum_nil, h5,
        List.length_singleton]
      norm_num)).1

/-- The amount a tick of one thirtieth of a second takes off the countdown under the
    multiplier 0.4f: the two roundings return the frame time itself. -/
theorem frame30_quotient :
    fl32 (fl32 (min frame30 float005 * float04) / float04) = frame30 := by
  have h1 : min frame30 float005 = frame30 := by
    rw [frame30_eq, float005_eq]
    exact min_eq_left (by norm_num)
  have h2 : fl32 (frame30 * float04) = 14316559 / 1073741824 := by
    rw [frame30_eq, float04_eq]
    apply fl32_eq_pos _ _ (-7) 14316559 <;> norm_num
  rw [h1, h2, float04_eq, frame30_eq]
  apply fl32_eq_pos _ _ (-5) 8947849 <;> norm_num

/-- One more tick of one thirtieth of a second on the paused session, at known values of the
    countdown. -/
theorem pausedSlow_step (k k1 : Nat) (t t1 : ℚ) (hk : k1 = k + 1)
    (h : (GameState.ticksRounded Env.sample pausedSlowStart
          (List.replicate k frame30)).slowTimeMultiplier = float04 ∧
      (GameState.ticksRounded Env.sample pausedSlowStart
          (List.replicate k frame30)).slowTimeTimer = t)
    (hpos : 0 < t) (hfl : fl32 (t - frame30) = t1) (hpos1 : 0 < t1) :
    (GameState.ticksRounded Env.sample pausedSlowStart
        (List.replicate k1 frame30)).slowTimeMultiplier = float04 ∧
    (GameState.ticksRounded Env.sample pausedSlowStart
        (List.replicate k1 frame30)).slowTimeTimer = t1 := by
  subst hk
  have hp := ticksRounded_paused Env.sample (List.replicate k frame30) pausedSlowStart rfl
  rw [List.replicate_succ', ticksRounded_append_singleton,
    updateRounded_paused Env.sample _ frame30 hp]
  obtain ⟨c1, c2⟩ := (advanceClockRounded_slow Env.sample
    (GameState.ticksRounded Env.sample pausedSlowStart (List.replicate k frame30)) frame30).1
    (by rw [h.2]; exact hpos)
  rw [h.1, h.2, frame30_quotient, hfl] at c1
  rw [c2, c1, if_neg (not_le.mpr hpos1)]
  exact ⟨h.1, rfl⟩

/-- C17 fails as stated. A paused session holds the multiplier 0.4f and the countdown 5, as a
    collected pick-up leaves them; no pick-up is collected while it is paused. After 150 ticks
    of one thirtieth of a second, whose clamped frame times sum to more than 5 seconds, the
    stored countdown is 459 * 2^-27 > 0 and the multiplier is still 0.4f, not 1. -/
theorem slow_time_counterexample :
    pausedSlowStart.slowTimeMultiplier = float04 ∧ pausedSlowStart.slowTimeTimer = 5 ∧
    (∀ pre ft post, List.replicate 150 frame30 = pre ++ ft :: post →
      (GameState.ticksRounded Env.sample pausedSlowStart pre).noSlowPickUp Env.sample ft) ∧
    5 ≤ unscaledTime (List.replicate 150 frame30) ∧
    (GameState.ticksRounded Env.sample pausedSlowStart
      (List.replicate 150 frame30)).slowTimeTimer = 459 / 134217728 ∧
    (GameState.ticksRounded Env.sample pausedSlowStart
      (List.replicate 150 frame30)).slowTimeMultiplier = float04 ∧
    float04 ≠ 1 := by
  have hd : frame30 = 8947849 / 268435456 := frame30_eq
  have h0 : (GameState.ticksRounded Env.sample pausedSlowStart
        (List.replicate 0 frame30)).slowTimeMultiplier = float04 ∧
      (GameState.ticksRounded Env.sample pausedSlowStart
        (List.replicate 0 frame30)).slowTimeTimer = 5 := ⟨rfl, rfl⟩
  have h1 := pausedSlow_step 0 1 _ (10415855 / 2097152) rfl h0 (by norm_num)
    (by rw [hd]; apply fl32_eq_pos _ _ (2) 10415855 <;> norm_num) (by norm_num)
  have h2 := pausedSlow_step 1 2 _ (5172975 / 1048576) rfl h1 (by norm_num)
    (by rw [hd]; apply fl32_eq_pos _ _ (2) 10345950 <;> norm_num) (by norm_num)
  have h3 := pausedSlow_step 2 3 _ (10276045 / 2097152) rfl h2 (by norm_num)
    (by rw [hd]; apply fl32_eq_pos _ _ (2) 10276045 <;> norm_num) (by norm_num)
  have h4 := pausedSlow_step 3 4 _ (2551535 / 524288) rfl h3 (by norm_num)
    (by rw [hd]; apply fl32_eq_pos _ _ (2) 10206140 <;> norm_num) (by norm_num)
  have h5 := pausedSlow_step 4 5 _ (10136235 / 2097152) rfl h4 (by norm_num)
    (by rw [hd]; apply fl32_eq_pos _ _ (2) 10136235 <;> norm_num) (by norm_num)
  have h6 := pausedSlow_step 5 6 _ (5033165 / 1048576) rfl h5 (by norm_num)
    (by rw [hd]; apply fl32_eq_pos _ _ (2) 10066330 <;> norm_num) (by norm_num)
  have h7 := pausedSlow_step 6 7 _ (9996425 / 2097152) rfl h6 (by norm_num)
    (by rw [hd]; apply fl32_eq_pos _ _ (2) 9996425 <;> norm_num) (by norm_num)
  have h8 := pausedSlow_step 7 8 _ (1240815 / 262144) rfl h7 (by norm_num)
    (by rw [hd]; apply fl32_eq_pos _ _ (2) 9926520 <;> norm_num) (by norm_num)
  have h9 := pausedSlow_step 8 9 _ (9856615 / 2097152) rfl h8 (by norm_num)
    (by rw [hd]; apply fl32_eq_pos _ _ (2) 9856615 <;> norm_num) (by norm_num)
  have h10 := pausedSlow_step 9 10 _ (4893355 / 1048576) rfl h9 (by norm_num)
    (by rw [hd]; apply fl32_eq_pos _ _ (2) 9786710 <;> norm_num) (by norm_num)
  have h11 := pausedSlow_step 10 11 _ (9716805 / 2097152) rfl h10 (by norm_num)
    (by rw [hd]; apply fl32_eq_pos _ _ (2) 9716805 <;> norm_num) (by norm_num)
  have h12 := pausedSlow_step 11 12 _ (2411725 / 524288) rfl h11 (by norm_num)
    (by rw [hd]; apply fl32_eq_pos _ _ (2) 9646900 <;> norm_num) (by norm_num)
  have h13 := pausedSlow_step 12 13 _ (9576995 / 2097152) rfl h12 (by norm_num)
    (by rw [hd]; apply fl32_eq_pos _ _ (2) 9576995 <;> norm_num) (by norm_num)
  have h14 := pausedSlow_step 13 14 _ (4753545 / 1048576) rfl h13 (by norm_num)
    (by rw [hd]; apply fl32_eq_pos _ _ (2) 9507090 <;> norm_num) (by norm_num)
  have h15 := pausedSlow_step 14 15 _ (9437185 / 2097152) rfl h14 (by norm_num)
    (by rw [hd]; apply fl32_eq_pos _ _ (2) 9437185 <;> norm_num) (by norm_num)
  have h16 := pausedSlow_step 15 16 _ (585455 / 131072) rfl h15 (by norm_num)
    (by rw [hd]; apply fl32_eq_pos _ _ (2) 9367280 <;> norm_num) (by norm_num)
  have h17 := pausedSlow_step 16 17 _ (9297375 / 2097152) rfl h16 (by norm_num)
    (by rw [hd]; apply fl32_eq_pos _ _ (2) 9297375 <;> norm_num) (by norm_num)
  have h18 := pausedSlow_step 17 18 _ (4613735 / 1048576) rfl h17 (by norm_num)
    (by rw [hd]; apply fl32_eq_pos _ _ (2) 9227470 <;> norm_num) (by norm_num)
  have h19 := pausedSlow_step 18 19 _ (9157565 / 2097152) rfl h18 (by norm_num)
    (by rw [hd]; apply fl32_eq_pos _ _ (2) 9157565 <;> norm_num) (by norm_num)
  have h20 := pausedSlow_step 19 20 _ (2271915 / 524288) rfl h19 (by norm_num)
    (by rw [hd]; apply fl32_eq_pos _ _ (2) 9087660 <;> norm_num) (by norm_num)
  have h21 := pausedSlow_step 20 21 _ (9017755 / 2097152) rfl h20 (by norm_num)
    (by rw [hd]; apply fl32_eq_pos _ _ (2) 9017755 <;> norm_num) (by norm_num)
  have h22 := pausedSlow_step 21 22 _ (4473925 / 1048576) rfl h21 (by norm_num)
    (by rw [hd]; apply fl32_eq_pos _ _ (2) 8947850 <;> norm_num) (by norm_num)
  have h23 := pausedSlow_step 22 23 _ (8877945 / 2097152) rfl h22 (by norm_num)
    (by rw [hd]; apply fl32_eq_pos _ _ (2) 8877945 <;> norm_num) (by norm_num)
  have h24 := pausedSlow_step 23 24 _ (1101005 / 262144) rfl h23 (by norm_num)
    (by rw [hd]; apply fl32_eq_pos _ _ (2) 8808040 <;> norm_num) (by norm_num)
  have h25 := pausedSlow_step 24 25 _ (8738135 / 2097152) rfl h24 (by norm_num)
    (by rw [hd]; apply fl32_eq_pos _ _ (2) 8738135 <;> norm_num) (by norm_num)
  have h26 := pausedSlow_step 25 26 _ (4334115 / 1048576) rfl h25 (by norm_num)
    (by rw [hd]; apply fl32_eq_pos _ _ (2) 8668230 <;> norm_num) (by norm_num)
  have h27 := pausedSlow_step 26 27 _ (8598325 / 2097152) rfl h26 (by norm_num)
    (by rw [hd]; apply fl32_eq_pos _ _ (2) 8598325 <;> norm_num) (by norm_num)
  have h28 := pausedSlow_step 27 28 _ (2132105 / 524288) rfl h27 (by norm_num)
    (by rw [hd]; apply fl32_eq_pos _ _ (2) 8528420 <;> norm_num) (by norm_num)
  have h29 := pausedSlow_step 28 29 _ (8458515 / 2097152) rfl h28 (by norm_num)
    (by rw [hd]; apply fl32_eq_pos _ _ (2) 8458515 <;> norm_num) (by norm_num)
  have h30 := pausedSlow_step 29 30 _ (4194305 / 1048576) rfl h29 (by norm_num)
    (by rw [hd]; apply fl32_eq_pos _ _ (2) 8388610 <;> norm_num) (by norm_num)
  have h31 := pausedSlow_step 30 31 _ (8318705 / 2097152) rfl h30 (by norm_num)
    (by rw [hd]; apply fl32_eq_pos _ _ (1) 16637410 <;> norm_num) (by norm_num)
  have h32 := pausedSlow_step 31 32 _ (257775 / 65536) rfl h31 (by norm_num)
    (by rw [hd]; apply fl32_eq_pos _ _ (1) 16497600 <;> norm_num) (by norm_num)
  have h33 := pausedSlow_step 32 33 _ (8178895 / 2097152) rfl h32 (by norm_num)
    (by rw [hd]; apply fl32_eq_pos _ _ (1) 16357790 <;> norm_num) (by norm_num)
  have h34 := pausedSlow_step 33 34 _ (4054495 / 1048576) rfl h33 (by norm_num)
    (by rw [hd]; apply fl32_eq_pos _ _ (1) 16217980 <;> norm_num) (by norm_num)
  have h35 := pausedSlow_step 34 35 _ (8039085 / 2097152) rfl h34 (by norm_num)
    (by rw [hd]; apply fl32_eq_pos _ _ (1) 16078170 <;> norm_num) (by norm_num)
  have h36 := pausedSlow_step 35 36 _ (1992295 / 524288) rfl h35 (by norm_num)
    (by rw [hd]; apply fl32_eq_pos _ _ (1) 15938360 <;> norm_num) (by norm_num)
  have h37 := pausedSlow_step 36 37 _ (7899275 / 2097152) rfl h36 (by norm_num)
    (by rw [hd]; apply fl32_eq_pos _ _ (1) 15798550 <;> norm_num) (by norm_num)
  have h38 := pausedSlow_step 37 38 _ (3914685 / 1048576) rfl h37 (by norm_num)
    (by rw [hd]; apply fl32_eq_pos _ _ (1) 15658740 <;> norm_num) (by norm_num)
  have h39 := pausedSlow_step 38 39 _ (7759465 / 2097152) rfl h38 (by norm_num)
    (by rw [hd]; apply fl32_eq_pos _ _ (1) 15518930 <;> norm_num) (by norm_num)
  have h40 := pausedSlow_step 39 40 _ (961195 / 262144) rfl h39 (by norm_num)
    (by rw [hd]; apply fl32_eq_pos _ _ (1) 15379120 <;> norm_num) (by norm_num)
  have h41 := pausedSlow_step 40 41 _ (7619655 / 2097152) rfl h40 (by norm_num)
    (by rw [hd]; apply fl32_eq_pos _ _ (1) 15239310 <;> norm_num) (by norm_num)
  have h42 := pausedSlow_step 41 42 _ (3774875 / 1048576) rfl h41 (by norm_num)
    (by rw [hd]; apply fl32_eq_pos _ _ (1) 15099500 <;> norm_num) (by norm_num)
  have h43 := pausedSlow_step 42 43 _ (7479845 / 2097152) rfl h42 (by norm_num)
    (by rw [hd]; apply fl32_eq_pos _ _ (1) 14959690 <;> norm_num) (by norm_num)
  have h44 := pausedSlow_step 43 44 _ (1852485 / 524288) rfl h43 (by norm_num)
    (by rw [hd]; apply fl32_eq_pos _ _ (1) 14819880 <;> norm_num) (by norm_num)
  have h45 := pausedSlow_step 44 45 _ (7340035 / 2097152) rfl h44 (by norm_num)
    (by rw [hd]; apply fl32_eq_pos _ _ (1) 14680070 <;> norm_num) (by norm_num)
  have h46 := pausedSlow_step 45 46 _ (3635065 / 1048576) rfl h45 (by norm_num)
    (by rw [hd]; apply fl32_eq_pos _ _ (1) 14540260 <;> norm_num) (by norm_num)
  have h47 := pausedSlow_step 46 47 _ (7200225 / 2097152) rfl h46 (by norm_num)
    (by rw [hd]; apply fl32_eq_pos _ _ (1) 14400450 <;> norm_num) (by norm_num)
  have h48 := pausedSlow_step 47 48 _ (445645 / 131072) rfl h47 (by norm_num)
    (by rw [hd]; apply fl32_eq_pos _ _ (1) 14260640 <;> norm_num) (by norm_num)
  have h49 := pausedSlow_step 48 49 _ (7060415 / 2097152) rfl h48 (by norm_num)
    (by rw [hd]; apply fl32_eq_pos _ _ (1) 14120830 <;> norm_num) (by norm_num)
  have h50 := pausedSlow_step 49 50 _ (3495255 / 1048576) rfl h49 (by norm_num)
    (by rw [hd]; apply fl32_eq_pos _ _ (1) 13981020 <;> norm_num) (by norm_num)
  have h51 := pausedSlow_step 50 51 _ (6920605 / 2097152) rfl h50 (by norm_num)
    (by rw [hd]; apply fl32_eq_pos _ _ (1) 13841210 <;> norm_num) (by norm_num)
  have h52 := pausedSlow_step 51 52 _ (1712675 / 524288) rfl h51 (by norm_num)
    (by rw [hd]; apply fl32_eq_pos _ _ (1) 13701400 <;> norm_num) (by norm_num)
  have h53 := pausedSlow_step 52 53 _ (6780795 / 2097152) rfl h52 (by norm_num)
    (by rw [hd]; apply fl32_eq_pos _ _ (1) 13561590 <;> norm_num) (by norm_num)
  have h54 := pausedSlow_step 53 54 _ (3355445 / 1048576) rfl h53 (by norm_num)
    (by rw [hd]; apply fl32_eq_pos _ _ (1) 13421780 <;> norm_num) (by norm_num)
  have h55 := pausedSlow_step 54 55 _ (6640985 / 2097152) rfl h54 (by norm_num)
    (by rw [hd]; apply fl32_eq_pos _ _ (1) 13281970 <;> norm_num) (by norm_num)
  have h56 := pausedSlow_step 55 56 _ (821385 / 262144) rfl h55 (by norm_num)
    (by rw [hd]; apply fl32_eq_pos _ _ (1) 13142160 <;> norm_num) (by norm_num)
  have h57 := pausedSlow_step 56 57 _ (6501175 / 2097152) rfl h56 (by norm_num)
    (by rw [hd]; apply fl32_eq_pos _ _ (1) 13002350 <;> norm_num) (by norm_num)
  have h58 := pausedSlow_step 57 58 _ (3215635 / 1048576) rfl h57 (by norm_num)
    (by rw [hd]; apply fl32_eq_pos _ _ (1) 12862540 <;> norm_num) (by norm_num)
  have h59 := pausedSlow_step 58 59 _ (6361365 / 2097152) rfl h58 (by norm_num)
    (by rw [hd]; apply fl32_eq_pos _ _ (1) 12722730 <;> norm_num) (by norm_num)
  have h60 := pausedSlow_step 59 60 _ (1572865 / 524288) rfl h59 (by norm_num)
    (by rw [hd]; apply fl32_eq_pos _ _ (1) 12582920 <;> norm_num) (by norm_num)
  have h61 := pausedSlow_step 60 61 _ (6221555 / 2097152) rfl h60 (by norm_num)
    (by rw [hd]; apply fl32_eq_pos _ _ (1) 12443110 <;> norm_num) (by norm_num)
  have h62 := pausedSlow_step 61 62 _ (3075825 / 1048576) rfl h61 (by norm_num)
    (by rw [hd]; apply fl32_eq_pos _ _ (1) 12303300 <;> norm_num) (by norm_num)
  have h63 := pausedSlow_step 62 63 _ (6081745 / 2097152) rfl h62 (by norm_num)
    (by rw [hd]; apply fl32_eq_pos _ _ (1) 12163490 <;> norm_num) (by norm_num)
  have h64 := pausedSlow_step 63 64 _ (93935 / 32768) rfl h63 (by norm_num)
    (by rw [hd]; apply fl32_eq_pos _ _ (1) 12023680 <;> norm_num) (by norm_num)
  have h65 := pausedSlow_step 64 65 _ (5941935 / 2097152) rfl h64 (by norm_num)
    (by rw [hd]; apply fl32_eq_pos _ _ (1) 11883870 <;> norm_num) (by norm_num)
  have h66 := pausedSlow_step 65 66 _ (2936015 / 1048576) rfl h65 (by norm_num)
    (by rw [hd]; apply fl32_eq_pos _ _ (1) 11744060 <;> norm_num) (by norm_num)
  have h67 := pausedSlow_step 66 67 _ (5802125 / 2097152) rfl h66 (by norm_num)
    (by rw [hd]; apply fl32_eq_pos _ _ (1) 11604250 <;> norm_num) (by norm_num)
  have h68 := pausedSlow_step 67 68 _ (1433055 / 524288) rfl h67 (by norm_num)
    (by rw [hd]; apply fl32_eq_pos _ _ (1) 11464440 <;> norm_num) (by norm_num)
  have h69 := pausedSlow_step 68 69 _ (5662315 / 2097152) rfl h68 (by norm_num)
    (by rw [hd]; apply fl32_eq_pos _ _ (1) 11324630 <;> norm_num) (by norm_num)
  have h70 := pausedSlow_step 69 70 _ (2796205 / 1048576) rfl h69 (by norm_num)
    (by rw [hd]; apply fl32_eq_pos _ _ (1) 11184820 <;> norm_num) (by norm_num)
  have h71 := pausedSlow_step 70 71 _ (5522505 / 2097152) rfl h70 (by norm_num)
    (by rw [hd]; apply fl32_eq_pos _ _ (1) 11045010 <;> norm_num) (by norm_num)
  have h72 := pausedSlow_step 71 72 _ (681575 / 262144) rfl h71 (by norm_num)
    (by rw [hd]; apply fl32_eq_pos _ _ (1) 10905200 <;> norm_num) (by norm_num)
  have h73 := pausedSlow_step 72 73 _ (5382695 / 2097152) rfl h72 (by norm_num)
    (by rw [hd]; apply fl32_eq_pos _ _ (1) 10765390 <;> norm_num) (by norm_num)
  have h74 := pausedSlow_step 73 74 _ (2656395 / 1048576) rfl h73 (by norm_num)
    (by rw [hd]; apply fl32_eq_pos _ _ (1) 10625580 <;> norm_num) (by norm_num)
  have h75 := pausedSlow_step 74 75 _ (5242885 / 2097152) rfl h74 (by norm_num)
    (by rw [hd]; apply fl32_eq_pos _ _ (1) 10485770 <;> norm_num) (by norm_num)
  have h76 := pausedSlow_step 75 76 _ (1293245 / 524288) rfl h75 (by norm_num)
    (by rw [hd]; apply fl32_eq_pos _ _ (1) 10345960 <;> norm_num) (by norm_num)
  have h77 := pausedSlow_step 76 77 _ (5103075 / 2097152) rfl h76 (by norm_num)
    (by rw [hd]; apply fl32_eq_pos _ _ (1) 10206150 <;> norm_num) (by norm_num)
  have h78 := pausedSlow_step 77 78 _ (2516585 / 1048576) rfl h77 (by norm_num)
    (by rw [hd]; apply fl32_eq_pos _ _ (1) 10066340 <;> norm_num) (by norm_num)
  have h79 := pausedSlow_step 78 79 _ (4963265 / 2097152) rfl h78 (by norm_num)
    (by rw [hd]; apply fl32_eq_pos _ _ (1) 9926530 <;> norm_num) (by norm_num)
  have h80 := pausedSlow_step 79 80 _ (305835 / 131072) rfl h79 (by norm_num)
    (by rw [hd]; apply fl32_eq_pos _ _ (1) 9786720 <;> norm_num) (by norm_num)
  have h81 := pausedSlow_step 80 81 _ (4823455 / 2097152) rfl h80 (by norm_num)
    (by rw [hd]; apply fl32_eq_pos _ _ (1) 9646910 <;> norm_num) (by norm_num)
  have h82 := pausedSlow_step 81 82 _ (2376775 / 1048576) rfl h81 (by norm_num)
    (by rw [hd]; apply fl32_eq_pos _ _ (1) 9507100 <;> norm_num) (by norm_num)
  have h83 := pausedSlow_step 82 83 _ (4683645 / 2097152) rfl h82 (by norm_num)
    (by rw [hd]; apply fl32_eq_pos _ _ (1) 9367290 <;> norm_num) (by norm_num)
  have h84 := pausedSlow_step 83 84 _ (1153435 / 524288) rfl h83 (by norm_num)
    (by rw [hd]; apply fl32_eq_pos _ _ (1) 9227480 <;> norm_num) (by norm_num)
  have h85 := pausedSlow_step 84 85 _ (4543835 / 2097152) rfl h84 (by norm_num)
    (by rw [hd]; apply fl32_eq_pos _ _ (1) 9087670 <;> norm_num) (by norm_num)
  have h86 := pausedSlow_step 85 86 _ (2236965 / 1048576) rfl h85 (by norm_num)
    (by rw [hd]; apply fl32_eq_pos _ _ (1) 8947860 <;> norm_num) (by norm_num)
  have h87 := pausedSlow_step 86 87 _ (4404025 / 2097152) rfl h86 (by norm_num)
    (by rw [hd]; apply fl32_eq_pos _ _ (1) 8808050 <;> norm_num) (by norm_num)
  have h88 := pausedSlow_step 87 88 _ (541765 / 262144) rfl h87 (by norm_num)
    (by rw [hd]; apply fl32_eq_pos _ _ (1) 8668240 <;> norm_num) (by norm_num)
  have h89 := pausedSlow_step 88 89 _ (4264215 / 2097152) rfl h88 (by norm_num)
    (by rw [hd]; apply fl32_eq_pos _ _ (1) 8528430 <;> norm_num) (by norm_num)
  have h90 := pausedSlow_step 89 90 _ (2097155 / 1048576) rfl h89 (by norm_num)
    (by rw [hd]; apply fl32_eq_pos _ _ (1) 8388620 <;> norm_num) (by norm_num)
  have h91 := pausedSlow_step 90 91 _ (4124405 / 2097152) rfl h90 (by norm_num)
    (by rw [hd]; apply fl32_eq_pos _ _ (0) 16497620 <;> norm_num) (by norm_num)
  have h92 := pausedSlow_step 91 92 _ (1013625 / 524288) rfl h91 (by norm_num)
    (by rw [hd]; apply fl32_eq_pos _ _ (0) 16218000 <;> norm_num) (by norm_num)
  have h93 := pausedSlow_step 92 93 _ (3984595 / 2097152) rfl h92 (by norm_num)
    (by rw [hd]; apply fl32_eq_pos _ _ (0) 15938380 <;> norm_num) (by norm_num)
  have h94 := pausedSlow_step 93 94 _ (1957345 / 1048576) rfl h93 (by norm_num)
    (by rw [hd]; apply fl32_eq_pos _ _ (0) 15658760 <;> norm_num) (by norm_num)
  have h95 := pausedSlow_step 94 95 _ (3844785 / 2097152) rfl h94 (by norm_num)
    (by rw [hd]; apply fl32_eq_pos _ _ (0) 15379140 <;> norm_num) (by norm_num)
  have h96 := pausedSlow_step 95 96 _ (117965 / 65536) rfl h95 (by norm_num)
    (by rw [hd]; apply fl32_eq_pos _ _ (0) 15099520 <;> norm_num) (by norm_num)
  have h97 := pausedSlow_step 96 97 _ (3704975 / 2097152) rfl h96 (by norm_num)
    (by rw [hd]; apply fl32_eq_pos _ _ (0) 14819900 <;> norm_num) (by norm_num)
  have h98 := pausedSlow_step 97 98 _ (1817535 / 1048576) rfl h97 (by norm_num)
    (by rw [hd]; apply fl32_eq_pos _ _ (0) 14540280 <;> norm_num) (by norm_num)
  have h99 := pausedSlow_step 98 99 _ (3565165 / 2097152) rfl h98 (by norm_num)
    (by rw [hd]; apply fl32_eq_pos _ _ (0) 14260660 <;> norm_num) (by norm_num)
  have h100 := pausedSlow_step 99 100 _ (873815 / 524288) rfl h99 (by norm_num)
    (by rw [hd]; apply fl32_eq_pos _ _ (0) 13981040 <;> norm_num) (by norm_num)
  have h101 := pausedSlow_step 100 101 _ (3425355 / 2097152) rfl h100 (by norm_num)
    (by rw [hd]; apply fl32_eq_pos _ _ (0) 13701420 <;> norm_num) (by norm_num)
  have h102 := pausedSlow_step 101 102 _ (1677725 / 1048576) rfl h101 (by norm_num)
    (by rw [hd]; apply fl32_eq_pos _ _ (0) 13421800 <;> norm_num) (by norm_num)
  have h103 := pausedSlow_step 102 103 _ (3285545 / 2097152) rfl h102 (by norm_num)
    (by rw [hd]; apply fl32_eq_pos _ _ (0) 13142180 <;> norm_num) (by norm_num)
  have h104 := pausedSlow_step 103 104 _ (401955 / 262144) rfl h103 (by norm_num)
    (by rw [hd]; apply fl32_eq_pos _ _ (0) 12862560 <;> norm_num) (by norm_num)
  have h105 := pausedSlow_step 104 105 _ (3145735 / 2097152) rfl h104 (by norm_num)
    (by rw [hd]; apply fl32_eq_pos _ _ (0) 12582940 <;> norm_num) (by norm_num)
  have h106 := pausedSlow_step 105 106 _ (1537915 / 1048576) rfl h105 (by norm_num)
    (by rw [hd]; apply fl32_eq_pos _ _ (0) 12303320 <;> norm_num) (by norm_num)
  have h107 := pausedSlow_step 106 107 _ (3005925 / 2097152) rfl h106 (by norm_num)
    (by rw [hd]; apply fl32_eq_pos _ _ (0) 12023700 <;> norm_num) (by norm_num)
  have h108 := pausedSlow_step 107 108 _ (734005 / 524288) rfl h107 (by norm_num)
    (by rw [hd]; apply fl32_eq_pos _ _ (0) 11744080 <;> norm_num) (by norm_num)
  have h109 := pausedSlow_step 108 109 _ (2866115 / 2097152) rfl h108 (by norm_num)
    (by rw [hd]; apply fl32_eq_pos _ _ (0) 11464460 <;> norm_num) (by norm_num)
  have h110 := pausedSlow_step 109 110 _ (1398105 / 1048576) rfl h109 (by norm_num)
    (by rw [hd]; apply fl32_eq_pos _ _ (0) 11184840 <;> norm_num) (by norm_num)
  have h111 := pausedSlow_step 110 111 _ (2726305 / 2097152) rfl h110 (by norm_num)
    (by rw [hd]; apply fl32_eq_pos _ _ (0) 10905220 <;> norm_num) (by norm_num)
  have h112 := pausedSlow_step 111 112 _ (166025 / 131072) rfl h111 (by norm_num)
    (by rw [hd]; apply fl32_eq_pos _ _ (0) 10625600 <;> norm_num) (by norm_num)
  have h113 := pausedSlow_step 112 113 _ (2586495 / 2097152) rfl h112 (by norm_num)
    (by rw [hd]; apply fl32_eq_pos _ _ (0) 10345980 <;> norm_num) (by norm_num)
  have h114 := pausedSlow_step 113 114 _ (1258295 / 1048576) rfl h113 (by norm_num)
    (by rw [hd]; apply fl32_eq_pos _ _ (0) 10066360 <;> norm_num) (by norm_num)
  have h115 := pausedSlow_step 114 115 _ (2446685 / 2097152) rfl h114 (by norm_num)
    (by rw [hd]; apply fl32_eq_pos _ _ (0) 9786740 <;> norm_num) (by norm_num)
  have h116 := pausedSlow_step 115 116 _ (594195 / 524288) rfl h115 (by norm_num)
    (by rw [hd]; apply fl32_eq_pos _ _ (0) 9507120 <;> norm_num) (by norm_num)
  have h117 := pausedSlow_step 116 117 _ (2306875 / 2097152) rfl h116 (by norm_num)
    (by rw [hd]; apply fl32_eq_pos _ _ (0) 9227500 <;> norm_num) (by norm_num)
  have h118 := pausedSlow_step 117 118 _ (1118485 / 1048576) rfl h117 (by norm_num)
    (by rw [hd]; apply fl32_eq_pos _ _ (0) 8947880 <;> norm_num) (by norm_num)
  have h119 := pausedSlow_step 118 119 _ (2167065 / 2097152) rfl h118 (by norm_num)
    (by rw [hd]; apply fl32_eq_pos _ _ (0) 8668260 <;> norm_num) (by norm_num)
  have h120 := pausedSlow_step 119 120 _ (262145 / 262144) rfl h119 (by norm_num)
    (by rw [hd]; apply fl32_eq_pos _ _ (0) 8388640 <;> norm_num) (by norm_num)
  have h121 := pausedSlow_step 120 121 _ (16218039 / 16777216) rfl h120 (by norm_num)
    (by rw [hd]; apply fl32_eq_pos _ _ (-1) 16218039 <;> norm_num) (by norm_num)
  have h122 := pausedSlow_step 121 122 _ (7829399 / 8388608) rfl h121 (by norm_num)
    (by rw [hd]; apply fl32_eq_pos _ _ (-1) 15658798 <;> norm_num) (by norm_num)
  have h123 := pausedSlow_step 122 123 _ (15099557 / 16777216) rfl h122 (by norm_num)
    (by rw [hd]; apply fl32_eq_pos _ _ (-1) 15099557 <;> norm_num) (by norm_num)
  have h124 := pausedSlow_step 123 124 _ (3635079 / 4194304) rfl h123 (by norm_num)
    (by rw [hd]; apply fl32_eq_pos _ _ (-1) 14540316 <;> norm_num) (by norm_num)
  have h125 := pausedSlow_step 124 125 _ (13981075 / 16777216) rfl h124 (by norm_num)
    (by rw [hd]; apply fl32_eq_pos _ _ (-1) 13981075 <;> norm_num) (by norm_num)
  have h126 := pausedSlow_step 125 126 _ (6710917 / 8388608) rfl h125 (by norm_num)
    (by rw [hd]; apply fl32_eq_pos _ _ (-1) 13421834 <;> norm_num) (by norm_num)
  have h127 := pausedSlow_step 126 127 _ (12862593 / 16777216) rfl h126 (by norm_num)
    (by rw [hd]; apply fl32_eq_pos _ _ (-1) 12862593 <;> norm_num) (by norm_num)
  have h128 := pausedSlow_step 127 128 _ (1537919 / 2097152) rfl h127 (by norm_num)
    (by rw [hd]; apply fl32_eq_pos _ _ (-1) 12303352 <;> norm_num) (by norm_num)
  have h129 := pausedSlow_step 128 129 _ (11744111 / 16777216) rfl h128 (by norm_num)
    (by rw [hd]; apply fl32_eq_pos _ _ (-1) 11744111 <;> norm_num) (by norm_num)
  have h130 := pausedSlow_step 129 130 _ (5592435 / 8388608) rfl h129 (by norm_num)
    (by rw [hd]; apply fl32_eq_pos _ _ (-1) 11184870 <;> norm_num) (by norm_num)
  have h131 := pausedSlow_step 130 131 _ (10625629 / 16777216) rfl h130 (by norm_num)
    (by rw [hd]; apply fl32_eq_pos _ _ (-1) 10625629 <;> norm_num) (by norm_num)
  have h132 := pausedSlow_step 131 132 _ (2516597 / 4194304) rfl h131 (by norm_num)
    (by rw [hd]; apply fl32_eq_pos _ _ (-1) 10066388 <;> norm_num) (by norm_num)
  have h133 := pausedSlow_step 132 133 _ (9507147 / 16777216) rfl h132 (by norm_num)
    (by rw [hd]; apply fl32_eq_pos _ _ (-1) 9507147 <;> norm_num) (by norm_num)
  have h134 := pausedSlow_step 133 134 _ (4473953 / 8388608) rfl h133 (by norm_num)
    (by rw [hd]; apply fl32_eq_pos _ _ (-1) 8947906 <;> norm_num) (by norm_num)
  have h135 := pausedSlow_step 134 135 _ (8388665 / 16777216) rfl h134 (by norm_num)
    (by rw [hd]; apply fl32_eq_pos _ _ (-1) 8388665 <;> norm_num) (by norm_num)
  have h136 := pausedSlow_step 135 136 _ (15658849 / 33554432) rfl h135 (by norm_num)
    (by rw [hd]; apply fl32_eq_pos _ _ (-2) 15658849 <;> norm_num) (by norm_num)
  have h137 := pausedSlow_step 136 137 _ (908773 / 2097152) rfl h136 (by norm_num)
    (by rw [hd]; apply fl32_eq_pos _ _ (-2) 14540368 <;> norm_num) (by norm_num)
  have h138 := pausedSlow_step 137 138 _ (13421887 / 33554432) rfl h137 (by norm_num)
    (by rw [hd]; apply fl32_eq_pos _ _ (-2) 13421887 <;> norm_num) (by norm_num)
  have h139 := pausedSlow_step 138 139 _ (6151703 / 16777216) rfl h138 (by norm_num)
    (by rw [hd]; apply fl32_eq_pos _ _ (-2) 12303406 <;> norm_num) (by norm_num)
  have h140 := pausedSlow_step 139 140 _ (11184925 / 33554432) rfl h139 (by norm_num)
    (by rw [hd]; apply fl32_eq_pos _ _ (-2) 11184925 <;> norm_num) (by norm_num)
  have h141 := pausedSlow_step 140 141 _ (2516611 / 8388608) rfl h140 (by norm_num)
    (by rw [hd]; apply fl32_eq_pos _ _ (-2) 10066444 <;> norm_num) (by norm_num)
  have h142 := pausedSlow_step 141 142 _ (8947963 / 33554432) rfl h141 (by norm_num)
    (by rw [hd]; apply fl32_eq_pos _ _ (-2) 8947963 <;> norm_num) (by norm_num)
  have h143 := pausedSlow_step 142 143 _ (3914741 / 16777216) rfl h142 (by norm_num)
    (by rw [hd]; apply fl32_eq_pos _ _ (-3) 15658964 <;> norm_num) (by norm_num)
  have h144 := pausedSlow_step 143 144 _ (6711001 / 33554432) rfl h143 (by norm_num)
    (by rw [hd]; apply fl32_eq_pos _ _ (-3) 13422002 <;> norm_num) (by norm_num)
  have h145 := pausedSlow_step 144 145 _ (699065 / 4194304) rfl h144 (by norm_num)
    (by rw [hd]; apply fl32_eq_pos _ _ (-3) 11185040 <;> norm_num) (by norm_num)
  have h146 := pausedSlow_step 145 146 _ (4474039 / 33554432) rfl h145 (by norm_num)
    (by rw [hd]; apply fl32_eq_pos _ _ (-3) 8948078 <;> norm_num) (by norm_num)
  have h147 := pausedSlow_step 146 147 _ (1677779 / 16777216) rfl h146 (by norm_num)
    (by rw [hd]; apply fl32_eq_tie _ _ (-4) 13422232 (by norm_num) (by decide) <;> norm_num) (by norm_num)
  have h148 := pausedSlow_step 147 148 _ (2237077 / 33554432) rfl h147 (by norm_num)
    (by rw [hd]; apply fl32_eq_tie _ _ (-4) 8948308 (by norm_num) (by decide) <;> norm_num) (by norm_num)
  have h149 := pausedSlow_step 148 149 _ (8948767 / 268435456) rfl h148 (by norm_num)
    (by rw [hd]; apply fl32_eq_pos _ _ (-5) 8948767 <;> norm_num) (by norm_num)
  have h150 := pausedSlow_step 149 150 _ (459 / 134217728) rfl h149 (by norm_num)
    (by rw [hd]; apply fl32_eq_pos _ _ (-19) 15040512 <;> norm_num) (by norm_num)
  refine ⟨rfl, rfl, ?_, ?_, h150.2, h150.1, ?_⟩
  · intro pre ft post _
    exact noSlowPickUp_paused Env.sample _ ft
      (ticksRounded_paused Env.sample pre pausedSlowStart rfl)
  · have h1 : min frame30 float005 = frame30 := by
      rw [frame30_eq, float005_eq]
      exact min_eq_left (by norm_num)
    simp only [unscaledTime, List.map_replicate, List.sum_replicate, h1]
    rw [frame30_eq]
    norm_num
  · rw [float04_eq]
    norm_num

/-! ### Pick-up levels -/

theorem levelsBounded_reset (p : Spaceship) : p.reset.LevelsBounded := by
  unfold Spaceship.LevelsBounded Spaceship.reset MIN_FIRE_RATE BASE_FIRE_RATE
  norm_num

theorem levelsBounded_applyPowerUp (p : Spaceship) (t : PowerUpType) (h : p.LevelsBounded) :
    (p.applyPowerUp t).LevelsBounded := by
  obtain ⟨h1, h2, h3, h4, h5, h6⟩ := h
  unfold MIN_FIRE_RATE at h5
  unfold BASE_FIRE_RATE at h6
  cases t <;>
    simp only [Spaceship.applyPowerUp, Spaceship.LevelsBounded, MIN_FIRE_RATE, BASE_FIRE_RATE] <;>
    refine ⟨?_, ?_, ?_, ?_, ?_, ?_⟩ <;>
    first
      | assumption
      | exact le_max_right _ _
      | exact le_min (by omega) (by omega)
      | exact min_le_right _ _
      | (apply max_le <;> linarith)

/-- C18. Along every sequence of `applyPowerUp` calls on a freshly reset
player the power level and the multi-shot level stay within 1..5 and the fire
cooldown within [0.10, 0.25].  A power pick-up raises the power level by 1
when it is below 5 and lowers the cooldown by 0.015, floored at 0.10; a
fire-rate pick-up lowers the cooldown by 0.025, floored at 0.10, and keeps the
power level; a multi-shot pick-up raises the multi-shot level by 1 when it is
below 5. -/
theorem powerUp_levels_bounded (p q : Spaceship) (types : List PowerUpType) :
    (1 ≤ (types.foldl Spaceship.applyPowerUp p.reset).powerLevel ∧
      (types.foldl Spaceship.applyPowerUp p.reset).powerLevel ≤ 5 ∧
      1 ≤ (types.foldl Spaceship.applyPowerUp p.reset).multiShotLevel ∧
      (types.foldl Spaceship.applyPowerUp p.reset).multiShotLevel ≤ 5 ∧
      (10 / 100 : ℚ) ≤ (types.foldl Spaceship.applyPowerUp p.reset).fireRate ∧
      (types.foldl Spaceship.applyPowerUp p.reset).fireRate ≤ 25 / 100) ∧
    ((q.powerLevel < 5 → (q.applyPowerUp .Power).powerLevel = q.powerLevel + 1) ∧
      (q.powerLevel = 5 → (q.applyPowerUp .Power).powerLevel = 5) ∧
      (q.applyPowerUp .Power).fireRate = max (q.fireRate - 15 / 1000) (10 / 100) ∧
      (q.applyPowerUp .Power).multiShotLevel = q.multiShotLevel) ∧
    ((q.applyPowerUp .Fire).fireRate = max (q.fireRate - 25 / 1000) (10 / 100) ∧
      (q.applyPowerUp .Fire).powerLevel = q.powerLevel ∧
      (q.applyPowerUp .Fire).multiShotLevel = q.multiShotLevel) ∧
    ((q.multiShotLevel < 5 → (q.applyPowerUp .MultiShot).multiShotLevel = q.multiShotLevel + 1) ∧
      (q.multiShotLevel = 5 → (q.applyPowerUp .MultiShot).multiShotLevel = 5) ∧
      (q.applyPowerUp .MultiShot).powerLevel = q.powerLevel ∧
      (q.applyPowerUp .MultiShot).fireRate = q.fireRate) := by
  have hinv : (types.foldl Spaceship.applyPowerUp p.reset).LevelsBounded :=
    foldl_invariant Spaceship.LevelsBounded Spaceship.applyPowerUp (fun _ => True)
      (fun s t hs _ => levelsBounded_applyPowerUp s t hs) types _ (levelsBounded_reset p)
      (fun _ _ => trivial)
  refine ⟨hinv, ⟨?_, ?_, rfl, rfl⟩, ⟨rfl, rfl, rfl⟩, ⟨?_, ?_, rfl, rfl⟩⟩
  · intro h
    show min (q.powerLevel + 1) 5 = q.powerLevel + 1
    exact min_eq_left (by omega)
  · intro h
    show min (q.powerLevel + 1) 5 = 5
    exact min_eq_right (by omega)
  · intro h
    show min (q.multiShotLevel + 1) 5 = q.multiShotLevel + 1
    exact min_eq_left (by omega)
  · intro h
    show min (q.multiShotLevel + 1) 5 = 5
    exact min_eq_right (by omega)

/-- C18, for a reset player that collects one power pick-up: power level 2. -/
theorem powerUp_levels_bounded_witness :
    ((Spaceship.new Env.sample).reset.applyPowerUp .Power).powerLevel =
      (Spaceship.new Env.sample).reset.powerLevel + 1 :=
  (powerUp_levels_bounded (Spaceship.new Env.sample) (Spaceship.new Env.sample).reset
    [.Power]).2.1.1 (by decide)

/-! ### Spawn composition -/

theorem enemy_new_type (env : Env) (g : Nat) (level phase : Int) :
    ((Enemy.newAlpha env g level phase).1.type = .Alpha ∧
      (Enemy.newAlpha env g level phase).1.ext.variant = .Alpha) ∧
    ((Enemy.newBeta env g level phase).1.type = .Beta ∧
      (Enemy.newBeta env g level phase).1.ext.variant = .Beta) ∧
    ((Enemy.newGamma env g level phase).1.type = .Gamma ∧
      (Enemy.newGamma env g level phase).1.ext.variant = .Gamma) ∧
    ((Enemy.newMonster env g level phase).1.type = .Monster ∧
      (Enemy.newMonster env g level phase).1.ext.variant = .Monster) ∧
    ((Enemy.newPhantom env g level phase).1.type = .Phantom ∧
      (Enemy.newPhantom env g level phase).1.ext.variant = .Phantom) ∧
    ((Enemy.newDragon env g level phase).1.type = .Dragon ∧
      (Enemy.newDragon env g level phase).1.ext.variant = .Dragon) :=
  ⟨⟨rfl, rfl⟩, ⟨rfl, rfl⟩, ⟨rfl, rfl⟩, ⟨rfl, rfl⟩, ⟨rfl, rfl⟩, ⟨rfl, rfl⟩⟩

/-- The enemy built for a grid slot has the variant of its roll, as tag and
as dynamic class. -/
theorem spawnOne_variant (env : Env) (g : Nat) (level phase i : Int) :
    (GameState.spawnOne env g level phase i).1.type =
      variantForRoll level phase (env.randInt g 0 100) ∧
    (GameState.spawnOne env g level phase i).1.ext.variant =
      variantForRoll level phase (env.randInt g 0 100) := by
  obtain ⟨a, b, c, d, e, f⟩ := enemy_new_type env (g + 1) level phase
  unfold GameState.spawnOne variantForRoll Enemy.setPosition
  simp only
  split_ifs <;> first | exact a | exact b | exact c | exact d | exact e | exact f

theorem variantForRoll_level_one (phase roll : Int) :
    (variantForRoll 1 phase roll = .Alpha ∨ variantForRoll 1 phase roll = .Beta ∨
      variantForRoll 1 phase roll = .Gamma) ∧
    (phase = 1 → variantForRoll 1 phase roll = .Alpha ∨ variantForRoll 1 phase roll = .Beta) := by
  unfold variantForRoll
  constructor
  · rw [if_pos rfl]
    split_ifs <;> simp
  · intro h
    rw [if_pos rfl, if_pos h]
    split_ifs <;> simp

/-- Every enemy of the spawn loop satisfies what every roll's variant
satisfies. -/
theorem spawnList_all (env : Env) (level phase : Int) (P : EnemyType → Prop)
    (h : ∀ roll, P (variantForRoll level phase roll)) (l : List Nat) (g : Nat) :
    ∀ e ∈ (GameState.spawnList env level phase l g).1, P e.type ∧ P e.ext.variant := by
  induction l generalizing g with
  | nil => intro e he; simp [GameState.spawnList] at he
  | cons i is ih =>
    intro e he
    simp only [GameState.spawnList, List.mem_cons] at he
    rcases he with rfl | he
    · rw [(spawnOne_variant env g level phase i).1, (spawnOne_variant env g level phase i).2]
      exact ⟨h _, h _⟩
    · exact ih _ e he

theorem spawnEnemies_all (env : Env) (s : GameState) (P : EnemyType → Prop)
    (h : ∀ roll, P (variantForRoll s.currentLevel s.currentPhase roll)) :
    ∀ e ∈ (s.spawnEnemies env).enemies, P e.type ∧ P e.ext.variant := by
  rw [(spawnEnemies_spec env s).2.2.2.2.1]
  exact spawnList_all env _ _ P h _ _

/-- C19. `spawnEnemies` builds for each grid slot the variant of its roll r:
at level 1 phase 1 Alpha (r < 60) or Beta; at level 1 phase 2 Alpha (r < 40),
Beta (r < 70) or Gamma; at level 2 Alpha (r < 20), Beta (r < 40), Gamma
(r < 55), Monster (r < 70), Phantom (r < 85) or Dragon, each of the six for
some roll in 0..100.  The dynamic class agrees with the tag, and no Monster,
Phantom or Dragon is in the container spawned at level 1, whatever the
rolls. -/
theorem spawn_variants (env : Env) (s : GameState) (g : Nat) (phase i : Int) :
    ((GameState.spawnOne env g 1 1 i).1.type =
        (if env.randInt g 0 100 < 60 then .Alpha else .Beta) ∧
      (GameState.spawnOne env g 1 2 i).1.type =
        (if env.randInt g 0 100 < 40 then .Alpha
         else if env.randInt g 0 100 < 70 then .Beta else .Gamma) ∧
      (GameState.spawnOne env g 2 phase i).1.type =
        (if env.randInt g 0 100 < 20 then .Alpha
         else if env.randInt g 0 100 < 40 then .Beta
         else if env.randInt g 0 100 < 55 then .Gamma
         else if env.randInt g 0 100 < 70 then .Monster
         else if env.randInt g 0 100 < 85 then .Phantom else .Dragon)) ∧
    (∀ level : Int, (GameState.spawnOne env g level phase i).1.ext.variant =
      (GameState.spawnOne env g level phase i).1.type) ∧
    (s.currentLevel = 1 → s.currentPhase = 1 →
      ∀ e ∈ (s.spawnEnemies env).enemies, e.type = .Alpha ∨ e.type = .Beta) ∧
    (s.currentLevel = 1 → s.currentPhase = 2 →
      ∀ e ∈ (s.spawnEnemies env).enemies, e.type = .Alpha ∨ e.type = .Beta ∨ e.type = .Gamma) ∧
    (s.currentLevel = 1 →
      ∀ e ∈ (s.spawnEnemies env).enemies,
        (e.type ≠ .Monster ∧ e.type ≠ .Phantom ∧ e.type ≠ .Dragon) ∧
        (e.ext.variant ≠ .Monster ∧ e.ext.variant ≠ .Phantom ∧ e.ext.variant ≠ .Dragon)) ∧
    (∀ t : EnemyType, ∃ roll : Int, 0 ≤ roll ∧ roll ≤ 100 ∧
      ∀ (env' : Env) (g' : Nat), env'.randInt g' 0 100 = roll →
        (GameState.spawnOne env' g' 2 phase i).1.type = t) := by
  refine ⟨⟨?_, ?_, ?_⟩, ?_, ?_, ?_, ?_, ?_⟩
  · rw [(spawnOne_variant env g 1 1 i).1]
    rfl
  · rw [(spawnOne_variant env g 1 2 i).1]
    rfl
  · rw [(spawnOne_variant env g 2 phase i).1]
    rfl
  · intro level
    rw [(spawnOne_variant env g level phase i).1, (spawnOne_variant env g level phase i).2]
  · intro hl hp e he
    exact (spawnEnemies_all env s (fun t => t = .Alpha ∨ t = .Beta)
      (fun roll => by rw [hl]; exact (variantForRoll_level_one _ roll).2 hp) e he).1
  · intro hl _ e he
    exact (spawnEnemies_all env s (fun t => t = .Alpha ∨ t = .Beta ∨ t = .Gamma)
      (fun roll => by rw [hl]; exact (variantForRoll_level_one _ roll).1) e he).1
  · intro hl e he
    exact spawnEnemies_all env s (fun t => t ≠ .Monster ∧ t ≠ .Phantom ∧ t ≠ .Dragon)
      (fun roll => by
        rw [hl]
        rcases (variantForRoll_level_one s.currentPhase roll).1 with h | h | h <;>
          rw [h] <;> decide) e he
  · intro t
    have key : ∀ roll : Int, ∀ (env' : Env) (g' : Nat), env'.randInt g' 0 100 = roll →
        (GameState.spawnOne env' g' 2 phase i).1.type = variantForRoll 2 phase roll := by
      intro roll env' g' h
      rw [(spawnOne_variant env' g' 2 phase i).1, h]
    cases t
    · exact ⟨0, by decide, by decide, fun env' g' h => (key 0 env' g' h).trans (by simp [variantForRoll])⟩
    · exact ⟨20, by decide, by decide, fun env' g' h => (key 20 env' g' h).trans (by simp [variantForRoll])⟩
    · exact ⟨40, by decide, by decide, fun env' g' h => (key 40 env' g' h).trans (by simp [variantForRoll])⟩
    · exact ⟨55, by decide, by decide, fun env' g' h => (key 55 env' g' h).trans (by simp [variantForRoll])⟩
    · exact ⟨70, by decide, by decide, fun env' g' h => (key 70 env' g' h).trans (by simp [variantForRoll])⟩
    · exact ⟨85, by decide, by decide, fun env' g' h => (key 85 env' g' h).trans (by simp [variantForRoll])⟩

/-- C19, for the enemy set of a new game (level 1, phase 1): Alpha and Beta
only. -/
theorem spawn_variants_witness :
    ∀ e ∈ ((GameState.new Env.sample []).spawnEnemies Env.sample).enemies,
      e.type = .Alpha ∨ e.type = .Beta :=
  (spawn_variants Env.sample (GameState.new Env.sample []) 0 1 0).2.2.1 rfl rfl

/-! ### The entry branch of the boss -/

/-- While y < 150 the boss only descends: no timer runs, the phase is not
recomputed, and no attack is issued whatever the attack timer. -/
theorem finalBoss_entry_branch (env : Env) (b : FinalBoss) (dt : ℚ) (hy : b.position.y < 150) :
    b.update env dt = { b with position := ⟨b.position.x, b.position.y + 50 * dt⟩ } ∧
    b.getAttackBullets env = ([], b) := by
  constructor
  · unfold FinalBoss.update
    rw [if_pos hy]
  · unfold FinalBoss.getAttackBullets
    rw [if_pos (Or.inr hy)]

/-- The phase update of a boss with at most 30 % health puts it at
y = 100 + 80 * sin (moveAngle + dt). -/
theorem finalBoss_phase3_height (env : Env) (b : FinalBoss) (dt : ℚ)
    (hy : 150 ≤ b.position.y) (hhp : b.health / b.maxHealth ≤ 3 / 10) :
    (b.update env dt).position.y = 100 + env.sin (b.moveAngle + dt) * 80 ∧
    (b.update env dt).attackTimer = b.attackTimer - dt ∧
    (b.update env dt).bossPhase = 3 := by
  unfold FinalBoss.update
  rw [if_neg (not_lt.mpr hy)]
  simp only [hhp, if_true]
  split_ifs <;> first | (exfalso; omega) | exact ⟨rfl, rfl, rfl⟩

/-- A boss that has finished entering and is at 30 % health or less drops back
below y = 150 on its phase update whenever sin (moveAngle + dt) < 5/8; its next
update is an entry step again. -/
theorem finalBoss_reenters (env : Env) (b : FinalBoss) (dt dt' : ℚ)
    (hy : 150 ≤ b.position.y) (hhp : b.health / b.maxHealth ≤ 3 / 10)
    (hsin : env.sin (b.moveAngle + dt) < 5 / 8) :
    (b.update env dt).position.y < 150 ∧
    ((b.update env dt).update env dt').moveAngle = (b.update env dt).moveAngle ∧
    ((b.update env dt).update env dt').phaseTimer = (b.update env dt).phaseTimer ∧
    ((b.update env dt).update env dt').attackTimer = (b.update env dt).attackTimer ∧
    ((b.update env dt).update env dt').position.y = (b.update env dt).position.y + 50 * dt' ∧
    (b.update env dt).getAttackBullets env = ([], b.update env dt) := by
  have hlow : (b.update env dt).position.y < 150 := by
    rw [(finalBoss_phase3_height env b dt hy hhp).1]
    linarith
  obtain ⟨e1, e2⟩ := finalBoss_entry_branch env (b.update env dt) dt' hlow
  refine ⟨hlow, ?_, ?_, ?_, ?_, e2⟩ <;> rw [e1]

/-- C20 fails on the code.  A boss that has finished entering (y = 150) with
health 100 of 500 is updated with dt = 1/60: the phase update leaves it at
y < 150 (phase 3 is centred on y = 100).  The next update is an entry step
(the move angle and the phase timer do not advance) and `getAttackBullets`
returns nothing although the attack timer has run out. -/
theorem boss_returns_to_entering :
    (150 : ℚ) ≤ (bossAtHealth 100).position.y ∧
    ((bossAtHealth 100).update Env.sample (1 / 60)).position.y < 150 ∧
    (((bossAtHealth 100).update Env.sample (1 / 60)).update Env.sample (1 / 60)).moveAngle =
      ((bossAtHealth 100).update Env.sample (1 / 60)).moveAngle ∧
    (((bossAtHealth 100).update Env.sample (1 / 60)).update Env.sample (1 / 60)).phaseTimer =
      ((bossAtHealth 100).update Env.sample (1 / 60)).phaseTimer ∧
    ((bossAtHealth 100).update Env.sample (1 / 60)).attackTimer ≤ 0 ∧
    (((bossAtHealth 100).update Env.sample (1 / 60)).getAttackBullets Env.sample).1 = [] := by
  obtain ⟨f1, f2, f3, f4⟩ := bossAtHealth_facts 100
  have hhp : (bossAtHealth 100).health / (bossAtHealth 100).maxHealth ≤ 3 / 10 := by
    rw [f3, f4]
    norm_num
  have hsin : Env.sample.sin ((bossAtHealth 100).moveAngle + 1 / 60) < 5 / 8 := by
    show (0 : ℚ) < 5 / 8
    norm_num
  obtain ⟨r1, r2, r3, _, _, r6⟩ :=
    finalBoss_reenters Env.sample (bossAtHealth 100) (1 / 60) (1 / 60) f2 hhp hsin
  refine ⟨f2, r1, r2, r3, ?_, ?_⟩
  · rw [(finalBoss_phase3_height Env.sample (bossAtHealth 100) (1 / 60) f2 hhp).2.1]
    show (0 : ℚ) - 1 / 60 ≤ 0
    norm_num
  · rw [r6]

/-! ### Boss shield regeneration -/

/-- The shield fields after `FinalBoss.update`, in terms of the phase the update leaves. -/
theorem finalBoss_update_shield_eq (env : Env) (b : FinalBoss) (dt : ℚ) :
    (b.update env dt).hasShield =
      (if b.position.y < 150 then b.hasShield
       else if b.shieldTimer - dt ≤ 0 ∧ b.hasShield = false ∧ 2 ≤ (b.update env dt).bossPhase
         then true else b.hasShield) ∧
    (b.update env dt).shieldTimer =
      (if b.position.y < 150 then b.shieldTimer
       else if b.shieldTimer - dt ≤ 0 ∧ b.hasShield = false ∧ 2 ≤ (b.update env dt).bossPhase
         then 10 else b.shieldTimer - dt) := by
  rw [finalBoss_update_phase]
  unfold FinalBoss.update
  by_cases hy : b.position.y < 150
  · simp only [if_pos hy, and_self]
  · simp only [if_neg hy]
    by_cases ht : b.shieldTimer - dt ≤ 0 <;> by_cases hs : b.hasShield = true <;>
      by_cases h3 : b.health / b.maxHealth ≤ 3 / 10 <;>
      by_cases h6 : b.health / b.maxHealth ≤ 6 / 10 <;>
      by_cases hp : 2 ≤ b.bossPhase <;>
      simp [ht, hs, h3, h6, hp]

theorem finalBoss_takeDamage_shield (b : FinalBoss) (dmg : ℚ) :
    (b.takeDamage dmg).bossPhase = b.bossPhase ∧
    (b.hasShield = false → (b.takeDamage dmg).hasShield = false ∧
      (b.takeDamage dmg).shieldTimer = b.shieldTimer ∧
      (b.takeDamage dmg).health = b.health - dmg) ∧
    (b.hasShield = true → (b.takeDamage dmg).shieldTimer = b.shieldTimer - 2 ∧
      (b.takeDamage dmg).health = b.health - dmg * (3 / 10) ∧
      (b.takeDamage dmg).hasShield = (if b.shieldTimer - 2 ≤ 0 then false else true)) := by
  unfold FinalBoss.takeDamage
  by_cases h : b.hasShield = true <;> simp [h]

theorem finalBoss_attack_shield (env : Env) (b : FinalBoss) :
    (b.getAttackBullets env).2.hasShield = b.hasShield ∧
    (b.getAttackBullets env).2.shieldTimer = b.shieldTimer := by
  unfold FinalBoss.getAttackBullets
  split_ifs <;> exact ⟨rfl, rfl⟩

/-- One call on the boss that leaves it in phase 1 found it in phase 1 and, when the shield was
    off, leaves the shield off. -/
theorem bossOp_apply_phase_one (env : Env) (b : FinalBoss) (op : BossOp)
    (h1 : (BossOp.apply env b op).bossPhase = 1) :
    b.bossPhase = 1 ∧ (b.hasShield = false → (BossOp.apply env b op).hasShield = false) := by
  cases op with
  | update playerPos dt =>
    simp only [BossOp.apply] at h1 ⊢
    have hP := finalBoss_update_phase env (b.setPlayerPosition playerPos) dt
    have hS := (finalBoss_update_shield_eq env (b.setPlayerPosition playerPos) dt).1
    have hph : (b.setPlayerPosition playerPos).bossPhase = b.bossPhase := rfl
    have hsh : (b.setPlayerPosition playerPos).hasShield = b.hasShield := rfl
    constructor
    · rw [hP, hph] at h1
      split_ifs at h1
      · exact h1
      · exact absurd h1 (by decide)
      · exact absurd h1 (by decide)
      · exact h1
    · intro hoff
      rw [hS, h1, hsh, hoff]
      simp
  | takeDamage dmg =>
    simp only [BossOp.apply] at h1 ⊢
    have h := finalBoss_takeDamage_shield b dmg
    exact ⟨h.1 ▸ h1, fun hoff => (h.2.1 hoff).1⟩
  | attack =>
    simp only [BossOp.apply] at h1 ⊢
    have h := finalBoss_attack_health env b
    have h2 := finalBoss_attack_shield env b
    exact ⟨h.2.2 ▸ h1, fun hoff => h2.1.trans hoff⟩

theorem bossOp_run_phase_one (env : Env) (b : FinalBoss) (ops : List BossOp)
    (hoff : b.hasShield = false) (h1 : (BossOp.run env b ops).bossPhase = 1) :
    (BossOp.run env b ops).hasShield = false := by
  induction ops using List.reverseRecOn with
  | nil => exact hoff
  | append_singleton l a ih =>
    have hrun : BossOp.run env b (l ++ [a]) = BossOp.apply env (BossOp.run env b l) a := by
      simp [BossOp.run, List.foldl_append]
    rw [hrun] at h1 ⊢
    have h := bossOp_apply_phase_one env (BossOp.run env b l) a h1
    exact h.2 (ih h.1)

/-- The regeneration rule where the phase logic runs (y >= 150): `FinalBoss.update` switches
    the shield on exactly when the phase it has just recomputed is at least 2, the shield is off
    and the shield timer lowered by dt is at most 0, and it then sets the shield timer to 10. An
    entry step (y < 150) leaves the shield as it is, and along any run of calls that leaves the
    boss in phase 1 a shield that is off stays off. -/
theorem finalBoss_update_shield_rule (env : Env) (b : FinalBoss) (dt : ℚ) (ops : List BossOp) :
    (150 ≤ b.position.y →
      ((b.hasShield = false ∧ (b.update env dt).hasShield = true) ↔
        (2 ≤ (b.update env dt).bossPhase ∧ b.hasShield = false ∧ b.shieldTimer - dt ≤ 0)) ∧
      (b.hasShield = false ∧ (b.update env dt).hasShield = true →
        (b.update env dt).shieldTimer = 10)) ∧
    (b.position.y < 150 → (b.update env dt).hasShield = b.hasShield) ∧
    (b.hasShield = false → (BossOp.run env b ops).bossPhase = 1 →
      (BossOp.run env b ops).hasShield = false) := by
  have hS := finalBoss_update_shield_eq env b dt
  refine ⟨fun hy => ?_, fun hy => ?_, bossOp_run_phase_one env b ops⟩
  · have hy' : ¬ b.position.y < 150 := not_lt.mpr hy
    rw [if_neg hy', if_neg hy'] at hS
    by_cases hc : b.shieldTimer - dt ≤ 0 ∧ b.hasShield = false ∧ 2 ≤ (b.update env dt).bossPhase
    · rw [if_pos hc, if_pos hc] at hS
      exact ⟨⟨fun _ => ⟨hc.2.2, hc.2.1, hc.1⟩, fun _ => ⟨hc.2.1, hS.1⟩⟩, fun _ => hS.2⟩
    · rw [if_neg hc, if_neg hc] at hS
      refine ⟨⟨fun h => ?_, fun h => absurd ⟨h.2.2, h.2.1, h.1⟩ hc⟩, fun h => ?_⟩
      · rw [hS.1, h.1] at h
        exact absurd h.2 (by decide)
      · rw [hS.1, h.1] at h
        exact absurd h.2 (by decide)
  · rw [hS.1, if_pos hy]

theorem unshieldedBoss_facts (h : ℚ) :
    (unshieldedBoss h).bossPhase = 1 ∧ (150 : ℚ) ≤ (unshieldedBoss h).position.y ∧
    (unshieldedBoss h).maxHealth = 500 ∧ (unshieldedBoss h).health = h ∧
    (unshieldedBoss h).hasShield = false ∧ (unshieldedBoss h).shieldTimer = -2 := by
  simp [unshieldedBoss, bossAtHealth, FinalBoss.takeDamage, FinalBoss.new, GameObject.setupSprite,
    GameObject.new, Env.sample]

theorem finalBoss_takeDamage_frame (b : FinalBoss) (dmg : ℚ) :
    (b.takeDamage dmg).position = b.position ∧ (b.takeDamage dmg).maxHealth = b.maxHealth := by
  unfold FinalBoss.takeDamage
  by_cases h : b.hasShield = true <;> simp [h]

theorem reenteredBoss_facts :
    reenteredBoss.bossPhase = 2 ∧ reenteredBoss.position.y = 120 ∧
    reenteredBoss.hasShield = false ∧ reenteredBoss.shieldTimer = 0 := by
  have hf := unshieldedBoss_facts 250
  have hy' : ¬ (unshieldedBoss 250).position.y < 150 := not_lt.mpr hf.2.1
  have hph : ((unshieldedBoss 250).update Env.sample (1 / 60)).bossPhase = 2 := by
    rw [finalBoss_update_phase, if_neg hy', hf.2.2.1, hf.2.2.2.1]
    norm_num
  have hS := finalBoss_update_shield_eq Env.sample (unshieldedBoss 250) (1 / 60)
  have hc : (unshieldedBoss 250).shieldTimer - 1 / 60 ≤ 0 ∧ (unshieldedBoss 250).hasShield = false ∧
      2 ≤ ((unshieldedBoss 250).update Env.sample (1 / 60)).bossPhase :=
    ⟨by rw [hf.2.2.2.2.2]; norm_num, hf.2.2.2.2.1, by rw [hph]⟩
  rw [if_neg hy', if_neg hy', if_pos hc, if_pos hc] at hS
  have hpos : ((unshieldedBoss 250).update Env.sample (1 / 60)).position.y = 120 := by
    have h3 : ¬ (unshieldedBoss 250).health / (unshieldedBoss 250).maxHealth ≤ 3 / 10 := by
      rw [hf.2.2.1, hf.2.2.2.1]; norm_num
    have h6 : (unshieldedBoss 250).health / (unshieldedBoss 250).maxHealth ≤ 6 / 10 := by
      rw [hf.2.2.1, hf.2.2.2.1]; norm_num
    unfold FinalBoss.update
    rw [if_neg hy']
    simp [h3, h6, Env.sample]
    split_ifs <;> rfl
  -- a hit on the shielded boss: two seconds off the shield timer, phase and place unchanged
  have hit : ∀ (b : FinalBoss) (t : ℚ), b.hasShield = true → b.shieldTimer = t →
      b.bossPhase = 2 → b.position.y = 120 →
      (b.takeDamage 15).shieldTimer = t - 2 ∧
      (b.takeDamage 15).hasShield = (if t - 2 ≤ 0 then false else true) ∧
      (b.takeDamage 15).bossPhase = 2 ∧ (b.takeDamage 15).position.y = 120 := by
    intro b t hs ht hp hy
    obtain ⟨k1, _, k3⟩ := finalBoss_takeDamage_shield b 15
    obtain ⟨k4, k5, k6⟩ := k3 hs
    refine ⟨by rw [k4, ht], by rw [k6, ht], by rw [k1, hp], ?_⟩
    rw [(finalBoss_takeDamage_frame b 15).1, hy]
  obtain ⟨a1, a2, a3, a4⟩ := hit _ 10 hS.1 hS.2 hph hpos
  obtain ⟨b1, b2, b3, b4⟩ := hit _ (10 - 2) (by rw [a2]; norm_num) a1 a3 a4
  obtain ⟨c1, c2, c3, c4⟩ := hit _ (10 - 2 - 2) (by rw [b2]; norm_num) b1 b3 b4
  obtain ⟨d1, d2, d3, d4⟩ := hit _ (10 - 2 - 2 - 2) (by rw [c2]; norm_num) c1 c3 c4
  obtain ⟨e1, e2, e3, e4⟩ := hit _ (10 - 2 - 2 - 2 - 2) (by rw [d2]; norm_num) d1 d3 d4
  refine ⟨e3, e4, ?_, ?_⟩
  · show (((((((unshieldedBoss 250).update Env.sample (1 / 60)).takeDamage 15).takeDamage
      15).takeDamage 15).takeDamage 15).takeDamage 15).hasShield = false
    rw [e2]; norm_num
  · show (((((((unshieldedBoss 250).update Env.sample (1 / 60)).takeDamage 15).takeDamage
      15).takeDamage 15).takeDamage 15).takeDamage 15).shieldTimer = 0
    rw [e1]; norm_num

/-- C21 fails on the code. A boss in phase 2 that the phase-2 movement pattern has put at
    y = 120, with the shield off and the shield timer at 0, is updated with dt = 1/60: the update
    is an entry step (y < 150) and returns before the shield regeneration, so the boss is still
    in phase 2 with the shield off and the timer at 0, and the shield has not been turned
    on. -/
theorem shield_not_regenerated_below_entry_line :
    reenteredBoss.bossPhase = 2 ∧ reenteredBoss.hasShield = false ∧
    reenteredBoss.shieldTimer ≤ 0 ∧ reenteredBoss.position.y < 150 ∧
    (reenteredBoss.update Env.sample (1 / 60)).bossPhase = 2 ∧
    (reenteredBoss.update Env.sample (1 / 60)).shieldTimer ≤ 0 ∧
    (reenteredBoss.update Env.sample (1 / 60)).hasShield = false := by
  obtain ⟨f1, f2, f3, f4⟩ := reenteredBoss_facts
  have hy : reenteredBoss.position.y < 150 := by rw [f2]; norm_num
  have hE := (finalBoss_entry_branch Env.sample reenteredBoss (1 / 60) hy).1
  refine ⟨f1, f3, le_of_eq f4, hy, ?_, ?_, ?_⟩
  · rw [hE]; exact f1
  · rw [hE]; exact le_of_eq f4
  · rw [hE]; exact f3

/-! ### The first hit on the boss -/

theorem bossOp_apply_beforeHit (env : Env) (b : FinalBoss) (op : BossOp)
    (h : b.hasShield = true ∧ b.shieldTimer ≤ 0) (hop : op.beforeHit) :
    (BossOp.apply env b op).hasShield = true ∧ (BossOp.apply env b op).shieldTimer ≤ 0 := by
  cases op with
  | update playerPos dt =>
    simp only [BossOp.apply]
    have hdt : 0 ≤ dt := hop
    have hS := finalBoss_update_shield_eq env (b.setPlayerPosition playerPos) dt
    have hsh : (b.setPlayerPosition playerPos).hasShield = b.hasShield := rfl
    have hst : (b.setPlayerPosition playerPos).shieldTimer = b.shieldTimer := rfl
    rw [hsh, hst, h.1] at hS
    rw [hS.1, hS.2]
    simp only [Bool.true_eq_false, false_and, and_false, if_false, ite_self, true_and]
    split_ifs
    · exact h.2
    · linarith [h.2]
  | takeDamage dmg => exact absurd hop id
  | attack =>
    simp only [BossOp.apply]
    have h2 := finalBoss_attack_shield env b
    rw [h2.1, h2.2]
    exact h

/-- C30: a newly created boss that has gone through any run of updates (dt >= 0) and attacks
    without being hit still has its shield, with a shield timer that is at most 0; so the first
    hit is reduced to 30% and removes the shield. After that hit, through any further calls, a
    hit on the boss while the shield is off is taken in full and leaves the shield off, and the
    shield is off as long as the boss is in phase 1. -/
theorem first_hit_removes_shield (env : Env) (ops later : List BossOp) (dmg d : ℚ)
    (hops : ∀ op ∈ ops, op.beforeHit) :
    (BossOp.run env (FinalBoss.new env) ops).hasShield = true ∧
    (BossOp.run env (FinalBoss.new env) ops).shieldTimer ≤ 0 ∧
    ((BossOp.run env (FinalBoss.new env) ops).takeDamage dmg).hasShield = false ∧
    ((BossOp.run env (FinalBoss.new env) ops).takeDamage dmg).health =
      (BossOp.run env (FinalBoss.new env) ops).health - dmg * (3 / 10) ∧
    ((BossOp.run env ((BossOp.run env (FinalBoss.new env) ops).takeDamage dmg) later).hasShield
        = false →
      ((BossOp.run env ((BossOp.run env (FinalBoss.new env) ops).takeDamage dmg) later).takeDamage
          d).health =
        (BossOp.run env ((BossOp.run env (FinalBoss.new env) ops).takeDamage dmg) later).health
          - d ∧
      ((BossOp.run env ((BossOp.run env (FinalBoss.new env) ops).takeDamage dmg) later).takeDamage
          d).hasShield = false) ∧
    ((BossOp.run env ((BossOp.run env (FinalBoss.new env) ops).takeDamage dmg) later).bossPhase
        = 1 →
      (BossOp.run env ((BossOp.run env (FinalBoss.new env) ops).takeDamage dmg) later).hasShield
        = false) := by
  have hinv : (BossOp.run env (FinalBoss.new env) ops).hasShield = true ∧
      (BossOp.run env (FinalBoss.new env) ops).shieldTimer ≤ 0 :=
    foldl_invariant (fun b : FinalBoss => b.hasShield = true ∧ b.shieldTimer ≤ 0)
      (BossOp.apply env) BossOp.beforeHit (bossOp_apply_beforeHit env) ops _
      ⟨(finalBoss_new_facts env).2.2.2.2.1, le_of_eq (finalBoss_new_facts env).2.2.2.2.2.1⟩ hops
  have hhit := (finalBoss_takeDamage_shield (BossOp.run env (FinalBoss.new env) ops) dmg).2.2
    hinv.1
  have hoff : ((BossOp.run env (FinalBoss.new env) ops).takeDamage dmg).hasShield = false := by
    rw [hhit.2.2, if_pos (by linarith [hinv.2])]
  refine ⟨hinv.1, hinv.2, hoff, hhit.2.1, fun hl => ?_, fun h1 => ?_⟩
  · have h := (finalBoss_takeDamage_shield
      (BossOp.run env ((BossOp.run env (FinalBoss.new env) ops).takeDamage dmg) later) d).2.1 hl
    exact ⟨h.2.2, h.1⟩
  · exact bossOp_run_phase_one env _ later hoff h1

/-- C30, for a new boss that is updated twice and attacks once before a hit of 100, and is hit
    again by 40 after one more update: the first hit costs 30 health and removes the shield, the
    second one costs 40. -/
theorem first_hit_removes_shield_witness :
    ((BossOp.run Env.sample (FinalBoss.new Env.sample)
        [.update ⟨0, 0⟩ (5 / 100), .attack, .update ⟨0, 0⟩ (5 / 100)]).takeDamage 100).hasShield
      = false ∧
    ((BossOp.run Env.sample (FinalBoss.new Env.sample)
        [.update ⟨0, 0⟩ (5 / 100), .attack, .update ⟨0, 0⟩ (5 / 100)]).takeDamage 100).health
      = 470 ∧
    ((BossOp.run Env.sample ((BossOp.run Env.sample (FinalBoss.new Env.sample)
        [.update ⟨0, 0⟩ (5 / 100), .attack, .update ⟨0, 0⟩ (5 / 100)]).takeDamage 100)
        [.update ⟨0, 0⟩ (5 / 100)]).takeDamage 40).health = 430 := by
  have h := first_hit_removes_shield Env.sample
    [.update ⟨0, 0⟩ (5 / 100), .attack, .update ⟨0, 0⟩ (5 / 100)] [.update ⟨0, 0⟩ (5 / 100)]
    100 40
    (by
      intro op hop
      simp only [List.mem_cons, List.mem_singleton, List.not_mem_nil, or_false] at hop
      rcases hop with h | h | h <;> subst h <;>
        first
        | exact trivial
        | (show (0 : ℚ) ≤ 5 / 100; norm_num))
  have h0 : (BossOp.run Env.sample (FinalBoss.new Env.sample)
      [.update ⟨0, 0⟩ (5 / 100), .attack, .update ⟨0, 0⟩ (5 / 100)]).health = 500 := by
    simp [BossOp.run, BossOp.apply, finalBoss_update_health, finalBoss_attack_health,
      FinalBoss.setPlayerPosition, finalBoss_new_facts]
  have h1 : ((BossOp.run Env.sample (FinalBoss.new Env.sample)
      [.update ⟨0, 0⟩ (5 / 100), .attack, .update ⟨0, 0⟩ (5 / 100)]).takeDamage 100).health
      = 470 := by
    rw [h.2.2.2.1, h0]; norm_num
  have hm : ((BossOp.run Env.sample (FinalBoss.new Env.sample)
      [.update ⟨0, 0⟩ (5 / 100), .attack, .update ⟨0, 0⟩ (5 / 100)]).takeDamage 100).maxHealth
      = 500 := by
    simp [BossOp.run, BossOp.apply, finalBoss_update_health, finalBoss_attack_health,
      finalBoss_takeDamage_health, FinalBoss.setPlayerPosition, finalBoss_new_facts]
  have hp : ((BossOp.run Env.sample (FinalBoss.new Env.sample)
      [.update ⟨0, 0⟩ (5 / 100), .attack, .update ⟨0, 0⟩ (5 / 100)]).takeDamage 100).bossPhase
      = 1 := by
    simp [BossOp.run, BossOp.apply, finalBoss_update_phase, finalBoss_update_health,
      finalBoss_attack_health, finalBoss_takeDamage_shield,
      FinalBoss.setPlayerPosition, finalBoss_new_facts]
    norm_num
  have hl : (BossOp.run Env.sample ((BossOp.run Env.sample (FinalBoss.new Env.sample)
      [.update ⟨0, 0⟩ (5 / 100), .attack, .update ⟨0, 0⟩ (5 / 100)]).takeDamage 100)
      [.update ⟨0, 0⟩ (5 / 100)]).bossPhase = 1 := by
    have e1 : ∀ (c : FinalBoss) (p : Vector2), (c.setPlayerPosition p).health = c.health :=
      fun _ _ => rfl
    have e2 : ∀ (c : FinalBoss) (p : Vector2), (c.setPlayerPosition p).maxHealth = c.maxHealth :=
      fun _ _ => rfl
    have e3 : ∀ (c : FinalBoss) (p : Vector2), (c.setPlayerPosition p).bossPhase = c.bossPhase :=
      fun _ _ => rfl
    simp only [BossOp.run, List.foldl, BossOp.apply] at h1 hm hp ⊢
    rw [finalBoss_update_phase, e1, e2, e3, h1, hm, hp]
    norm_num
  have hh : (BossOp.run Env.sample ((BossOp.run Env.sample (FinalBoss.new Env.sample)
      [.update ⟨0, 0⟩ (5 / 100), .attack, .update ⟨0, 0⟩ (5 / 100)]).takeDamage 100)
      [.update ⟨0, 0⟩ (5 / 100)]).health = 470 := by
    simp only [BossOp.run, List.foldl, BossOp.apply]
    rw [(finalBoss_update_health _ _ _).1]
    simp only [BossOp.run, List.foldl, BossOp.apply] at h1
    exact h1
  refine ⟨h.2.2.1, h1, ?_⟩
  rw [(h.2.2.2.2.1 (h.2.2.2.2.2 hl)).1, hh]
  norm_num

/-! ### Boss attacks -/

theorem finalBoss_update_pattern (env : Env) (b : FinalBoss) (dt : ℚ) :
    (b.update env dt).attackPattern = b.attackPattern := by
  unfold FinalBoss.update
  simp only
  split_ifs <;> rfl

theorem finalBoss_takeDamage_pattern (b : FinalBoss) (dmg : ℚ) :
    (b.takeDamage dmg).attackPattern = b.attackPattern := by
  unfold FinalBoss.takeDamage
  by_cases h : b.hasShield = true <;> simp [h]

theorem finalBoss_attack_idle (env : Env) (b : FinalBoss) (h : b.ready = false) :
    b.getAttackBullets env = ([], b) := by
  unfold FinalBoss.getAttackBullets
  have h1 : b.attackTimer > 0 ∨ b.position.y < 150 := by
    by_contra hc
    simp [FinalBoss.ready, hc] at h
  rw [if_pos h1]

theorem finalBoss_attack_issue (env : Env) (b : FinalBoss) (h : b.ready = true)
    (hpat : 0 ≤ b.attackPattern) :
    (b.getAttackBullets env).2 =
      { b with attackTimer :=
                 (if b.bossPhase = 1 then 8 / 10 else if b.bossPhase = 2 then 5 / 10
                  else if b.bossPhase = 3 then 3 / 10 else 1),
               attackPattern := (b.attackPattern + 1) % 4 } := by
  unfold FinalBoss.getAttackBullets
  have h1 : ¬ (b.attackTimer > 0 ∨ b.position.y < 150) := by
    intro hc
    simp [FinalBoss.ready, hc] at h
  rw [if_neg h1]
  have hm : Int.tmod (b.attackPattern + 1) 4 = (b.attackPattern + 1) % 4 :=
    Int.tmod_eq_emod (by omega) (by decide)
  simp only [hm]

theorem finalBoss_attack_count (env : Env) (b : FinalBoss) (h : b.ready = true)
    (hpat : 0 ≤ b.attackPattern)
    (hph : b.bossPhase = 1 ∨ b.bossPhase = 2 ∨ b.bossPhase = 3) :
    ((b.getAttackBullets env).1.length : Int) =
      (if (b.attackPattern + 1) % 4 = 0 then 5 + 2 * b.bossPhase
       else if (b.attackPattern + 1) % 4 = 1 then 3
       else if (b.attackPattern + 1) % 4 = 2 then 8 + 4 * b.bossPhase
       else if 2 ≤ b.bossPhase then 3 else 0) := by
  unfold FinalBoss.getAttackBullets
  have h1 : ¬ (b.attackTimer > 0 ∨ b.position.y < 150) := by
    intro hc
    simp [FinalBoss.ready, hc] at h
  rw [if_neg h1]
  have hm : Int.tmod (b.attackPattern + 1) 4 = (b.attackPattern + 1) % 4 :=
    Int.tmod_eq_emod (by omega) (by decide)
  simp only [hm]
  have hr : (b.attackPattern + 1) % 4 = 0 ∨ (b.attackPattern + 1) % 4 = 1 ∨
      (b.attackPattern + 1) % 4 = 2 ∨ (b.attackPattern + 1) % 4 = 3 := by omega
  rcases hr with hr | hr | hr | hr <;> rcases hph with hp | hp | hp <;>
    simp only [hr, hp, List.length_map, List.length_range] <;> rfl

theorem bossOp_apply_pattern (env : Env) (b : FinalBoss) (op : BossOp)
    (hpat : 0 ≤ b.attackPattern ∧ b.attackPattern < 4) :
    (BossOp.apply env b op).attackPattern =
      (b.attackPattern + ((BossOp.issued env b [op] : Nat) : Int)) % 4 := by
  cases op with
  | update playerPos dt =>
    simp only [BossOp.apply, BossOp.issued]
    rw [finalBoss_update_pattern]
    show b.attackPattern = _
    simp only [Nat.cast_zero, add_zero]
    omega
  | takeDamage dmg =>
    simp only [BossOp.apply, BossOp.issued]
    rw [finalBoss_takeDamage_pattern]
    simp only [Nat.cast_zero, add_zero]
    omega
  | attack =>
    simp only [BossOp.apply, BossOp.issued]
    by_cases hr : b.ready = true
    · rw [finalBoss_attack_issue env b hr hpat.1, if_pos hr]
      simp only [add_zero, Nat.cast_one]
    · have hr' : b.ready = false := by simpa using hr
      rw [finalBoss_attack_idle env b hr', if_neg hr]
      simp only [add_zero, Nat.cast_zero]
      omega

theorem bossOp_run_pattern (env : Env) (ops : List BossOp) (b : FinalBoss)
    (hpat : 0 ≤ b.attackPattern ∧ b.attackPattern < 4) :
    (BossOp.run env b ops).attackPattern =
      (b.attackPattern + ((BossOp.issued env b ops : Nat) : Int)) % 4 := by
  induction ops generalizing b with
  | nil =>
    simp only [BossOp.run, List.foldl, BossOp.issued, Nat.cast_zero, add_zero]
    omega
  | cons op ops ih =>
    have h1 := bossOp_apply_pattern env b op hpat
    have hr : 0 ≤ (BossOp.apply env b op).attackPattern ∧
        (BossOp.apply env b op).attackPattern < 4 := by
      rw [h1]; omega
    have h2 := ih (BossOp.apply env b op) hr
    have hrun : BossOp.run env b (op :: ops) = BossOp.run env (BossOp.apply env b op) ops := rfl
    have hiss : BossOp.issued env b (op :: ops) =
        BossOp.issued env b [op] + BossOp.issued env (BossOp.apply env b op) ops := by
      simp only [BossOp.issued, add_zero]
    rw [hrun, h2, h1, hiss]
    push_cast
    omega

/-- C22: `getAttackBullets` returns no bullets and leaves the boss as it is while the attack
    timer is positive or the boss is above y = 150. Otherwise (for a pattern index that is not
    negative and a phase of 1, 2 or 3) it changes only the pattern index, which advances by 1
    modulo 4, and the attack timer, which becomes 0.8, 0.5 or 0.3 in phase 1, 2, 3; it returns
    5 + 2 * phase bullets for pattern 0 (spread), 3 for pattern 1 (aimed), 8 + 4 * phase for
    pattern 2 (circular) and, for pattern 3 (spiral), 3 in phase 2 or 3 and none in phase 1.
    Along any run of calls on the boss the pattern index is the starting index plus the number
    of issued attacks, modulo 4, so four consecutive issued attacks use the four patterns once
    each in cyclic order. -/
theorem attack_bullets (env : Env) (b : FinalBoss) (ops : List BossOp) :
    (b.ready = false → b.getAttackBullets env = ([], b)) ∧
    (b.ready = true → 0 ≤ b.attackPattern →
        (b.bossPhase = 1 ∨ b.bossPhase = 2 ∨ b.bossPhase = 3) →
      (b.getAttackBullets env).2 =
        { b with attackTimer := (if b.bossPhase = 1 then 8 / 10
                                 else if b.bossPhase = 2 then 5 / 10 else 3 / 10),
                 attackPattern := (b.attackPattern + 1) % 4 } ∧
      ((b.getAttackBullets env).1.length : Int) =
        (if (b.attackPattern + 1) % 4 = 0 then 5 + 2 * b.bossPhase
         else if (b.attackPattern + 1) % 4 = 1 then 3
         else if (b.attackPattern + 1) % 4 = 2 then 8 + 4 * b.bossPhase
         else if 2 ≤ b.bossPhase then 3 else 0)) ∧
    (0 ≤ b.attackPattern ∧ b.attackPattern < 4 →
      (BossOp.run env b ops).attackPattern =
        (b.attackPattern + ((BossOp.issued env b ops : Nat) : Int)) % 4) := by
  refine ⟨finalBoss_attack_idle env b, fun hr hpat hph => ⟨?_, ?_⟩,
    bossOp_run_pattern env ops b⟩
  · rw [finalBoss_attack_issue env b hr hpat]
    rcases hph with hp | hp | hp <;> simp [hp]
  · exact finalBoss_attack_count env b hr hpat hph

theorem bossAtHealth_ready (h : ℚ) :
    (bossAtHealth h).ready = true ∧ (bossAtHealth h).attackPattern = 0 := by
  simp [bossAtHealth, FinalBoss.ready, FinalBoss.new, GameObject.setupSprite, GameObject.new,
    Env.sample, SCREEN_WIDTH]

/-- C22, for a full-health boss in the play band with pattern index 0: the first attack uses
    pattern 1, resets the attack timer to 0.8 and returns 3 bullets; a second call right after
    it issues nothing, so the pattern index is still 1. -/
theorem attack_bullets_witness :
    ((bossAtHealth 500).getAttackBullets Env.sample).2.attackPattern = 1 ∧
    ((bossAtHealth 500).getAttackBullets Env.sample).2.attackTimer = 8 / 10 ∧
    ((bossAtHealth 500).getAttackBullets Env.sample).1.length = 3 ∧
    (BossOp.run Env.sample (bossAtHealth 500) [.attack, .attack]).attackPattern = 1 := by
  have h := ((attack_bullets Env.sample (bossAtHealth 500) []).2.1
    (bossAtHealth_ready 500).1 (by rw [(bossAtHealth_ready 500).2])
    (Or.inl (bossAtHealth_facts 500).1))
  have hp := (bossAtHealth_ready 500).2
  have hph := (bossAtHealth_facts 500).1
  have hrun := (attack_bullets Env.sample (bossAtHealth 500) [.attack, .attack]).2.2
    (by rw [hp]; decide)
  refine ⟨?_, ?_, ?_, ?_⟩
  · rw [h.1]; simp [hp]
  · rw [h.1]; simp [hph]
  · have h2 := h.2
    rw [hp] at h2
    simp at h2
    exact_mod_cast h2
  · rw [hrun, hp]
    have hi : BossOp.issued Env.sample (bossAtHealth 500) [.attack, .attack] = 1 := by
      have hnr : ((bossAtHealth 500).getAttackBullets Env.sample).2.ready = false := by
        rw [h.1]
        simp [FinalBoss.ready, hph]
      simp only [BossOp.issued, BossOp.apply, (bossAtHealth_ready 500).1, if_true, add_zero, hnr]
      rfl
    rw [hi]
    decide

/-! ### Phantom visibility -/

theorem enemy_update_phantom (env : Env) (g : Nat) (e : Enemy) (f : ℚ) (v : Bool) (dt : ℚ) :
    Enemy.update env g { e with ext := .phantom f v } dt =
      ({ e.updateBase dt with
          ext := .phantom (if f - dt ≤ 0 then 2 else f - dt) (if f - dt ≤ 0 then !v else v) },
        g) := by
  unfold Enemy.update
  simp only
  split_ifs <;> rfl

/-- C25: two Phantom enemies that differ only in the fade timer and the visibility flag give the
    same answer to `checkCollision` against any object, in both directions, and `takeDamage`
    leaves them with the same health and active flag (indeed still differing only in the fade
    state); the same holds after an update of both: position, velocity, active flag, health
    and the number of random draws do not depend on the fade state. -/
theorem phantom_visibility_cosmetic (env : Env) (e : Enemy) (f1 f2 : ℚ) (v1 v2 : Bool)
    (other : GameObject) (d dt : ℚ) (g : Nat) :
    GameObject.checkCollision env ({ e with ext := .phantom f1 v1 } : Enemy).toGameObject other =
      GameObject.checkCollision env ({ e with ext := .phantom f2 v2 } : Enemy).toGameObject other ∧
    GameObject.checkCollision env other ({ e with ext := .phantom f1 v1 } : Enemy).toGameObject =
      GameObject.checkCollision env other ({ e with ext := .phantom f2 v2 } : Enemy).toGameObject ∧
    (({ e with ext := .phantom f1 v1 } : Enemy).takeDamage d).health =
      (({ e with ext := .phantom f2 v2 } : Enemy).takeDamage d).health ∧
    (({ e with ext := .phantom f1 v1 } : Enemy).takeDamage d).active =
      (({ e with ext := .phantom f2 v2 } : Enemy).takeDamage d).active ∧
    ({ e with ext := .phantom f1 v1 } : Enemy).takeDamage d =
      { ({ e with ext := .phantom f2 v2 } : Enemy).takeDamage d with ext := .phantom f1 v1 } ∧
    (Enemy.update env g { e with ext := .phantom f1 v1 } dt).1.toGameObject =
      (Enemy.update env g { e with ext := .phantom f2 v2 } dt).1.toGameObject ∧
    (Enemy.update env g { e with ext := .phantom f1 v1 } dt).2 =
      (Enemy.update env g { e with ext := .phantom f2 v2 } dt).2 ∧
    (∃ f v, (Enemy.update env g { e with ext := .phantom f1 v1 } dt).1 =
      { (Enemy.update env g { e with ext := .phantom f2 v2 } dt).1 with ext := .phantom f v }) := by
  rw [enemy_update_phantom, enemy_update_phantom]
  exact ⟨rfl, rfl, rfl, rfl, rfl, rfl, rfl, _, _, rfl⟩

/-! ### Monster charge cycle -/

theorem enemy_updateBase_frame (e : Enemy) (dt : ℚ) :
    (e.updateBase dt).ext = e.ext ∧ (e.updateBase dt).velocity = e.velocity := ⟨rfl, rfl⟩

theorem bulletHitsEnemy_boss (env : Env) (st : Bullet × GameState) (e : Enemy) :
    (GameState.bulletHitsEnemy env st e).2.2.boss = st.2.boss := by
  unfold GameState.bulletHitsEnemy
  simp only
  split_ifs <;> rfl

theorem bulletHitsBoss_hit (env : Env) (s : GameState) (b : Bullet) (boss : FinalBoss)
    (hb : s.boss = some boss) (hl : s.isBossLevel = true) (ha : boss.active = true)
    (hit : b.checkCollision env boss.toGameObject = true) :
    GameState.bulletHitsBoss env s b =
      ({ b with active := false },
        GameState.triggerScreenShake
          { s with boss := some (boss.takeDamage (b.damage : ℚ)) } 3 (1 / 10)) := by
  unfold GameState.bulletHitsBoss
  rw [hb]
  simp only
  rw [if_pos ⟨hl, ha, hit⟩]

theorem bulletHitsBoss_miss (env : Env) (s : GameState) (b : Bullet)
    (h : ¬ ∃ boss, s.boss = some boss ∧ s.isBossLevel = true ∧ boss.active = true ∧
      b.checkCollision env boss.toGameObject = true) :
    GameState.bulletHitsBoss env s b = (b, s) := by
  unfold GameState.bulletHitsBoss
  cases hb : s.boss with
  | none => rfl
  | some boss =>
    simp only
    rw [if_neg (fun hc => h ⟨boss, hb, hc.1, hc.2.1, hc.2.2⟩)]

/-- The pass of one bullet over a container of enemies: either it touches no active enemy and
    nothing changes, or the first active enemy it touches takes its damage, the bullet is spent
    and every other enemy is left as it was. -/
theorem forEach_bullet_cases (env : Env) (l : List Enemy) (st : Bullet × GameState) :
    ((∀ x ∈ l, ¬ (x.active = true ∧ st.1.checkCollision env x.toGameObject = true)) ∧
      forEach (GameState.bulletHitsEnemy env) l st = (l, st)) ∨
    (∃ pre e post, l = pre ++ e :: post ∧
      (∀ x ∈ pre, ¬ (x.active = true ∧ st.1.checkCollision env x.toGameObject = true)) ∧
      e.active = true ∧ st.1.checkCollision env e.toGameObject = true ∧
      (forEach (GameState.bulletHitsEnemy env) l st).1 =
        pre ++ e.takeDamage (st.1.damage : ℚ) :: post ∧
      (forEach (GameState.bulletHitsEnemy env) l st).2.1 = { st.1 with active := false }) := by
  induction l with
  | nil => exact Or.inl ⟨fun x hx => absurd hx (List.not_mem_nil x), rfl⟩
  | cons a as ih =>
    by_cases ha : a.active = true ∧ st.1.checkCollision env a.toGameObject = true
    · right
      obtain ⟨k1, k2, _, _⟩ := bulletHitsEnemy_hit env st a ha.1 ha.2
      have hspent : ∀ x ∈ as, ¬ (x.active = true ∧
          (GameState.bulletHitsEnemy env st a).2.1.checkCollision env x.toGameObject = true) := by
        intro x _ hx
        rw [k2, checkCollision_inactive env _ _ rfl] at hx
        exact Bool.noConfusion hx.2
      have hrest := forEach_bullet_miss env as (GameState.bulletHitsEnemy env st a).2 hspent
      refine ⟨[], a, as, rfl, fun x hx => absurd hx (List.not_mem_nil x), ha.1, ha.2, ?_, ?_⟩
      · show (GameState.bulletHitsEnemy env st a).1 ::
          (forEach (GameState.bulletHitsEnemy env) as (GameState.bulletHitsEnemy env st a).2).1 = _
        rw [hrest, k1]
        rfl
      · show (forEach (GameState.bulletHitsEnemy env) as
          (GameState.bulletHitsEnemy env st a).2).2.1 = _
        rw [hrest, k2]
    · have hmiss := bulletHitsEnemy_miss env st a ha
      have hstep : forEach (GameState.bulletHitsEnemy env) (a :: as) st =
          (a :: (forEach (GameState.bulletHitsEnemy env) as st).1,
            (forEach (GameState.bulletHitsEnemy env) as st).2) := by
        show ((GameState.bulletHitsEnemy env st a).1 ::
          (forEach (GameState.bulletHitsEnemy env) as (GameState.bulletHitsEnemy env st a).2).1,
          (forEach (GameState.bulletHitsEnemy env) as (GameState.bulletHitsEnemy env st a).2).2)
          = _
        rw [hmiss]
      rcases ih with ⟨hall, heq⟩ | ⟨pre, e, post, hl, hpre, he, hit, h1, h2⟩
      · left
        refine ⟨?_, ?_⟩
        · intro x hx
          rcases List.mem_cons.mp hx with rfl | hx
          · exact ha
          · exact hall x hx
        · rw [hstep, heq]
      · right
        refine ⟨a :: pre, e, post, by rw [hl]; rfl, ?_, he, hit, ?_, ?_⟩
        · intro x hx
          rcases List.mem_cons.mp hx with rfl | hx
          · exact ha
          · exact hpre x hx
        · rw [hstep, h1]
          rfl
        · rw [hstep]
          exact h2

/-- C28: in the collision pass a projectile is spent by its first hit and damages at most one
    target. A projectile that is not active is skipped by both projectile loops. An active
    player projectile that touches the active boss of a boss level damages the boss, is
    deactivated, and leaves every enemy as it was. One that does not touch the boss leaves the
    boss as it was and either touches no active enemy and changes nothing, or damages the first
    active enemy it touches, is deactivated, and leaves every other enemy of the container as
    it was, whatever else overlaps it. An active enemy or boss projectile that touches the
    player damages the player and is deactivated; one that does not changes nothing. -/
theorem projectile_spent_on_first_hit (env : Env) (s : GameState) (b : Bullet) :
    (b.active = false →
      GameState.playerBulletStep env s b = (b, s) ∧
      GameState.enemyBulletStep env s b = (b, s)) ∧
    (b.active = true → b.fromPlayer = true →
      ∀ boss, s.boss = some boss → s.isBossLevel = true → boss.active = true →
        b.checkCollision env boss.toGameObject = true →
        (GameState.playerBulletStep env s b).1.active = false ∧
        (GameState.playerBulletStep env s b).2.enemies = s.enemies ∧
        (GameState.playerBulletStep env s b).2.boss = some (boss.takeDamage (b.damage : ℚ))) ∧
    (b.active = true → b.fromPlayer = true →
      (¬ ∃ boss, s.boss = some boss ∧ s.isBossLevel = true ∧ boss.active = true ∧
        b.checkCollision env boss.toGameObject = true) →
      (GameState.playerBulletStep env s b).2.boss = s.boss ∧
      (((∀ x ∈ s.enemies, ¬ (x.active = true ∧ b.checkCollision env x.toGameObject = true)) ∧
          GameState.playerBulletStep env s b = (b, s)) ∨
        (∃ pre e post, s.enemies = pre ++ e :: post ∧
          (∀ x ∈ pre, ¬ (x.active = true ∧ b.checkCollision env x.toGameObject = true)) ∧
          e.active = true ∧ b.checkCollision env e.toGameObject = true ∧
          (GameState.playerBulletStep env s b).1.active = false ∧
          (GameState.playerBulletStep env s b).2.enemies =
            pre ++ e.takeDamage (b.damage : ℚ) :: post))) ∧
    (b.active = true → b.fromPlayer = false →
      (b.checkCollision env s.player.toGameObject = true →
        (GameState.enemyBulletStep env s b).1.active = false ∧
        (GameState.enemyBulletStep env s b).2.player =
          s.player.takeDamage ((b.damage : ℚ) * s.difficulty)) ∧
      (b.checkCollision env s.player.toGameObject = false →
        GameState.enemyBulletStep env s b = (b, s))) := by
  refine ⟨fun hb => ?_, fun hb hfp boss hboss hl ha hit => ?_, fun hb hfp hno => ?_,
    fun hb hfp => ⟨fun hit => ?_, fun hmiss => ?_⟩⟩
  · constructor
    · unfold GameState.playerBulletStep
      simp [hb]
    · unfold GameState.enemyBulletStep
      simp [hb]
  · have hguard : ¬ ((!b.active || !b.fromPlayer) = true) := by simp [hb, hfp]
    have hB := bulletHitsBoss_hit env s b boss hboss hl ha hit
    have hspent : ∀ x ∈ (GameState.bulletHitsBoss env s b).2.enemies, ¬ (x.active = true ∧
        (GameState.bulletHitsBoss env s b).1.checkCollision env x.toGameObject = true) := by
      intro x _ hx
      rw [hB, checkCollision_inactive env _ _ rfl] at hx
      exact Bool.noConfusion hx.2
    have hrest := forEach_bullet_miss env _ (GameState.bulletHitsBoss env s b) hspent
    unfold GameState.playerBulletStep
    rw [if_neg hguard]
    simp only
    rw [hrest, hB]
    exact ⟨rfl, rfl, rfl⟩
  · have hguard : ¬ ((!b.active || !b.fromPlayer) = true) := by simp [hb, hfp]
    have hB := bulletHitsBoss_miss env s b hno
    have hstep : GameState.playerBulletStep env s b =
        ((forEach (GameState.bulletHitsEnemy env) s.enemies (b, s)).2.1,
          { (forEach (GameState.bulletHitsEnemy env) s.enemies (b, s)).2.2 with
            enemies := (forEach (GameState.bulletHitsEnemy env) s.enemies (b, s)).1 }) := by
      unfold GameState.playerBulletStep
      rw [if_neg hguard]
      simp only
      rw [hB]
    have hboss : (forEach (GameState.bulletHitsEnemy env) s.enemies (b, s)).2.2.boss = s.boss :=
      forEach_frame (fun st : Bullet × GameState => st.2.boss) _ (bulletHitsEnemy_boss env) _ _
    refine ⟨by rw [hstep]; exact hboss, ?_⟩
    rcases forEach_bullet_cases env s.enemies (b, s) with
      ⟨hall, heq⟩ | ⟨pre, e, post, hl, hpre, he, hit, h1, h2⟩
    · left
      refine ⟨hall, ?_⟩
      rw [hstep, heq]
    · right
      refine ⟨pre, e, post, hl, hpre, he, hit, ?_, ?_⟩
      · rw [hstep]
        show (forEach (GameState.bulletHitsEnemy env) s.enemies (b, s)).2.1.active = false
        rw [h2]
      · rw [hstep]
        exact h1
  · have hguard : ¬ ((!b.active || b.fromPlayer) = true) := by simp [hb, hfp]
    unfold GameState.enemyBulletStep
    rw [if_neg hguard, if_pos hit]
    exact ⟨rfl, rfl⟩
  · have hguard : ¬ ((!b.active || b.fromPlayer) = true) := by simp [hb, hfp]
    unfold GameState.enemyBulletStep
    rw [if_neg hguard, if_neg (by rw [hmiss]; exact Bool.noConfusion)]

/-- C28, for a player projectile of damage 15 lying on two overlapping enemies: it is spent, the
    first enemy takes the damage and the second one is untouched. -/
theorem projectile_spent_on_first_hit_witness :
    (GameState.playerBulletStep Env.sample overlapScene sampleShot).1.active = false ∧
    (GameState.playerBulletStep Env.sample overlapScene sampleShot).2.enemies =
      [sampleTarget.takeDamage 15, sampleTarget] := by
  have h := (projectile_spent_on_first_hit Env.sample overlapScene sampleShot).2.2.1
    sampleShot_hits.1 sampleShot_hits.2.1
    (fun ⟨_, hb, _⟩ => Option.noConfusion hb)
  have hen : overlapScene.enemies = [sampleTarget, sampleTarget] := rfl
  rcases h.2 with ⟨hall, _⟩ | ⟨pre, e, post, hl, hpre, he, hit, h1, h2⟩
  · exact absurd ⟨sampleTarget_facts.1, sampleShot_hits.2.2.2⟩
      (hall sampleTarget (by rw [hen]; exact List.mem_cons_self _ _))
  · rw [hen] at hl
    cases pre with
    | nil =>
      have hl1 : sampleTarget = e ∧ [sampleTarget] = post := by
        simpa using hl
      refine ⟨h1, ?_⟩
      rw [h2, ← hl1.1, ← hl1.2, sampleShot_hits.2.2.1]
      simp
    | cons a pre1 =>
      have ha : sampleTarget = a := by
        have := List.head_eq_of_cons_eq hl
        exact this
      exact absurd ⟨sampleTarget_facts.1, sampleShot_hits.2.2.2⟩
        (ha ▸ hpre a (List.mem_cons_self _ _))

/-! ### Lives -/

theorem spaceship_update_vitals (p : Spaceship) (dt : ℚ) :
    (p.update dt).lives = p.lives ∧ (p.update dt).health = p.health ∧
    (p.update dt).maxHealth = p.maxHealth ∧ (p.update dt).hasShield = p.hasShield ∧
    (p.update dt).shield = p.shield ∧
    ((p.update dt).isInvincible = true →
      p.isInvincible = true ∧
      (p.update dt).invincibilityTimer = fl32 (p.invincibilityTimer - dt) ∧
      0 < p.invincibilityTimer - dt) := by
  have hs := fl32_nonpos_iff (p.invincibilityTimer - dt)
  unfold Spaceship.update GameObject.update
  simp only
  by_cases hi : p.isInvincible = true <;> by_cases ht : p.invincibilityTimer - dt ≤ 0 <;>
    by_cases hc : p.combo > 0 <;> simp [hi, ht, hc, hs] <;> linarith

/-- A run of `n` updates by `d` leaves lives, health and shield alone. A player whose
    invincibility timer is at most 4 and who is still invincible after the run has been so
    throughout, and `n * d` has been taken off the timer up to a rounding error of at most
    2^-22 in every update. -/
theorem shipOp_run_wait (n : Nat) (d : ℚ) (p : Spaceship) :
    (ShipOp.run p (List.replicate n (.update d))).lives = p.lives ∧
    (ShipOp.run p (List.replicate n (.update d))).health = p.health ∧
    (ShipOp.run p (List.replicate n (.update d))).maxHealth = p.maxHealth ∧
    (ShipOp.run p (List.replicate n (.update d))).hasShield = p.hasShield ∧
    (ShipOp.run p (List.replicate n (.update d))).shield = p.shield ∧
    (0 ≤ d → p.invincibilityTimer ≤ 4 →
      (ShipOp.run p (List.replicate n (.update d))).isInvincible = true →
      p.isInvincible = true ∧
      (0 < p.invincibilityTimer - n * d + (n : ℚ) / 4194304 ∨ n = 0)) := by
  induction n generalizing p with
  | zero => exact ⟨rfl, rfl, rfl, rfl, rfl, fun _ _ h => ⟨h, Or.inr rfl⟩⟩
  | succ n ih =>
    have hrun : ShipOp.run p (List.replicate (n + 1) (.update d)) =
        ShipOp.run (p.update d) (List.replicate n (.update d)) := rfl
    rw [hrun]
    obtain ⟨h1, h2, h3, h4, h5, h6⟩ := ih (p.update d)
    obtain ⟨u1, u2, u3, u4, u5, u6⟩ := spaceship_update_vitals p d
    refine ⟨h1.trans u1, h2.trans u2, h3.trans u3, h4.trans u4, h5.trans u5,
      fun hd h4le hinv => ?_⟩
    by_cases hstep : (p.update d).isInvincible = true
    · obtain ⟨v1, v2, v3⟩ := u6 hstep
      have hle : (p.update d).invincibilityTimer ≤ 4 := by
        rw [v2]
        have := fl32_le_zpow (p.invincibilityTimer - d) 2 (by norm_num; linarith)
        norm_num at this
        exact this
      have herr : |(p.update d).invincibilityTimer - (p.invincibilityTimer - d)| ≤
          1 / 4194304 := by
        rw [v2]
        have e1 := fl32_error (p.invincibilityTimer - d)
        rw [abs_of_pos v3] at e1
        have e2 : (p.invincibilityTimer - d) / 2 ^ (24 : ℕ) ≤ 1 / 4194304 := by
          rw [div_le_iff₀ (by norm_num)]
          norm_num
          linarith
        exact le_trans e1 e2
      rw [abs_le] at herr
      obtain ⟨_, k2⟩ := h6 hd hle hinv
      refine ⟨v1, Or.inl ?_⟩
      have hsplit : (((n + 1 : ℕ) : ℚ)) / 4194304 = (n : ℚ) / 4194304 + 1 / 4194304 := by
        push_cast
        ring
      rcases k2 with h | h
      · rw [hsplit]
        push_cast
        linarith [herr.1, herr.2]
      · subst h
        norm_num
        linarith
    · exfalso
      apply hstep
      have hnot : ∀ (m : Nat) (q : Spaceship), q.isInvincible ≠ true →
          (ShipOp.run q (List.replicate m (.update d))).isInvincible ≠ true := by
        intro m
        induction m with
        | zero => exact fun q hq => hq
        | succ m ihm =>
          intro q hq
          have hr : ShipOp.run q (List.replicate (m + 1) (.update d)) =
              ShipOp.run (q.update d) (List.replicate m (.update d)) := rfl
          rw [hr]
          exact ihm _ (fun hc => hq ((spaceship_update_vitals q d).2.2.2.2.2 hc).1)
      by_contra hc
      exact hnot n _ hc hinv

theorem float005_nonneg : 0 ≤ float005 := by
  rw [float005_eq]
  norm_num

theorem spaceship_takeDamage_fatal (p : Spaceship) (dmg : ℚ) (hi : p.isInvincible = false)
    (hs : p.hasShield = false) (hh : p.health - dmg ≤ 0) :
    (p.takeDamage dmg).lives = p.lives - 1 ∧
    (p.takeDamage dmg).hasShield = false ∧
    (p.takeDamage dmg).maxHealth = p.maxHealth ∧
    (1 < p.lives → (p.takeDamage dmg).health = p.maxHealth ∧
      (p.takeDamage dmg).isInvincible = true ∧ (p.takeDamage dmg).invincibilityTimer = 3) ∧
    (p.lives ≤ 1 → (p.takeDamage dmg).health = p.health - dmg ∧
      (p.takeDamage dmg).isInvincible = false) := by
  unfold Spaceship.takeDamage
  by_cases hl : p.lives - 1 > 0
  · have h1 : 1 < p.lives := by omega
    simp [hi, hs, hh, hl, h1]
  · have h1 : p.lives ≤ 1 := by omega
    simp [hi, hs, hh, hl, h1]

/-- A fatal hit of 100 on a player with full health 100 and more than one life, followed by
    seventy ticks of 0.05f: one life less, full health again, and the invincibility is over. -/
theorem shipOp_life_lost (p : Spaceship) (hi : p.isInvincible = false)
    (hs : p.hasShield = false) (hh : p.health = 100) (hm : p.maxHealth = 100)
    (hl : 1 < p.lives) :
    (ShipOp.run (p.takeDamage 100) invincibilityWait).isInvincible = false ∧
    (ShipOp.run (p.takeDamage 100) invincibilityWait).hasShield = false ∧
    (ShipOp.run (p.takeDamage 100) invincibilityWait).health = 100 ∧
    (ShipOp.run (p.takeDamage 100) invincibilityWait).maxHealth = 100 ∧
    (ShipOp.run (p.takeDamage 100) invincibilityWait).lives = p.lives - 1 := by
  obtain ⟨t1, t2, t3, t4, _⟩ := spaceship_takeDamage_fatal p 100 hi hs (by rw [hh]; norm_num)
  obtain ⟨t5, t6, t7⟩ := t4 hl
  obtain ⟨w1, w2, w3, w4, _, w6⟩ := shipOp_run_wait 70 float005 (p.takeDamage 100)
  unfold invincibilityWait
  refine ⟨?_, w4.trans t2, by rw [w2, t5, hm], by rw [w3, t3, hm], by rw [w1, t1]⟩
  by_contra hc
  have hinv : (ShipOp.run (p.takeDamage 100)
      (List.replicate 70 (.update float005))).isInvincible = true := by
    simpa using hc
  rcases (w6 float005_nonneg (by rw [t7]; norm_num) hinv).2 with h | h
  · rw [t7, float005_eq] at h
    norm_num at h
  · exact absurd h (by decide)

theorem spaceship_reset_facts (env : Env) :
    ((Spaceship.new env).reset).isInvincible = false ∧
    ((Spaceship.new env).reset).hasShield = false ∧
    ((Spaceship.new env).reset).health = 100 ∧
    ((Spaceship.new env).reset).maxHealth = 100 ∧
    ((Spaceship.new env).reset).lives = 3 := by
  unfold Spaceship.reset Spaceship.new GameObject.setupSprite PLAYER_MAX_HEALTH
  cases env.textureWidth "spaceship" <;> exact ⟨rfl, rfl, rfl, rfl, rfl⟩

theorem fourFatalHits_run (p : Spaceship) :
    ShipOp.run p fourFatalHits =
      ((ShipOp.run ((ShipOp.run (p.takeDamage 100) invincibilityWait).takeDamage 100)
        invincibilityWait).takeDamage 100).takeDamage 100 := by
  simp only [fourFatalHits, ShipOp.run, List.foldl_append, List.foldl_cons, List.foldl_nil,
    ShipOp.apply]

/-- C29 fails as stated: from `reset` (3 lives, health 100), three fatal hits of 100, the first
    two each followed by a wait of seventy ticks of 0.05f that outlasts the three seconds of
    invincibility, bring the lives to 0; a fourth hit in the same collision pass as the third
    lowers them to -1. -/
theorem lives_negative_counterexample :
    (∀ op ∈ fourFatalHits, op.ok) ∧
    (ShipOp.run ((Spaceship.new Env.sample).reset) fourFatalHits).lives = -1 := by
  constructor
  · intro op hop
    simp only [fourFatalHits, invincibilityWait, List.mem_append, List.mem_replicate,
      List.mem_cons, List.mem_singleton, List.not_mem_nil, or_false] at hop
    rcases hop with (((h | h) | h) | h) | h | h
    · subst h; show (0 : ℚ) ≤ 100; norm_num
    · rw [h.2]; exact float005_nonneg
    · subst h; show (0 : ℚ) ≤ 100; norm_num
    · rw [h.2]; exact float005_nonneg
    · subst h; show (0 : ℚ) ≤ 100; norm_num
    · subst h; show (0 : ℚ) ≤ 100; norm_num
  · obtain ⟨r1, r2, r3, r4, r5⟩ := spaceship_reset_facts Env.sample
    obtain ⟨a1, a2, a3, a4, a5⟩ :=
      shipOp_life_lost _ r1 r2 r3 r4 (by rw [r5]; decide)
    obtain ⟨b1, b2, b3, b4, b5⟩ :=
      shipOp_life_lost _ a1 a2 a3 a4 (by rw [a5, r5]; decide)
    obtain ⟨c1, c2, _, _, c5⟩ := spaceship_takeDamage_fatal _ 100 b1 b2 (by rw [b3]; norm_num)
    obtain ⟨c6, c7⟩ := c5 (by rw [b5, a5, r5]; decide)
    obtain ⟨d1, _⟩ := spaceship_takeDamage_fatal _ 100 c7 c2 (by rw [c6, b3]; norm_num)
    rw [fourFatalHits_run, d1, c1, b5, a5, r5]
    decide

theorem spaceship_takeDamage_lives (p : Spaceship) (dmg : ℚ) :
    (p.takeDamage dmg).lives = p.lives ∨ (p.takeDamage dmg).lives = p.lives - 1 := by
  unfold Spaceship.takeDamage
  simp only
  split_ifs <;> first | exact Or.inl rfl | exact Or.inr rfl

theorem shipOp_apply_lives (p : Spaceship) (op : ShipOp) :
    p.lives - 1 ≤ (ShipOp.apply p op).lives ∧
    ((∀ dmg, op ≠ .takeDamage dmg) → p.lives ≤ (ShipOp.apply p op).lives) := by
  cases op with
  | update dt =>
    simp only [ShipOp.apply]
    rw [(spaceship_update_vitals p dt).1]
    exact ⟨by omega, fun _ => le_refl _⟩
  | takeDamage dmg =>
    simp only [ShipOp.apply]
    refine ⟨?_, fun h => absurd rfl (h dmg)⟩
    rcases spaceship_takeDamage_lives p dmg with h | h <;> omega
  | addScore points =>
    exact ⟨by show p.lives - 1 ≤ p.lives; omega, fun _ => le_refl _⟩
  | applyPowerUp type =>
    simp only [ShipOp.apply]
    cases type <;> simp only [Spaceship.applyPowerUp] <;> constructor <;> intros <;> omega
  | setVelocity v =>
    exact ⟨by show p.lives - 1 ≤ p.lives; omega, fun _ => le_refl _⟩

theorem shipOp_guarded_lives (ops : List ShipOp) (p : Spaceship) (h0 : 0 ≤ p.lives)
    (h : ShipOp.guarded p ops) : 0 ≤ (ShipOp.run p ops).lives := by
  induction ops generalizing p with
  | nil => exact h0
  | cons op ops ih =>
    obtain ⟨_, hg, hrest⟩ := h
    have hrun : ShipOp.run p (op :: ops) = ShipOp.run (ShipOp.apply p op) ops := rfl
    rw [hrun]
    refine ih _ ?_ hrest
    have hl := shipOp_apply_lives p op
    cases op with
    | takeDamage dmg =>
      have h1 : 1 ≤ p.lives := hg
      have := hl.1
      omega
    | update dt => exact le_trans h0 (hl.2 (fun _ hc => ShipOp.noConfusion hc))
    | addScore points => exact le_trans h0 (hl.2 (fun _ hc => ShipOp.noConfusion hc))
    | applyPowerUp type => exact le_trans h0 (hl.2 (fun _ hc => ShipOp.noConfusion hc))
    | setVelocity v => exact le_trans h0 (hl.2 (fun _ hc => ShipOp.noConfusion hc))

/-- C29, amended: along any run of update, takeDamage (damage >= 0), addScore and applyPowerUp
    calls from `reset()` in which every takeDamage call is made while the player has at least
    one life, the lives counter is never negative. In any state a call lowers the counter by
    at most one, and only takeDamage lowers it; so the counter turns negative only by a hit
    taken with no life left. -/
theorem lives_nonnegative_while_alive (p : Spaceship) (ops : List ShipOp) (q : Spaceship)
    (op : ShipOp) (h : ShipOp.guarded p.reset ops) :
    0 ≤ (ShipOp.run p.reset ops).lives ∧
    q.lives - 1 ≤ (ShipOp.apply q op).lives ∧
    ((∀ dmg, op ≠ .takeDamage dmg) → q.lives ≤ (ShipOp.apply q op).lives) :=
  ⟨shipOp_guarded_lives ops p.reset (by show (0 : Int) ≤ 3; decide) h,
    shipOp_apply_lives q op⟩

/-- C29 amended, for a fatal hit of 100 on a player just reset, followed by a tick and an
    extra-life pick-up. -/
theorem lives_nonnegative_while_alive_witness :
    0 ≤ (ShipOp.run ((Spaceship.new Env.sample).reset)
      [.takeDamage 100, .update (5 / 100), .applyPowerUp .Lives]).lives :=
  (lives_nonnegative_while_alive (Spaceship.new Env.sample)
    [.takeDamage 100, .update (5 / 100), .applyPowerUp .Lives]
    (Spaceship.new Env.sample) (.update 0)
    ⟨by show (0 : ℚ) ≤ 100; norm_num,
      by show (1 : Int) ≤ ((Spaceship.new Env.sample).reset).lives
         rw [(spaceship_reset_facts Env.sample).2.2.2.2]; decide,
      by show (0 : ℚ) ≤ 5 / 100; norm_num, trivial, trivial, trivial, trivial⟩).1

/-! ### Player volleys -/

/-- The damages of the bullets of a volley, by multi-shot level and power level. -/
theorem volley_damages (env : Env) (p : Spaceship) :
    (GameState.volley env p).map (fun b => b.damage) =
      (if p.multiShotLevel = 1 then [10 + p.powerLevel * 5]
       else if p.multiShotLevel = 2 then [10 + p.powerLevel * 4, 10 + p.powerLevel * 4]
       else if p.multiShotLevel = 3 then
         [10 + p.powerLevel * 5, 8 + p.powerLevel * 3, 8 + p.powerLevel * 3]
       else if p.multiShotLevel ≥ 4 then
         [10 + p.powerLevel * 5, 8 + p.powerLevel * 3, 8 + p.powerLevel * 3,
           6 + p.powerLevel * 2, 6 + p.powerLevel * 2]
       else []) := by
  unfold GameState.volley
  simp only
  by_cases h1 : p.multiShotLevel = 1
  · rw [if_pos h1, if_pos h1]; rfl
  · rw [if_neg h1, if_neg h1]
    by_cases h2 : p.multiShotLevel = 2
    · rw [if_pos h2, if_pos h2]; rfl
    · rw [if_neg h2, if_neg h2]
      by_cases h3 : p.multiShotLevel = 3
      · have h4 : ¬ p.multiShotLevel ≥ 4 := by omega
        rw [if_pos (by omega : p.multiShotLevel ≥ 3), if_pos h3, if_neg h4]; rfl
      · rw [if_neg h3]
        by_cases h4 : p.multiShotLevel ≥ 4
        · rw [if_pos (by omega : p.multiShotLevel ≥ 3), if_pos h4, if_pos h4]; rfl
        · rw [if_neg (by omega : ¬ p.multiShotLevel ≥ 3), if_neg h4]; rfl

theorem firePlayerBullets_bullets (env : Env) (s : GameState) :
    (s.player.canFire = true →
      (GameState.firePlayerBullets env s).bullets = s.bullets ++ GameState.volley env s.player ∧
      (GameState.firePlayerBullets env s).player = s.player.resetFireTimer) ∧
    (s.player.canFire = false → GameState.firePlayerBullets env s = s) := by
  constructor
  · intro h
    unfold GameState.firePlayerBullets
    rw [if_neg (by simp [h])]
    exact ⟨rfl, rfl⟩
  · intro h
    unfold GameState.firePlayerBullets
    rw [if_pos (by simp [h])]

theorem volley_length (env : Env) (p : Spaceship) :
    (GameState.volley env p).length =
      (if p.multiShotLevel = 1 then 1 else if p.multiShotLevel = 2 then 2
       else if p.multiShotLevel = 3 then 3 else if p.multiShotLevel ≥ 4 then 5 else 0) := by
  have h := congrArg List.length (volley_damages env p)
  rw [List.length_map] at h
  rw [h]
  split_ifs <;> rfl

/-- C23 fails as stated: at power level 1 the volley of multi-shot level 3 has more bullets
    (3) than the volley of level 2 (2), but its centre bullet deals 15, which is not less than
    the 14 of the bullets of the pair. -/
theorem volley_damage_counterexample :
    (GameState.volley Env.sample (shipAt 1 2)).length = 2 ∧
    (GameState.volley Env.sample (shipAt 1 3)).length = 3 ∧
    ¬ (∀ b ∈ GameState.volley Env.sample (shipAt 1 3),
        ∀ c ∈ GameState.volley Env.sample (shipAt 1 2), b.damage < c.damage) := by
  have h2 := volley_damages Env.sample (shipAt 1 2)
  have h3 := volley_damages Env.sample (shipAt 1 3)
  have e2 : (shipAt 1 2).multiShotLevel = 2 := rfl
  have e3 : (shipAt 1 3).multiShotLevel = 3 := rfl
  have p2 : (shipAt 1 2).powerLevel = 1 := rfl
  have p3 : (shipAt 1 3).powerLevel = 1 := rfl
  refine ⟨by rw [volley_length, e2]; rfl, by rw [volley_length, e3]; rfl, fun hall => ?_⟩
  rw [e2, p2] at h2
  rw [e3, p3] at h3
  have m3 : (15 : Int) ∈ (GameState.volley Env.sample (shipAt 1 3)).map (fun b => b.damage) := by
    rw [h3]; decide
  have m2 : (14 : Int) ∈ (GameState.volley Env.sample (shipAt 1 2)).map (fun b => b.damage) := by
    rw [h2]; decide
  obtain ⟨b, hb, hbd⟩ := List.mem_map.mp m3
  obtain ⟨c, hc, hcd⟩ := List.mem_map.mp m2
  have hlt := hall b hb c hc
  have hbd1 : b.damage = 15 := hbd
  have hcd1 : c.damage = 14 := hcd
  omega

/-- C23, amended: `firePlayerBullets` adds the volley of the player when the player can fire and
    does nothing otherwise. For a power level within 1..5 the volley has 1, 2, 3, 5 bullets at
    multi-shot level 1, 2, 3, 4-or-5, with damages [10+5p], [10+4p, 10+4p],
    [10+5p, 8+3p, 8+3p] and [10+5p, 8+3p, 8+3p, 6+2p, 6+2p]. Of two volleys at the same power
    level, the one with more bullets contains a bullet that deals strictly less damage than
    every bullet of the one with fewer bullets (the weakest bullet gets weaker as the shot
    count increases), while from multi-shot level 3 on the centre bullet keeps the damage
    10 + 5p of the single shot. -/
theorem volley_weakest_bullet (env : Env) (s : GameState) (p q : Spaceship)
    (hpow : 1 ≤ p.powerLevel ∧ p.powerLevel ≤ 5) (hsame : q.powerLevel = p.powerLevel)
    (hp : 1 ≤ p.multiShotLevel ∧ p.multiShotLevel ≤ 5)
    (hq : 1 ≤ q.multiShotLevel ∧ q.multiShotLevel ≤ 5) :
    ((s.player.canFire = true →
        (GameState.firePlayerBullets env s).bullets =
          s.bullets ++ GameState.volley env s.player) ∧
      (s.player.canFire = false → GameState.firePlayerBullets env s = s)) ∧
    (GameState.volley env p).length =
      (if p.multiShotLevel = 1 then 1 else if p.multiShotLevel = 2 then 2
       else if p.multiShotLevel = 3 then 3 else 5) ∧
    (GameState.volley env p).map (fun b => b.damage) =
      (if p.multiShotLevel = 1 then [10 + p.powerLevel * 5]
       else if p.multiShotLevel = 2 then [10 + p.powerLevel * 4, 10 + p.powerLevel * 4]
       else if p.multiShotLevel = 3 then
         [10 + p.powerLevel * 5, 8 + p.powerLevel * 3, 8 + p.powerLevel * 3]
       else [10 + p.powerLevel * 5, 8 + p.powerLevel * 3, 8 + p.powerLevel * 3,
           6 + p.powerLevel * 2, 6 + p.powerLevel * 2]) ∧
    ((GameState.volley env p).length < (GameState.volley env q).length →
      ∃ b ∈ GameState.volley env q, ∀ c ∈ GameState.volley env p, b.damage < c.damage) ∧
    (3 ≤ q.multiShotLevel →
      ∃ b ∈ GameState.volley env q, b.damage = 10 + q.powerLevel * 5) := by
  have hF := firePlayerBullets_bullets env s
  have hLp := volley_length env p
  have hLq := volley_length env q
  have hDp := volley_damages env p
  have hDq := volley_damages env q
  have mp : p.multiShotLevel = 1 ∨ p.multiShotLevel = 2 ∨ p.multiShotLevel = 3 ∨
      p.multiShotLevel = 4 ∨ p.multiShotLevel = 5 := by omega
  have mq : q.multiShotLevel = 1 ∨ q.multiShotLevel = 2 ∨ q.multiShotLevel = 3 ∨
      q.multiShotLevel = 4 ∨ q.multiShotLevel = 5 := by omega
  refine ⟨⟨fun h => (hF.1 h).1, hF.2⟩, ?_, ?_, ?_, ?_⟩
  · rw [hLp]
    rcases mp with h | h | h | h | h <;> rw [h] <;> rfl
  · rw [hDp]
    rcases mp with h | h | h | h | h <;> rw [h] <;> rfl
  · intro hlt
    -- the weakest bullet of the larger volley
    have key : ∃ d ∈ (GameState.volley env q).map (fun b => b.damage),
        ∀ c ∈ (GameState.volley env p).map (fun b => b.damage), d < c := by
      rw [hLp, hLq] at hlt
      rw [hDp, hDq, hsame]
      rcases mp with h | h | h | h | h <;> rcases mq with k | k | k | k | k <;>
        rw [h, k] at hlt ⊢ <;>
        first
        | exact absurd hlt (by decide)
        | (simp
           omega)
    obtain ⟨d, hd, hall⟩ := key
    obtain ⟨b, hb, hbd⟩ := List.mem_map.mp hd
    refine ⟨b, hb, fun c hc => ?_⟩
    have hlt1 := hall c.damage (List.mem_map_of_mem _ hc)
    have hbd1 : b.damage = d := hbd
    omega
  · intro h3
    have hm : (10 + q.powerLevel * 5) ∈ (GameState.volley env q).map (fun b => b.damage) := by
      rw [hDq]
      rcases mq with k | k | k | k | k <;> rw [k] at h3 ⊢ <;>
        first
        | exact absurd h3 (by decide)
        | simp
    obtain ⟨b, hb, hbd⟩ := List.mem_map.mp hm
    exact ⟨b, hb, hbd⟩

/-- C23 amended, at power level 1 for the volleys of multi-shot levels 2 and 3: the volley of
    three contains a bullet (a side bullet, damage 11) weaker than both bullets of the pair
    (damage 14). -/
theorem volley_weakest_bullet_witness :
    ∃ b ∈ GameState.volley Env.sample (shipAt 1 3),
      ∀ c ∈ GameState.volley Env.sample (shipAt 1 2), b.damage < c.damage :=
  (volley_weakest_bullet Env.sample (GameState.new Env.sample []) (shipAt 1 2) (shipAt 1 3)
    ⟨by decide, by decide⟩ rfl ⟨by decide, by decide⟩ ⟨by decide, by decide⟩).2.2.2.1
    (by
      rw [volley_length, volley_length]
      decide)

/-! ### Pick-up drops -/

/-- When a player projectile kills an enemy, the roll `range(0, 100)` is made at the session's
    draw counter and a pick-up is added exactly when the roll passes the drop test. -/
theorem bulletHitsEnemy_drop (env : Env) (st : Bullet × GameState) (e : Enemy)
    (he : e.active = true) (hit : st.1.checkCollision env e.toGameObject = true)
    (hkill : e.health - (st.1.damage : ℚ) ≤ 0) :
    (GameState.bulletHitsEnemy env st e).2.2.powerUps.length =
      st.2.powerUps.length + (if dropsPickUp (env.randInt st.2.rng 0 100) then 1 else 0) := by
  have hna : ¬ ((!e.active) = true) := by simp [he]
  have hdead : (!(e.takeDamage (st.1.damage : ℚ)).active) = true := by
    unfold Enemy.takeDamage
    simp [hkill]
  unfold GameState.bulletHitsEnemy
  rw [if_neg hna, if_pos hit]
  simp only
  rw [if_pos hdead]
  unfold dropsPickUp
  by_cases hr : env.randInt st.2.rng 0 100 < 20
  · have hr' : env.randInt
        ((GameState.createExplosion
          { st.2 with player := st.2.player.addScore (e.takeDamage (st.1.damage : ℚ)).scoreValue }
          (e.takeDamage (st.1.damage : ℚ)).position).triggerScreenShake 5 (15 / 100)).rng 0 100
        < 20 := hr
    rw [if_pos hr']
    simp [hr, GameState.spawnPowerUpAt, GameState.createExplosion, GameState.triggerScreenShake]
  · have hr' : ¬ env.randInt
        ((GameState.createExplosion
          { st.2 with player := st.2.player.addScore (e.takeDamage (st.1.damage : ℚ)).scoreValue }
          (e.takeDamage (st.1.damage : ℚ)).position).triggerScreenShake 5 (15 / 100)).rng 0 100
        < 20 := hr
    rw [if_neg hr']
    simp [hr, GameState.createExplosion, GameState.triggerScreenShake]

/-- C27: the roll `RandomGenerator::range(0, 100)` made at an enemy kill has 101 possible values,
    0 to 100, and the drop test `roll < 20` passes for 20 of them: with the roll uniform over
    its values the drop probability is 20/101, not 1/5. -/
theorem drop_roll_fraction :
    (rangeValues 0 100).length = 101 ∧
    (100 : Int) ∈ rangeValues 0 100 ∧
    (rangeValues 0 100).countP dropsPickUp = 20 ∧
    (((rangeValues 0 100).countP dropsPickUp : ℕ) : ℚ) / ((rangeValues 0 100).length : ℚ)
      = 20 / 101 ∧
    (((rangeValues 0 100).countP dropsPickUp : ℕ) : ℚ) / ((rangeValues 0 100).length : ℚ)
      ≠ 1 / 5 := by
  have h1 : (rangeValues 0 100).length = 101 := by
    simp only [rangeValues, List.length_map, List.length_range]
    rfl
  have h2 : (rangeValues 0 100).countP dropsPickUp = 20 := by
    decide
  refine ⟨h1, by decide, h2, ?_, ?_⟩
  · rw [h1, h2]; norm_num
  · rw [h1, h2]; norm_num

/-! ### Pause -/

/-- The head of a tick leaves the actors, the containers and the director's fields alone. -/
theorem advanceClock_actors (env : Env) (s : GameState) (ft : ℚ) :
    (GameState.advanceClock env s ft).player = s.player ∧
    (GameState.advanceClock env s ft).enemies = s.enemies ∧
    (GameState.advanceClock env s ft).boss = s.boss ∧
    (GameState.advanceClock env s ft).bullets = s.bullets ∧
    (GameState.advanceClock env s ft).powerUps = s.powerUps ∧
    (GameState.advanceClock env s ft).explosions = s.explosions ∧
    (GameState.advanceClock env s ft).currentLevel = s.currentLevel ∧
    (GameState.advanceClock env s ft).currentPhase = s.currentPhase ∧
    (GameState.advanceClock env s ft).phaseTimer = s.phaseTimer ∧
    (GameState.advanceClock env s ft).isBossLevel = s.isBossLevel ∧
    (GameState.advanceClock env s ft).currentScreen = s.currentScreen := by
  unfold GameState.advanceClock
  simp only
  split_ifs <;> exact ⟨rfl, rfl, rfl, rfl, rfl, rfl, rfl, rfl, rfl, rfl, rfl⟩

/-- C24 fails as stated: a tick of 0.05 seconds on a paused session whose slow-time effect has
    0.03 seconds left changes the countdown to -0.02 and the multiplier from 0.4 to 1. -/
theorem pause_slow_time_counterexample :
    pausedExpiringScene.currentScreen = .Pause ∧
    pausedExpiringScene.slowTimeMultiplier = 4 / 10 ∧
    pausedExpiringScene.slowTimeTimer = 3 / 100 ∧
    (GameState.update Env.sample pausedExpiringScene (5 / 100)).slowTimeMultiplier = 1 ∧
    (GameState.update Env.sample pausedExpiringScene (5 / 100)).slowTimeTimer = -(2 / 100) ∧
    (GameState.update Env.sample pausedExpiringScene (5 / 100)).slowTimeMultiplier ≠
      pausedExpiringScene.slowTimeMultiplier ∧
    (GameState.update Env.sample pausedExpiringScene (5 / 100)).slowTimeTimer ≠
      pausedExpiringScene.slowTimeTimer := by
  have hm : pausedExpiringScene.slowTimeMultiplier = 4 / 10 := rfl
  have ht : pausedExpiringScene.slowTimeTimer = 3 / 100 := rfl
  have hs := (advanceClock_slow Env.sample pausedExpiringScene (5 / 100)).1
    (by rw [ht]; norm_num) (by rw [hm]; norm_num)
  rw [← update_paused Env.sample pausedExpiringScene (5 / 100) rfl] at hs
  have h1 : (GameState.update Env.sample pausedExpiringScene (5 / 100)).slowTimeTimer
      = -(2 / 100) := by
    rw [hs.1, ht]; norm_num
  have h2 : (GameState.update Env.sample pausedExpiringScene (5 / 100)).slowTimeMultiplier
      = 1 := by
    rw [hs.2, ht]; norm_num
  refine ⟨rfl, hm, ht, h2, h1, ?_, ?_⟩
  · rw [h2, hm]; norm_num
  · rw [h1, ht]; norm_num

/-- C24, amended: while the session screen is Pause, a tick leaves the player, the enemies, the
    boss, the projectiles, the pick-ups, the explosions, level and phase, the phase timer and
    the screen as they are. The slow-time countdown is not frozen: while it is positive the
    tick lowers it by the clamped frame time min(frame time, 0.05), and the multiplier returns
    to 1 when the countdown reaches 0 or less; a countdown that is already 0 or less and its
    multiplier are left as they are. -/
theorem pause_tick_frame (env : Env) (s : GameState) (ft : ℚ)
    (h : s.currentScreen = .Pause) :
    (GameState.update env s ft).player = s.player ∧
    (GameState.update env s ft).enemies = s.enemies ∧
    (GameState.update env s ft).boss = s.boss ∧
    (GameState.update env s ft).bullets = s.bullets ∧
    (GameState.update env s ft).powerUps = s.powerUps ∧
    (GameState.update env s ft).explosions = s.explosions ∧
    (GameState.update env s ft).currentLevel = s.currentLevel ∧
    (GameState.update env s ft).currentPhase = s.currentPhase ∧
    (GameState.update env s ft).phaseTimer = s.phaseTimer ∧
    (GameState.update env s ft).isBossLevel = s.isBossLevel ∧
    (GameState.update env s ft).currentScreen = .Pause ∧
    (0 < s.slowTimeTimer → s.slowTimeMultiplier ≠ 0 →
      (GameState.update env s ft).slowTimeTimer = s.slowTimeTimer - min ft (5 / 100) ∧
      (GameState.update env s ft).slowTimeMultiplier =
        (if s.slowTimeTimer - min ft (5 / 100) ≤ 0 then 1 else s.slowTimeMultiplier)) ∧
    (s.slowTimeTimer ≤ 0 →
      (GameState.update env s ft).slowTimeTimer = s.slowTimeTimer ∧
      (GameState.update env s ft).slowTimeMultiplier = s.slowTimeMultiplier) := by
  rw [update_paused env s ft h]
  obtain ⟨a1, a2, a3, a4, a5, a6, a7, a8, a9, a10, a11⟩ := advanceClock_actors env s ft
  exact ⟨a1, a2, a3, a4, a5, a6, a7, a8, a9, a10, a11.trans h,
    (advanceClock_slow env s ft).1, (advanceClock_slow env s ft).2⟩

/-- C24 amended, for a tick of 0.02 seconds on a paused session whose slow-time effect has just
    started: the player and the enemies are as before and 4.98 seconds of the effect remain. -/
theorem pause_tick_frame_witness :
    (GameState.update Env.sample pausedSlowScene (2 / 100)).player = pausedSlowScene.player ∧
    (GameState.update Env.sample pausedSlowScene (2 / 100)).enemies = pausedSlowScene.enemies ∧
    (GameState.update Env.sample pausedSlowScene (2 / 100)).slowTimeTimer = 498 / 100 := by
  have h := pause_tick_frame Env.sample pausedSlowScene (2 / 100) rfl
  have hm : pausedSlowScene.slowTimeMultiplier = 4 / 10 := rfl
  have ht : pausedSlowScene.slowTimeTimer = 5 := rfl
  refine ⟨h.1, h.2.1, ?_⟩
  rw [(h.2.2.2.2.2.2.2.2.2.2.2.1 (by rw [ht]; norm_num) (by rw [hm]; norm_num)).1, ht]
  norm_num

end SpaceShooter
